import Mathlib

/-!
# Verification of `src/ufuncs.c`

A shallow embedding of the vectorised dispatch layer of `src/ufuncs.c`
(geometry handles, the elementwise loops and the coordinate-sequence
constructors) together with theorems about it.

Conventions of the embedding

* The geometry engine (GEOS) and the host allocator are external: their answers
  are given by an `Env`, and every engine call made by the code is appended to
  the `log` of the `World`, oldest first.
* `D` is the type of C `double` values; the comparisons the code performs on
  them (`!=`, `== -1.0`) are fields of the `Env`.
* Pointers are natural numbers and `0` is `NULL`. Host objects live in
  `World.heap`; the object at address `a` is `heap[a - 1]`.
* Input arrays are functions from the element index to the element read at that
  position (this abstracts strides and broadcasting); output arrays are lists,
  position `i` being the slot `op1` points to at element `i`.
* Sizes and indices (`npy_intp`) are natural numbers.
* Reading through a pointer that is `NULL` or holds no object kills the process:
  the run ends in `Ctl.crash`, which is neither falling through nor returning.
-/

namespace Ufuncs

/-! ## Data model -/

/-- An engine pointer (`GEOSGeometry *`, `void *`); `0` is `NULL`. -/
abbrev Ptr := Nat

/-- The address of a host object (`PyObject *`); `0` is `NULL`. -/
abbrev Addr := Nat

/-- The exception types the code raises, the one registered with the engine
error handler, and `Exception` for any exception raised by host code that is
not part of this source. -/
inductive PyExc where
  | TypeError
  | ValueError
  | RuntimeError
  | MemoryError
  | GEOSException
  | Exception
deriving DecidableEq, Repr

/-- The host error indicator when set: exception type and message. -/
structure PyErr where
  exc : PyExc
  msg : String
deriving DecidableEq, Repr

/-- A host object as the code sees it. `ob_refcnt` is the reference count of
`PyObject_HEAD`; `is_geometry` says whether the type of the object is
`GeometryType` (or a subtype of it); `ptr`, `geom_type_id`, `has_z` are the
fields of `GeometryObject`, and for an object of another type they are whatever
its memory holds where a `GeometryObject` has these fields; `freed` records that
`tp_free` ran on the object. -/
structure GeometryObject where
  ob_refcnt : Int
  is_geometry : Bool
  freed : Bool
  ptr : Ptr
  geom_type_id : Int
  has_z : Int
deriving DecidableEq, Repr

/-- An engine coordinate sequence as this code knows it: the pointer returned by
`GEOSCoordSeq_create_r`, the size and dimension it was created with, and the
ordinates stored so far (newest first, as `(point, dimension, value)`). -/
structure CoordSeq (D : Type) where
  ptr : Ptr
  size : Nat
  dims : Nat
  ords : List (Nat × Nat × D)
deriving DecidableEq, Repr

/-- The ordinate of point `i`, dimension `j`: the value most recently stored
there, if any. -/
def CoordSeq.getOrdinate {D : Type} (cs : CoordSeq D) (i j : Nat) : Option D :=
  match cs.ords.find? (fun e => e.1 == i && e.2.1 == j) with
  | some e => some e.2.2
  | none => none

/-- The sequence after the engine accepted `setOrdinate(i, j, v)`. -/
def CoordSeq.setOrdinate {D : Type} (cs : CoordSeq D) (i j : Nat) (v : D) : CoordSeq D :=
  { cs with ords := (i, j, v) :: cs.ords }

/-- The engine calls made by the code. `data_*` are calls through the function
pointer `data` of a loop, tagged with the name under which it is registered. -/
inductive Call (D : Type) where
  | GEOSGeomTypeId_r (g : Ptr)
  | GEOSHasZ_r (g : Ptr)
  | GEOSGeom_clone_r (g : Ptr)
  | GEOSGeom_destroy_r (g : Ptr)
  | GEOSNormalize_r (g : Ptr)
  | GEOSGeom_createPolygon_r (shell : Ptr) (holes : List Ptr) (nholes : Nat)
  | GEOSBuffer_r (g : Ptr) (width : D) (quadsegs : Int)
  | GEOSSnap_r (a b : Ptr) (tolerance : D)
  | GEOSEqualsExact_r (a b : Ptr) (tolerance : D)
  | GEOSCoordSeq_create_r (size dims : Nat)
  | GEOSCoordSeq_setOrdinate_r (s : CoordSeq D) (idx dim : Nat) (val : D)
  | GEOSCoordSeq_destroy_r (s : CoordSeq D)
  | GEOSGeom_createPoint_r (s : CoordSeq D)
  | GEOSGeom_createLineString_r (s : CoordSeq D)
  | GEOSGeom_createLinearRing_r (s : CoordSeq D)
  | data_Y (name : String) (a : Ptr)
  | data_YY (name : String) (a b : Ptr)
  | data_Yd (name : String) (a : Ptr) (b : D)
  | data_Yi (name : String) (a : Ptr) (b : Int)
deriving DecidableEq, Repr

/-- The external collaborators: what the engine answers to each call, what it
reports to the error handler, whether the host allocator succeeds, and the
platform facts the code depends on. -/
structure Env (D : Type) where
  /-- Result of a call returning `int` or `char`. -/
  ret : Call D → Int
  /-- Result of a call returning a pointer. -/
  retp : Call D → Ptr
  /-- Result of a call returning `double`. -/
  retd : Call D → D
  /-- Value the call stores through its `double *` out-parameter, if it stores one. -/
  stored : Call D → Option D
  /-- Message the engine passes to the registered error handler during the call. -/
  report : Call D → Option String
  /-- Whether `tp_alloc` succeeds when the heap holds the given number of objects. -/
  tp_alloc_ok : Nat → Bool
  /-- Whether plain `char` is a signed type. -/
  char_signed : Bool
  /-- C `a != b` on doubles. -/
  dne : D → D → Bool
  /-- C `a == -1.0` on doubles. -/
  is_minus_one : D → Bool
  /-- Result of `PyObject_IsInstance(obj, &GeometryType)` for the object at the
  given address when its type is not `GeometryType`: `0`, or `1` for an object
  whose `__class__` claims to be a Geometry, or `-1` when the check itself
  raises. -/
  isinstance : Addr → Int
  /-- The exception a failing instance check on the object at the given address
  leaves in the error indicator. -/
  isinstance_exc : Addr → PyErr

/-- The state the code acts on: the host error indicator, the host objects and
the engine calls made so far. -/
structure World (D : Type) where
  err : Option PyErr
  heap : List GeometryObject
  log : List (Call D)
deriving DecidableEq, Repr

/-- Outcome of a statement sequence: control falls through with state `next`, or
the enclosing function executed `return` (or a loop executed `break`) with
state `ret`, or the process was killed in state `crash` because the code
dereferenced a pointer that is `NULL` or holds no object. -/
inductive Ctl (σ ρ : Type) where
  | next (s : σ)
  | ret (r : ρ)
  | crash (r : ρ)
deriving DecidableEq, Repr

/-- A counted `for` loop: runs `body` at `lo, lo+1, ..., lo+cnt-1`, stopping at the
first iteration that returns or in which the process is killed. -/
def forRange {σ ρ : Type} (body : Nat → σ → Ctl σ ρ) (lo : Nat) : Nat → σ → Ctl σ ρ
  | 0, s => .next s
  | cnt + 1, s =>
    match body lo s with
    | .next s1 => forRange body (lo + 1) cnt s1
    | .ret r => .ret r
    | .crash r => .crash r

/-- The state of an elementwise loop: the world and the output array. -/
structure St (D V : Type) where
  w : World D
  out : List V
deriving DecidableEq, Repr

/-- The state in which a loop or function ended, however it ended. -/
def Ctl.st {σ : Type} : Ctl σ σ → σ
  | .next s => s
  | .ret s => s
  | .crash s => s

variable {D : Type}

/-! ## Host primitives -/

/-- The object at address `a`, if `a` is the address of an object. -/
def World.obj (w : World D) (a : Addr) : Option GeometryObject :=
  if a = 0 then none else w.heap[a - 1]?

/-- Overwrite the object at address `a`. -/
def World.setObj (w : World D) (a : Addr) (o : GeometryObject) : World D :=
  { w with heap := w.heap.set (a - 1) o }

/-- Update the object at address `a` in place (a field assignment `a->f = v`). -/
def World.modObj (w : World D) (a : Addr) (f : GeometryObject → GeometryObject) : World D :=
  match w.obj a with
  | some o => w.setObj a (f o)
  | none => w

/-- `PyErr_SetString(exc, msg)`: set the error indicator. -/
def PyErr_SetString (exc : PyExc) (msg : String) (w : World D) : World D :=
  { w with err := some ⟨exc, msg⟩ }

/-- `PyErr_Format(exc, msg)` with a constant message. -/
def PyErr_Format (exc : PyExc) (msg : String) (w : World D) : World D :=
  { w with err := some ⟨exc, msg⟩ }

/-- `HandleGEOSError`: the registered engine error handler. -/
def HandleGEOSError (message : String) (userdata : PyExc) (w : World D) : World D :=
  PyErr_SetString userdata message w

/-- An engine call with a result: it is logged, and if the engine reports an
error during it the handler runs with the `GEOSException` it was registered
with. -/
def geos (E : Env D) (c : Call D) (w : World D) : World D :=
  let w1 : World D := { w with log := w.log ++ [c] }
  match E.report c with
  | some message => HandleGEOSError message .GEOSException w1
  | none => w1

/-- An engine call returning `void` (the destroy operations): it is logged. -/
def geosVoid (c : Call D) (w : World D) : World D :=
  { w with log := w.log ++ [c] }

/-- `type->tp_alloc(type, 0)` for `GeometryType`: a zero-filled object with
reference count 1 at a fresh address, or `NULL` with `MemoryError` set. -/
def tp_alloc (E : Env D) (w : World D) : World D × Addr :=
  if E.tp_alloc_ok w.heap.length then
    ({ w with heap := w.heap ++ [⟨1, true, false, 0, 0, 0⟩] }, w.heap.length + 1)
  else
    (PyErr_SetString .MemoryError "" w, 0)

/-- `tp_free`: the object's memory is released. -/
def tp_free (self : Addr) (w : World D) : World D :=
  w.modObj self (fun o => { o with freed := true })

/-- `GeometryObject_dealloc` (lines 106-115). -/
def GeometryObject_dealloc (self : Addr) (w : World D) : World D :=
  match w.obj self with
  | some o =>
    let w1 := if o.ptr ≠ 0 then geosVoid (.GEOSGeom_destroy_r o.ptr) w else w
    tp_free self w1
  | none => w

/-- `Py_DECREF(a)`: decrement the reference count and run the type's `tp_dealloc`
when it reaches zero (`GeometryObject_dealloc` for a Geometry; for an object of
another type the destructor is not part of this source and only `tp_free` is
modelled). -/
def Py_DECREF (a : Addr) (w : World D) : World D :=
  match w.obj a with
  | some o =>
    let w1 := w.modObj a (fun o => { o with ob_refcnt := o.ob_refcnt - 1 })
    if o.ob_refcnt - 1 = 0 then
      (if o.is_geometry then GeometryObject_dealloc a w1 else tp_free a w1)
    else w1
  | none => w

/-- `Py_XDECREF(a)`: `Py_DECREF` unless `a` is `NULL`. -/
def Py_XDECREF (a : Addr) (w : World D) : World D :=
  if a = 0 then w else Py_DECREF a w

/-- Conversion of an `int` to plain `char` (8 bits, two's complement when
signed). -/
def toChar (E : Env D) (x : Int) : Int :=
  if E.char_signed then (x + 128) % 256 - 128 else x % 256

/-! ## Geometry handles -/

/-- The `fail:` block of `GeometryObject_new_from_ptr` (lines 73-76). -/
def GeometryObject_new_from_ptr_fail (self : Addr) (w : World D) : World D × Addr :=
  (Py_DECREF self (PyErr_SetString .RuntimeError "Geometry initialization failed" w), 0)

/-- `GeometryObject_new_from_ptr` (lines 52-77). -/
def GeometryObject_new_from_ptr (E : Env D) (ptr : Ptr) (w : World D) : World D × Addr :=
  match tp_alloc E w with
  | (w0, self) =>
    if self ≠ 0 then
      let w1 := w0.modObj self (fun o => { o with ptr := ptr })
      let c1 : Call D := .GEOSGeomTypeId_r ptr
      let w2 := geos E c1 w1
      let geos_result := E.ret c1
      if geos_result < 0 ∨ geos_result > 255 then
        GeometryObject_new_from_ptr_fail self w2
      else
        let w3 := w2.modObj self (fun o => { o with geom_type_id := toChar E geos_result })
        let c2 : Call D := .GEOSHasZ_r ptr
        let w4 := geos E c2 w3
        let geos_result := E.ret c2
        if geos_result < 0 ∨ geos_result > 1 then
          GeometryObject_new_from_ptr_fail self w4
        else
          (w4.modObj self (fun o => { o with has_z := toChar E geos_result }), self)
    else (w0, self)

/-! ## The preprocessor definitions of lines 136-190 -/

/-- `RAISE_ILLEGAL_GEOS` (line 136): its `PyErr_Format` is commented out, so it
expands to nothing. -/
def RAISE_ILLEGAL_GEOS (w : World D) : World D := w

/-- `PyObject_IsInstance((PyObject *) a, (PyObject *) &GeometryType)`, a function
of the host. It reads the type of its argument, so for `NULL` or an address that
holds no object there is no result (`none`): the process is killed. For an
object whose type is `GeometryType` the answer is `1`. For any other object the
host consults the object itself (its `__class__`), which answers `0`, `1`, or
fails: then the result is `-1` and the exception raised is left in the error
indicator. -/
def PyObject_IsInstance (E : Env D) (w : World D) (a : Addr) : Option (World D × Int) :=
  match w.obj a with
  | none => none
  | some o =>
    if o.is_geometry then some (w, 1)
    else if E.isinstance a = -1 then some ({ w with err := some (E.isinstance_exc a) }, -1)
    else some (w, E.isinstance a)

/-- The field read `a->ptr`. -/
def ptrOf (w : World D) (a : Addr) : Ptr :=
  match w.obj a with
  | some o => o.ptr
  | none => 0

/-- `CHECK_GEOM(GEOM)` (lines 150-158). The first test is C `!r` on the `int`
result `r` of the instance check, which holds only for `r = 0`. -/
def CHECK_GEOM (E : Env D) (GEOM : Addr) (w : World D) : Ctl (World D) (World D) :=
  match PyObject_IsInstance E w GEOM with
  | none => .crash w
  | some (w1, r) =>
    if r = 0 then
      .ret (PyErr_Format .TypeError
        "One of the arguments is of incorrect type. Please provide only Geometry objects." w1)
    else if ptrOf w1 GEOM = 0 then
      .ret (PyErr_Format .ValueError "A geometry object is empty" w1)
    else .next w1

/-- `INPUT_Y` (lines 161-163), `in1` being the pointer read at `ip1`. -/
def INPUT_Y (E : Env D) (in1 : Addr) (w : World D) : Ctl (World D) (World D) :=
  CHECK_GEOM E in1 w

/-- `INPUT_YY` (lines 165-169). -/
def INPUT_YY (E : Env D) (in1 in2 : Addr) (w : World D) : Ctl (World D) (World D) :=
  match CHECK_GEOM E in1 w with
  | .ret r => .ret r
  | .crash r => .crash r
  | .next w1 => CHECK_GEOM E in2 w1

/-- `OUTPUT_b` (lines 171-176) at element `i`; `ret` is the `npy_bool` local. -/
def OUTPUT_b (ret : Int) (i : Nat) (s : St D Int) : Ctl (St D Int) (St D Int) :=
  if ¬ (ret = 0 ∨ ret = 1) then
    .ret { s with w := RAISE_ILLEGAL_GEOS s.w }
  else
    .next { s with out := s.out.set i ret }

/-- `OUTPUT_Y` (lines 178-190) at element `i`; `*out` is `s.out[i]`. -/
def OUTPUT_Y (E : Env D) (ret_ptr : Ptr) (i : Nat) (s : St D Addr) :
    Ctl (St D Addr) (St D Addr) :=
  if ret_ptr = 0 then
    .ret { s with w := RAISE_ILLEGAL_GEOS s.w }
  else
    match GeometryObject_new_from_ptr E ret_ptr s.w with
    | (w1, ret) =>
      if ret = 0 then
        .ret { s with
          w := PyErr_Format .RuntimeError "Could not instantiate a new Geometry object" w1 }
      else
        .next { w := Py_XDECREF (s.out.getD i 0) w1, out := s.out.set i ret }

/-- `CREATE_COORDSEQ(SIZE, NDIM)` (lines 137-141): on success the local
`coord_seq` is bound to the new, empty sequence. -/
def CREATE_COORDSEQ (E : Env D) (SIZE NDIM : Nat) (w : World D) :
    Ctl (World D × CoordSeq D) (World D) :=
  let c : Call D := .GEOSCoordSeq_create_r SIZE NDIM
  let w1 := geos E c w
  if E.retp c = 0 then .ret w1
  else .next (w1, ⟨E.retp c, SIZE, NDIM, []⟩)

/-- `SET_COORD(N, DIM)` (lines 143-148) with the local `coord`; the state is the
world and the local `coord_seq`. -/
def SET_COORD (E : Env D) (N DIM : Nat) (coord : D) (st : World D × CoordSeq D) :
    Ctl (World D × CoordSeq D) (World D) :=
  let c : Call D := .GEOSCoordSeq_setOrdinate_r st.2 N DIM coord
  let w1 := geos E c st.1
  if E.ret c = 0 then
    .ret (RAISE_ILLEGAL_GEOS (geosVoid (.GEOSCoordSeq_destroy_r st.2) w1))
  else
    .next (w1, st.2.setOrdinate N DIM coord)

/-- Modelled from the spec: the loop headers of `fast_loop_macros.h`, which is not
among the sources (`UNARY_LOOP`, `BINARY_LOOP`, `TERNARY_LOOP`,
`SINGLE_COREDIM_LOOP_OUTER` and `DOUBLE_COREDIM_LOOP_OUTER`). Each visits the
element positions `0 .. n-1` in order, advancing every argument pointer by its
stride, exactly as the loop written out in `polygons_with_holes_func`
(line 615) does. -/
def ELEMENT_LOOP {σ : Type} (body : Nat → σ → Ctl σ σ) (n : Nat) (s : σ) : Ctl σ σ :=
  forRange body 0 n s

/-- Modelled from the spec: the inner loop headers of `fast_loop_macros.h`
(`SINGLE_COREDIM_LOOP_INNER`, `DOUBLE_COREDIM_LOOP_INNER_1`,
`DOUBLE_COREDIM_LOOP_INNER_2`), which visit the positions `0 .. n_c-1` of a core
dimension in order, as the loop over the holes written out at line 624 does. -/
def COREDIM_LOOP {σ ρ : Type} (body : Nat → σ → Ctl σ ρ) (n_c : Nat) (s : σ) : Ctl σ ρ :=
  forRange body 0 n_c s

/-! ## The elementwise loops -/

/-- Body of `Y_b_func` (lines 207-211). -/
def Y_b_body (E : Env D) (func : Ptr → Call D) (in1 : Nat → Addr) (i : Nat)
    (s : St D Int) : Ctl (St D Int) (St D Int) :=
  match INPUT_Y E (in1 i) s.w with
  | .ret w => .ret { s with w := w }
  | .crash w => .crash { s with w := w }
  | .next w =>
    let c := func (ptrOf w (in1 i))
    let ret : Int := E.ret c % 256
    OUTPUT_b ret i { s with w := geos E c w }

/-- `Y_b_func` (lines 201-212): geometry to bool. -/
def Y_b_func (E : Env D) (func : Ptr → Call D) (in1 : Nat → Addr) (n : Nat)
    (s : St D Int) : Ctl (St D Int) (St D Int) :=
  ELEMENT_LOOP (Y_b_body E func in1) n s

/-- Body of `YY_b_func` (lines 235-239). -/
def YY_b_body (E : Env D) (func : Ptr → Ptr → Call D) (in1 in2 : Nat → Addr) (i : Nat)
    (s : St D Int) : Ctl (St D Int) (St D Int) :=
  match INPUT_YY E (in1 i) (in2 i) s.w with
  | .ret w => .ret { s with w := w }
  | .crash w => .crash { s with w := w }
  | .next w =>
    let c := func (ptrOf w (in1 i)) (ptrOf w (in2 i))
    let ret : Int := E.ret c % 256
    OUTPUT_b ret i { s with w := geos E c w }

/-- `YY_b_func` (lines 229-240): geometry, geometry to bool. -/
def YY_b_func (E : Env D) (func : Ptr → Ptr → Call D) (in1 in2 : Nat → Addr) (n : Nat)
    (s : St D Int) : Ctl (St D Int) (St D Int) :=
  ELEMENT_LOOP (YY_b_body E func in1 in2) n s

/-- An engine function of one geometry returning a geometry, as called through
`data` in `Y_Y_func`. -/
abbrev FuncGEOS_Y_Y (D : Type) := Env D → Ptr → World D → World D × Ptr

/-- A function of the engine itself used as `FuncGEOS_Y_Y`. -/
def engine_Y_Y (mk : Ptr → Call D) : FuncGEOS_Y_Y D :=
  fun E a w => (geos E (mk a) w, E.retp (mk a))

/-- `GEOSNormalize_r_with_clone` (lines 257-266). -/
def GEOSNormalize_r_with_clone : FuncGEOS_Y_Y D :=
  fun E geom w =>
    let c1 : Call D := .GEOSGeom_clone_r geom
    let w1 := geos E c1 w
    let ret := E.retp c1
    if ret = 0 then (w1, 0)
    else
      let c2 : Call D := .GEOSNormalize_r geom
      let w2 := geos E c2 w1
      if E.ret c2 = -1 then (w2, 0)
      else (w2, ret)

/-- `GEOSLinearRingToPolygon` (lines 269-275). -/
def GEOSLinearRingToPolygon : FuncGEOS_Y_Y D :=
  fun E geom w =>
    let c1 : Call D := .GEOSGeom_clone_r geom
    let w1 := geos E c1 w
    let shell := E.retp c1
    if shell = 0 then (w1, 0)
    else
      let c2 : Call D := .GEOSGeom_createPolygon_r shell [] 0
      (geos E c2 w1, E.retp c2)

/-- Body of `Y_Y_func` (lines 285-289). -/
def Y_Y_body (E : Env D) (func : FuncGEOS_Y_Y D) (in1 : Nat → Addr) (i : Nat)
    (s : St D Addr) : Ctl (St D Addr) (St D Addr) :=
  match INPUT_Y E (in1 i) s.w with
  | .ret w => .ret { s with w := w }
  | .crash w => .crash { s with w := w }
  | .next w =>
    match func E (ptrOf w (in1 i)) w with
    | (w1, ret_ptr) => OUTPUT_Y E ret_ptr i { s with w := w1 }

/-- `Y_Y_func` (lines 279-290): geometry to geometry. -/
def Y_Y_func (E : Env D) (func : FuncGEOS_Y_Y D) (in1 : Nat → Addr) (n : Nat)
    (s : St D Addr) : Ctl (St D Addr) (St D Addr) :=
  ELEMENT_LOOP (Y_Y_body E func in1) n s

/-- Body of `Yd_Y_func` (lines 306-311). -/
def Yd_Y_body (E : Env D) (func : Ptr → D → Call D) (in1 : Nat → Addr) (in2 : Nat → D)
    (i : Nat) (s : St D Addr) : Ctl (St D Addr) (St D Addr) :=
  match INPUT_Y E (in1 i) s.w with
  | .ret w => .ret { s with w := w }
  | .crash w => .crash { s with w := w }
  | .next w =>
    let c := func (ptrOf w (in1 i)) (in2 i)
    OUTPUT_Y E (E.retp c) i { s with w := geos E c w }

/-- `Yd_Y_func` (lines 300-312): geometry, double to geometry. -/
def Yd_Y_func (E : Env D) (func : Ptr → D → Call D) (in1 : Nat → Addr) (in2 : Nat → D)
    (n : Nat) (s : St D Addr) : Ctl (St D Addr) (St D Addr) :=
  ELEMENT_LOOP (Yd_Y_body E func in1 in2) n s

/-- Body of `Yi_Y_func` (lines 327-332). -/
def Yi_Y_body (E : Env D) (func : Ptr → Int → Call D) (in1 : Nat → Addr) (in2 : Nat → Int)
    (i : Nat) (s : St D Addr) : Ctl (St D Addr) (St D Addr) :=
  match INPUT_Y E (in1 i) s.w with
  | .ret w => .ret { s with w := w }
  | .crash w => .crash { s with w := w }
  | .next w =>
    let c := func (ptrOf w (in1 i)) (in2 i)
    OUTPUT_Y E (E.retp c) i { s with w := geos E c w }

/-- `Yi_Y_func` (lines 321-333): geometry, int to geometry. -/
def Yi_Y_func (E : Env D) (func : Ptr → Int → Call D) (in1 : Nat → Addr) (in2 : Nat → Int)
    (n : Nat) (s : St D Addr) : Ctl (St D Addr) (St D Addr) :=
  ELEMENT_LOOP (Yi_Y_body E func in1 in2) n s

/-- Body of `YY_Y_func` (lines 350-354). -/
def YY_Y_body (E : Env D) (func : Ptr → Ptr → Call D) (in1 in2 : Nat → Addr)
    (i : Nat) (s : St D Addr) : Ctl (St D Addr) (St D Addr) :=
  match INPUT_YY E (in1 i) (in2 i) s.w with
  | .ret w => .ret { s with w := w }
  | .crash w => .crash { s with w := w }
  | .next w =>
    let c := func (ptrOf w (in1 i)) (ptrOf w (in2 i))
    OUTPUT_Y E (E.retp c) i { s with w := geos E c w }

/-- `YY_Y_func` (lines 344-355): geometry, geometry to geometry. -/
def YY_Y_func (E : Env D) (func : Ptr → Ptr → Call D) (in1 in2 : Nat → Addr)
    (n : Nat) (s : St D Addr) : Ctl (St D Addr) (St D Addr) :=
  ELEMENT_LOOP (YY_Y_body E func in1 in2) n s

/-- The effect on the output array of passing `op1` as a `double *`
out-parameter to engine call `c` at element `i`. -/
def storeThrough (E : Env D) (c : Call D) (i : Nat) (out : List D) : List D :=
  match E.stored c with
  | some v => out.set i v
  | none => out

/-- Body of `Y_d_func` (lines 372-378). -/
def Y_d_body (E : Env D) (func : Ptr → Call D) (in1 : Nat → Addr) (i : Nat)
    (s : St D D) : Ctl (St D D) (St D D) :=
  match INPUT_Y E (in1 i) s.w with
  | .ret w => .ret { s with w := w }
  | .crash w => .crash { s with w := w }
  | .next w =>
    let c := func (ptrOf w (in1 i))
    let s1 : St D D := { w := geos E c w, out := storeThrough E c i s.out }
    if E.ret c = 0 then .ret { s1 with w := RAISE_ILLEGAL_GEOS s1.w }
    else .next s1

/-- `Y_d_func` (lines 366-379): geometry to double, through an out-parameter. -/
def Y_d_func (E : Env D) (func : Ptr → Call D) (in1 : Nat → Addr) (n : Nat)
    (s : St D D) : Ctl (St D D) (St D D) :=
  ELEMENT_LOOP (Y_d_body E func in1) n s

/-- `NPY_MAX_UBYTE`, from the host array headers. -/
def NPY_MAX_UBYTE : Int := 255

/-- `NPY_MAX_INT`, from the host array headers (`INT_MAX`). -/
def NPY_MAX_INT : Int := 2147483647

/-- Body of `Y_B_func` (lines 395-403). -/
def Y_B_body (E : Env D) (func : Ptr → Call D) (in1 : Nat → Addr) (i : Nat)
    (s : St D Int) : Ctl (St D Int) (St D Int) :=
  match INPUT_Y E (in1 i) s.w with
  | .ret w => .ret { s with w := w }
  | .crash w => .crash { s with w := w }
  | .next w =>
    let c := func (ptrOf w (in1 i))
    let ret := E.ret c
    let w1 := geos E c w
    if ret < 0 ∨ ret > NPY_MAX_UBYTE then .ret { s with w := RAISE_ILLEGAL_GEOS w1 }
    else .next { w := w1, out := s.out.set i (ret % 256) }

/-- `Y_B_func` (lines 388-404): geometry to unsigned byte. -/
def Y_B_func (E : Env D) (func : Ptr → Call D) (in1 : Nat → Addr) (n : Nat)
    (s : St D Int) : Ctl (St D Int) (St D Int) :=
  ELEMENT_LOOP (Y_B_body E func in1) n s

/-- Body of `Y_i_func` (lines 422-430). -/
def Y_i_body (E : Env D) (func : Ptr → Call D) (in1 : Nat → Addr) (i : Nat)
    (s : St D Int) : Ctl (St D Int) (St D Int) :=
  match INPUT_Y E (in1 i) s.w with
  | .ret w => .ret { s with w := w }
  | .crash w => .crash { s with w := w }
  | .next w =>
    let c := func (ptrOf w (in1 i))
    let ret := E.ret c
    let w1 := geos E c w
    if ret < 0 ∨ ret > NPY_MAX_INT then .ret { s with w := RAISE_ILLEGAL_GEOS w1 }
    else .next { w := w1, out := s.out.set i ret }

/-- `Y_i_func` (lines 415-431): geometry to int. -/
def Y_i_func (E : Env D) (func : Ptr → Call D) (in1 : Nat → Addr) (n : Nat)
    (s : St D Int) : Ctl (St D Int) (St D Int) :=
  ELEMENT_LOOP (Y_i_body E func in1) n s

/-- Body of `YY_d_func` (lines 445-451). -/
def YY_d_body (E : Env D) (func : Ptr → Ptr → Call D) (in1 in2 : Nat → Addr) (i : Nat)
    (s : St D D) : Ctl (St D D) (St D D) :=
  match INPUT_YY E (in1 i) (in2 i) s.w with
  | .ret w => .ret { s with w := w }
  | .crash w => .crash { s with w := w }
  | .next w =>
    let c := func (ptrOf w (in1 i)) (ptrOf w (in2 i))
    let s1 : St D D := { w := geos E c w, out := storeThrough E c i s.out }
    if E.ret c = 0 then .ret { s1 with w := RAISE_ILLEGAL_GEOS s1.w }
    else .next s1

/-- `YY_d_func` (lines 439-452): geometry, geometry to double, through an
out-parameter. -/
def YY_d_func (E : Env D) (func : Ptr → Ptr → Call D) (in1 in2 : Nat → Addr) (n : Nat)
    (s : St D D) : Ctl (St D D) (St D D) :=
  ELEMENT_LOOP (YY_d_body E func in1 in2) n s

/-- Body of `YY_d_2_func` (lines 467-475). -/
def YY_d_2_body (E : Env D) (func : Ptr → Ptr → Call D) (in1 in2 : Nat → Addr) (i : Nat)
    (s : St D D) : Ctl (St D D) (St D D) :=
  match INPUT_YY E (in1 i) (in2 i) s.w with
  | .ret w => .ret { s with w := w }
  | .crash w => .crash { s with w := w }
  | .next w =>
    let c := func (ptrOf w (in1 i)) (ptrOf w (in2 i))
    let ret := E.retd c
    let w1 := geos E c w
    if E.is_minus_one ret then .ret { s with w := RAISE_ILLEGAL_GEOS w1 }
    else .next { w := w1, out := s.out.set i ret }

/-- `YY_d_2_func` (lines 460-476): geometry, geometry to double, returned
directly. -/
def YY_d_2_func (E : Env D) (func : Ptr → Ptr → Call D) (in1 in2 : Nat → Addr) (n : Nat)
    (s : St D D) : Ctl (St D D) (St D D) :=
  ELEMENT_LOOP (YY_d_2_body E func in1 in2) n s

/-- Body of `buffer_func` (lines 487-493). -/
def buffer_body (E : Env D) (in1 : Nat → Addr) (in2 : Nat → D) (in3 : Nat → Int) (i : Nat)
    (s : St D Addr) : Ctl (St D Addr) (St D Addr) :=
  match INPUT_Y E (in1 i) s.w with
  | .ret w => .ret { s with w := w }
  | .crash w => .crash { s with w := w }
  | .next w =>
    let c : Call D := .GEOSBuffer_r (ptrOf w (in1 i)) (in2 i) (in3 i)
    OUTPUT_Y E (E.retp c) i { s with w := geos E c w }

/-- `buffer_func` (lines 482-494). -/
def buffer_func (E : Env D) (in1 : Nat → Addr) (in2 : Nat → D) (in3 : Nat → Int) (n : Nat)
    (s : St D Addr) : Ctl (St D Addr) (St D Addr) :=
  ELEMENT_LOOP (buffer_body E in1 in2 in3) n s

/-- Body of `snap_func` (lines 503-508). -/
def snap_body (E : Env D) (in1 in2 : Nat → Addr) (in3 : Nat → D) (i : Nat)
    (s : St D Addr) : Ctl (St D Addr) (St D Addr) :=
  match INPUT_YY E (in1 i) (in2 i) s.w with
  | .ret w => .ret { s with w := w }
  | .crash w => .crash { s with w := w }
  | .next w =>
    let c : Call D := .GEOSSnap_r (ptrOf w (in1 i)) (ptrOf w (in2 i)) (in3 i)
    OUTPUT_Y E (E.retp c) i { s with w := geos E c w }

/-- `snap_func` (lines 498-509). -/
def snap_func (E : Env D) (in1 in2 : Nat → Addr) (in3 : Nat → D) (n : Nat)
    (s : St D Addr) : Ctl (St D Addr) (St D Addr) :=
  ELEMENT_LOOP (snap_body E in1 in2 in3) n s

/-- Body of `equals_exact_func` (lines 518-523). -/
def equals_exact_body (E : Env D) (in1 in2 : Nat → Addr) (in3 : Nat → D) (i : Nat)
    (s : St D Int) : Ctl (St D Int) (St D Int) :=
  match INPUT_YY E (in1 i) (in2 i) s.w with
  | .ret w => .ret { s with w := w }
  | .crash w => .crash { s with w := w }
  | .next w =>
    let c : Call D := .GEOSEqualsExact_r (ptrOf w (in1 i)) (ptrOf w (in2 i)) (in3 i)
    let ret : Int := E.ret c % 256
    OUTPUT_b ret i { s with w := geos E c w }

/-- `equals_exact_func` (lines 513-524). -/
def equals_exact_func (E : Env D) (in1 in2 : Nat → Addr) (in3 : Nat → D) (n : Nat)
    (s : St D Int) : Ctl (St D Int) (St D Int) :=
  ELEMENT_LOOP (equals_exact_body E in1 in2 in3) n s

/-! ## The constructors from coordinates -/

/-- Body of `points_func` (lines 535-541). `in1 i i_c1` is the double read at
`cp1` for element `i` and coordinate `i_c1`. -/
def points_body (E : Env D) (in1 : Nat → Nat → D) (n_c1 : Nat) (i : Nat)
    (s : St D Addr) : Ctl (St D Addr) (St D Addr) :=
  match CREATE_COORDSEQ E 1 n_c1 s.w with
  | .ret w => .ret { s with w := w }
  | .crash w => .crash { s with w := w }
  | .next st0 =>
    match COREDIM_LOOP (fun i_c1 st => SET_COORD E 0 i_c1 (in1 i i_c1) st) n_c1 st0 with
    | .ret w => .ret { s with w := w }
    | .crash w => .crash { s with w := w }
    | .next st1 =>
      let c : Call D := .GEOSGeom_createPoint_r st1.2
      OUTPUT_Y E (E.retp c) i { s with w := geos E c st1.1 }

/-- `points_func` (lines 530-543). -/
def points_func (E : Env D) (in1 : Nat → Nat → D) (n_c1 : Nat) (n : Nat)
    (s : St D Addr) : Ctl (St D Addr) (St D Addr) :=
  ELEMENT_LOOP (points_body E in1 n_c1) n s

/-- The two nested loops that copy the `n_c1` by `n_c2` input block `rows` into
the coordinate sequence (lines 554-559 and 585-590): `rows i_c1 i_c2` is the
double read at `cp2`. -/
def fill_coords (E : Env D) (rows : Nat → Nat → D) (n_c1 n_c2 : Nat)
    (st : World D × CoordSeq D) : Ctl (World D × CoordSeq D) (World D) :=
  COREDIM_LOOP (fun i_c1 st1 =>
    COREDIM_LOOP (fun i_c2 st2 => SET_COORD E i_c1 i_c2 (rows i_c1 i_c2) st2) n_c2 st1)
    n_c1 st

/-- Body of `linestrings_func` (lines 553-561). `in1 i i_c1 i_c2` is the double of
element `i` at row `i_c1`, column `i_c2`. -/
def linestrings_body (E : Env D) (in1 : Nat → Nat → Nat → D) (n_c1 n_c2 : Nat) (i : Nat)
    (s : St D Addr) : Ctl (St D Addr) (St D Addr) :=
  match CREATE_COORDSEQ E n_c1 n_c2 s.w with
  | .ret w => .ret { s with w := w }
  | .crash w => .crash { s with w := w }
  | .next st0 =>
    match fill_coords E (in1 i) n_c1 n_c2 st0 with
    | .ret w => .ret { s with w := w }
    | .crash w => .crash { s with w := w }
    | .next st1 =>
      let c : Call D := .GEOSGeom_createLineString_r st1.2
      OUTPUT_Y E (E.retp c) i { s with w := geos E c st1.1 }

/-- `linestrings_func` (lines 548-563). -/
def linestrings_func (E : Env D) (in1 : Nat → Nat → Nat → D) (n_c1 n_c2 : Nat) (n : Nat)
    (s : St D Addr) : Ctl (St D Addr) (St D Addr) :=
  ELEMENT_LOOP (linestrings_body E in1 n_c1 n_c2) n s

/-- The local `ring_closure` of `linearrings_func` after the scan of lines
574-582: `1` if the first and last rows of the block `rows` differ (C `!=`) in
some column, else `0`. The last row is row `n_c1 - 1`. -/
def ring_closure (E : Env D) (rows : Nat → Nat → D) (n_c1 n_c2 : Nat) : Nat :=
  match COREDIM_LOOP (fun i_c2 (rc : Nat) =>
      let first_coord := rows 0 i_c2
      let last_coord := rows (n_c1 - 1) i_c2
      if E.dne first_coord last_coord then (Ctl.ret 1 : Ctl Nat Nat) else .next rc)
      n_c2 0 with
  | .next rc => rc
  | .ret rc => rc
  | .crash rc => rc

/-- The closing loop of `linearrings_func` (lines 592-597). -/
def close_ring (E : Env D) (rows : Nat → Nat → D) (n_c1 n_c2 : Nat) (closure : Nat)
    (st : World D × CoordSeq D) : Ctl (World D × CoordSeq D) (World D) :=
  if closure ≠ 0 then
    COREDIM_LOOP (fun i_c2 st2 => SET_COORD E n_c1 i_c2 (rows 0 i_c2) st2) n_c2 st
  else .next st

/-- Body of `linearrings_func` (lines 573-599). -/
def linearrings_body (E : Env D) (in1 : Nat → Nat → Nat → D) (n_c1 n_c2 : Nat) (i : Nat)
    (s : St D Addr) : Ctl (St D Addr) (St D Addr) :=
  let closure := ring_closure E (in1 i) n_c1 n_c2
  match CREATE_COORDSEQ E (n_c1 + closure) n_c2 s.w with
  | .ret w => .ret { s with w := w }
  | .crash w => .crash { s with w := w }
  | .next st0 =>
    match fill_coords E (in1 i) n_c1 n_c2 st0 with
    | .ret w => .ret { s with w := w }
    | .crash w => .crash { s with w := w }
    | .next st1 =>
      match close_ring E (in1 i) n_c1 n_c2 closure st1 with
      | .ret w => .ret { s with w := w }
      | .crash w => .crash { s with w := w }
      | .next st2 =>
        let c : Call D := .GEOSGeom_createLinearRing_r st2.2
        OUTPUT_Y E (E.retp c) i { s with w := geos E c st2.1 }

/-- `linearrings_func` (lines 568-601). -/
def linearrings_func (E : Env D) (in1 : Nat → Nat → Nat → D) (n_c1 n_c2 : Nat) (n : Nat)
    (s : St D Addr) : Ctl (St D Addr) (St D Addr) :=
  ELEMENT_LOOP (linearrings_body E in1 n_c1 n_c2) n s

/-- The loop over the holes of `polygons_with_holes_func` (lines 623-632); the
state is the world and the local array `holes`. `cells i_c1` is the pointer read
at `cp1`. -/
def clone_holes (E : Env D) (cells : Nat → Addr) (n_c1 : Nat)
    (st : World D × List Ptr) : Ctl (World D × List Ptr) (World D) :=
  forRange (fun i_c1 st1 =>
    match CHECK_GEOM E (cells i_c1) st1.1 with
    | .ret w => .ret w
    | .crash w => .crash w
    | .next w =>
      let c : Call D := .GEOSGeom_clone_r (ptrOf w (cells i_c1))
      let w1 := geos E c w
      let hole := E.retp c
      if hole = 0 then .ret w1
      else .next (w1, st1.2.set i_c1 hole)) 0 n_c1 st

/-- Body of `polygons_with_holes_func` (lines 616-634). -/
def polygons_with_holes_body (E : Env D) (in1 : Nat → Addr) (in2 : Nat → Nat → Addr)
    (n_c1 : Nat) (i : Nat) (s : St D Addr) : Ctl (St D Addr) (St D Addr) :=
  match CHECK_GEOM E (in1 i) s.w with
  | .ret w => .ret { s with w := w }
  | .crash w => .crash { s with w := w }
  | .next w =>
    let c : Call D := .GEOSGeom_clone_r (ptrOf w (in1 i))
    let w1 := geos E c w
    let shell := E.retp c
    if shell = 0 then .ret { s with w := w1 }
    else
      match clone_holes E (in2 i) n_c1 (w1, List.replicate n_c1 0) with
      | .ret w2 => .ret { s with w := w2 }
      | .crash w2 => .crash { s with w := w2 }
      | .next st =>
        let c2 : Call D := .GEOSGeom_createPolygon_r shell st.2 n_c1
        OUTPUT_Y E (E.retp c2) i { s with w := geos E c2 st.1 }

/-- `polygons_with_holes_func` (lines 606-636). -/
def polygons_with_holes_func (E : Env D) (in1 : Nat → Addr) (in2 : Nat → Nat → Addr)
    (n_c1 : Nat) (n : Nat) (s : St D Addr) : Ctl (St D Addr) (St D Addr) :=
  forRange (polygons_with_holes_body E in1 in2 n_c1) 0 n s

/-! ## Notions used to state the properties -/

/-- The error indicator after engine call `c`, given the indicator before it. -/
def errAfter (E : Env D) (c : Call D) (e : Option PyErr) : Option PyErr :=
  match E.report c with
  | some message => some ⟨.GEOSException, message⟩
  | none => e

/-- The calls logged when the object wrapping `ptr` is deallocated. -/
def destroyCalls (ptr : Ptr) : List (Call D) :=
  if ptr = 0 then [] else [.GEOSGeom_destroy_r ptr]

/-- How many times `GEOSGeom_destroy_r` was called on `p` in a log. -/
def destroyCount (p : Ptr) (log : List (Call D)) : Nat :=
  log.countP (fun c => match c with
    | .GEOSGeom_destroy_r q => q == p
    | _ => false)

/-- An engine over integer-valued coordinates that answers every call
successfully: type id `typeId`, has-Z `0`, every other integer result `1`, every
pointer result `7`, nothing reported. `allocOk` says whether the host allocator
succeeds and `signed` whether `char` is signed. -/
def okEnv (typeId : Int) (allocOk signed : Bool) : Env Int where
  ret := fun c => match c with
    | .GEOSGeomTypeId_r _ => typeId
    | .GEOSHasZ_r _ => 0
    | _ => 1
  retp := fun _ => 7
  retd := fun _ => 0
  stored := fun _ => none
  report := fun _ => none
  tp_alloc_ok := fun _ => allocOk
  char_signed := signed
  dne := fun a b => a != b
  is_minus_one := fun d => d == -1
  isinstance := fun _ => 0
  isinstance_exc := fun _ => ⟨.Exception, ""⟩

/-- The world before anything happened. -/
def emptyWorld : World Int := ⟨none, [], []⟩

/-- The exception `CHECK_GEOM` sets for an object that the instance check answers
`0` for. -/
def incorrectType : PyErr :=
  ⟨.TypeError, "One of the arguments is of incorrect type. Please provide only Geometry objects."⟩

/-- The exception `CHECK_GEOM` sets for a Geometry object whose pointer is null. -/
def emptyGeometry : PyErr := ⟨.ValueError, "A geometry object is empty"⟩

/-- The address `a` holds an object whose type is `GeometryType`. -/
def isGeometry (w : World D) (a : Addr) : Bool :=
  match w.obj a with
  | some o => o.is_geometry
  | none => false

/-- What keeps the value at address `a` from being a usable handle, if anything:
it is not a Geometry object, or it is one whose engine pointer is null. -/
def handleError (w : World D) (a : Addr) : Option PyErr :=
  if isGeometry w a = false then some incorrectType
  else if ptrOf w a = 0 then some emptyGeometry
  else none

/-- What keeps the first unusable one among the handle inputs of an element from
being usable, in argument order; `none` when all are usable. -/
def firstHandleError (w : World D) (handles : List Addr) : Option PyErr :=
  handles.findSome? (handleError w)

/-- `CHECK_GEOM` applied to the handle inputs of an element in argument order, as
`INPUT_Y` and `INPUT_YY` do. -/
def checkHandles (E : Env D) : List Addr → World D → Ctl (World D) (World D)
  | [], w => .next w
  | a :: rest, w =>
    match CHECK_GEOM E a w with
    | .next w1 => checkHandles E rest w1
    | .ret r => .ret r
    | .crash r => .crash r

/-- The outcome `after` of processing element `k`, reached with output array
`out`, whose engine result is `r` and after whose engine call the world is
`w1`: if the result is in range it is written at position `k` and the loop
goes on, otherwise the call returns with the output array untouched. -/
def WrittenIffInRange {V : Type} (inRange : Prop) (r : V) (k : Nat) (w1 : World D)
    (out : List V) (after : Ctl (St D V) (St D V)) : Prop :=
  (inRange → after = .next ⟨w1, out.set k r⟩) ∧ (¬ inRange → after = .ret ⟨w1, out⟩)

/-- The call ended by returning with the error indicator equal to `e`. -/
def ReturnedWithErr {V : Type} (e : Option PyErr) (r : Ctl (St D V) (St D V)) : Prop :=
  ∃ s1, r = .ret s1 ∧ s1.w.err = e

/-- Fail-fast behaviour of an elementwise loop. If the call over the first `k`
elements falls through and the call over the first `k + 1` returns in state
`s1` (element `k` is the first at which the call returns early), then the call
over any `n > k` elements returns in that same state `s1` (nothing is done for
an element after `k`), every position `i < k` holds what it held right after
element `i` was processed, and every position after `k` holds what it held
before the call. -/
def FailFast {V : Type} (loop : Nat → St D V → Ctl (St D V) (St D V)) : Prop :=
  ∀ n k s sk s1, k < n → loop k s = .next sk → loop (k + 1) s = .ret s1 →
    loop n s = .ret s1 ∧
    (∀ i si, i < k → loop (i + 1) s = .next si → s1.out[i]? = si.out[i]?) ∧
    (∀ j, k < j → s1.out[j]? = s.out[j]?)

/-- An early return at element `k` leaves output position `k` as it was before
the call. -/
def KeepsFailed {V : Type} (loop : Nat → St D V → Ctl (St D V) (St D V)) : Prop :=
  ∀ k s sk s1, loop k s = .next sk → loop (k + 1) s = .ret s1 → s1.out[k]? = s.out[k]?

/-- The shape shared by the bodies of the loops with a scalar output: validate
the handles, make engine call `mk i` (which reads the pointers of the handles),
and either accept the result and update the output array with `wr`, or return
with the output array updated with `rj`. -/
def scalarBody {V : Type} (E : Env D) (handles : Nat → List Addr)
    (mk : Nat → (Addr → Ptr) → Call D) (accept : Call D → Bool)
    (wr rj : Nat → Call D → List V → List V) (i : Nat) (s : St D V) :
    Ctl (St D V) (St D V) :=
  match checkHandles E (handles i) s.w with
  | .ret w => .ret ⟨w, s.out⟩
  | .crash w => .crash ⟨w, s.out⟩
  | .next w =>
    let c := mk i (ptrOf w)
    if accept c then .next ⟨geos E c w, wr i c s.out⟩
    else .ret ⟨geos E c w, rj i c s.out⟩

/-- The shape shared by the bodies of the loops with a handle output: validate
the handles, obtain a pointer from `f i` and hand it to `OUTPUT_Y`. -/
def handleBody (E : Env D) (handles : Nat → List Addr)
    (f : Nat → World D → World D × Ptr) (i : Nat) (s : St D Addr) :
    Ctl (St D Addr) (St D Addr) :=
  match checkHandles E (handles i) s.w with
  | .ret w => .ret ⟨w, s.out⟩
  | .crash w => .crash ⟨w, s.out⟩
  | .next w => OUTPUT_Y E (f i w).2 i ⟨(f i w).1, s.out⟩

/-- The handle input at address `a` is usable: it is a Geometry object and its
engine pointer is not null. -/
def Usable (w : World D) (a : Addr) : Prop :=
  isGeometry w a = true ∧ ptrOf w a ≠ 0

/-- An engine that fails silently: every integer result is `2`, every pointer
result is `NULL`, every double result is `-1`, nothing is stored through an
out-parameter and nothing is reported to the error handler. -/
def silentEnv : Env Int where
  ret := fun _ => 2
  retp := fun _ => 0
  retd := fun _ => -1
  stored := fun _ => none
  report := fun _ => none
  tp_alloc_ok := fun _ => true
  char_signed := true
  dne := fun a b => a != b
  is_minus_one := fun d => d == -1
  isinstance := fun _ => 0
  isinstance_exc := fun _ => ⟨.Exception, ""⟩

/-- A world holding one usable geometry, at address 1, wrapping engine pointer 5. -/
def oneGeometry : World Int := ⟨none, [⟨1, true, false, 5, 0, 0⟩], []⟩

/-- What a successful `OUTPUT_Y` achieves at element `i`. `s` is the state before
it, `w1` the world right after the new handle `ret` was built around `ret_ptr`,
`after` the outcome. The loop goes on; slot `i` holds `ret`, a live Geometry
object with reference count 1 wrapping exactly `ret_ptr`; if the slot was null
the world is `w1` (nothing was released); if it held the address `old` of an
object, that object's reference count went down by exactly one and no other
object was touched. -/
def SlotFilled (ret_ptr : Ptr) (i : Nat) (s : St D Addr) (w1 : World D) (ret : Addr)
    (after : Ctl (St D Addr) (St D Addr)) : Prop :=
  ∃ s1, after = .next s1 ∧ s1.out = s.out.set i ret ∧ s1.out[i]? = some ret ∧
    (∃ o, s1.w.obj ret = some o ∧ o.is_geometry = true ∧ o.ptr = ret_ptr ∧
      o.ob_refcnt = 1 ∧ o.freed = false) ∧
    (s.out[i]? = some 0 → s1.w = w1) ∧
    (∀ old o, s.out[i]? = some old → old ≠ 0 → s.w.obj old = some o →
      (∃ o1, s1.w.obj old = some o1 ∧ o1.ob_refcnt = o.ob_refcnt - 1) ∧
      (∀ b, b ≠ old → s1.w.obj b = w1.obj b))

/-- A loop body touches the output array only at the position of its own element
and not at all when it returns. -/
def BodyLocal {V : Type} (body : Nat → St D V → Ctl (St D V) (St D V)) : Prop :=
  ∀ i s, (∀ s1, body i s = .next s1 → ∀ j, j ≠ i → s1.out[j]? = s.out[j]?) ∧
    (∀ r, body i s = .ret r → r.out = s.out)

/-- Where a call stands with respect to coordinate sequences: none is open;
one (with the given engine pointer) is allocated and being filled; a
set-ordinate call on it was just rejected; it was destroyed after a rejection
and the call has to stop; or the discipline was broken. -/
inductive SeqPhase where
  | idle
  | filling (p : Ptr)
  | rejected (p : Ptr)
  | stopped
  | violated
deriving DecidableEq, Repr

/-- One step of the discipline of C10, reading one engine call. A sequence is
opened by a successful `GEOSCoordSeq_create_r`. While it is being filled,
accepted set-ordinate calls on it keep it open, a rejected one must be followed
immediately by `GEOSCoordSeq_destroy_r` on it, after which no further engine
call may be made; passing it to a build-geometry call closes it, after which it
may be neither set, destroyed nor built from again. Calls that do not concern
coordinate sequences are ignored. -/
def seqStep (E : Env D) : SeqPhase → Call D → SeqPhase
  | .idle, .GEOSCoordSeq_create_r size dims =>
    if E.retp (.GEOSCoordSeq_create_r size dims) = 0 then .idle
    else .filling (E.retp (.GEOSCoordSeq_create_r size dims))
  | .idle, .GEOSCoordSeq_setOrdinate_r _ _ _ _ => .violated
  | .idle, .GEOSCoordSeq_destroy_r _ => .violated
  | .idle, .GEOSGeom_createPoint_r _ => .violated
  | .idle, .GEOSGeom_createLineString_r _ => .violated
  | .idle, .GEOSGeom_createLinearRing_r _ => .violated
  | .idle, _ => .idle
  | .filling _, .GEOSCoordSeq_create_r _ _ => .violated
  | .filling p, .GEOSCoordSeq_setOrdinate_r s idx dim val =>
    if s.ptr = p then
      (if E.ret (.GEOSCoordSeq_setOrdinate_r s idx dim val) = 0 then .rejected p else .filling p)
    else .violated
  | .filling _, .GEOSCoordSeq_destroy_r _ => .violated
  | .filling p, .GEOSGeom_createPoint_r s => if s.ptr = p then .idle else .violated
  | .filling p, .GEOSGeom_createLineString_r s => if s.ptr = p then .idle else .violated
  | .filling p, .GEOSGeom_createLinearRing_r s => if s.ptr = p then .idle else .violated
  | .filling p, _ => .filling p
  | .rejected p, .GEOSCoordSeq_destroy_r s => if s.ptr = p then .stopped else .violated
  | .rejected _, _ => .violated
  | .stopped, _ => .violated
  | .violated, _ => .violated

/-- The phase reached from `ph` after the engine calls of `log`, in order. -/
def seqRun (E : Env D) (ph : SeqPhase) (log : List (Call D)) : SeqPhase :=
  log.foldl (seqStep E) ph

/-- The engine calls of `log` dispose of every coordinate sequence they allocate
exactly once: read from the start, they never break the discipline of
`seqStep`, and at the end no sequence is left open. -/
def DisposedOnce (E : Env D) (log : List (Call D)) : Prop :=
  seqRun E .idle log = .idle ∨ seqRun E .idle log = .stopped

/-- The call hands a coordinate sequence to a geometry constructor. -/
def Call.isBuild : Call D → Bool
  | .GEOSGeom_createPoint_r _ => true
  | .GEOSGeom_createLineString_r _ => true
  | .GEOSGeom_createLinearRing_r _ => true
  | _ => false

/-- The call is one of those made while a handle is built or released. -/
def Call.isHandleCall : Call D → Bool
  | .GEOSGeomTypeId_r _ => true
  | .GEOSHasZ_r _ => true
  | .GEOSGeom_destroy_r _ => true
  | _ => false

/-- From world `w0` to world `w1` the log grew by calls that take the discipline
from phase `ph0` to phase `ph1` and none of which is a build call. -/
def Tracks (E : Env D) (ph0 ph1 : SeqPhase) (w0 w1 : World D) : Prop :=
  ∃ new, w1.log = w0.log ++ new ∧ seqRun E ph0 new = ph1 ∧ ∀ c ∈ new, c.isBuild = false

/-- The outcome `r` of a loop or loop body started in world `w0` with no sequence
open: the calls it added keep the discipline, leave no sequence open if it
fell through, and leave none open or end with the destruction that stops the
call if it returned (or if the process was killed, which none of the three
constructors from coordinates can be: they read no handle). -/
def PhaseOK {V : Type} (E : Env D) (w0 : World D) (r : Ctl (St D V) (St D V)) : Prop :=
  ∃ new, r.st.w.log = w0.log ++ new ∧
    match r with
    | .next _ => seqRun E .idle new = .idle
    | .ret _ => seqRun E .idle new = .idle ∨ seqRun E .idle new = .stopped
    | .crash _ => seqRun E .idle new = .idle ∨ seqRun E .idle new = .stopped

/-- The rows `[[0,0],[1,0],[1,1]]`: a ring whose last row differs from its first. -/
def openRing (r c : Nat) : Int := ([[0, 0], [1, 0], [1, 1]].getD r []).getD c 0

/-- The rows `[[0,0],[1,0],[1,1],[0,0]]`: a ring that is already closed. -/
def closedRing (r c : Nat) : Int := ([[0, 0], [1, 0], [1, 1], [0, 0]].getD r []).getD c 0

/-- An engine over integer-valued coordinates that rejects every set-ordinate
call at dimension 1 and otherwise answers like `okEnv 3 true true`. -/
def rejectingEnv : Env Int where
  ret := fun c => match c with
    | .GEOSGeomTypeId_r _ => 3
    | .GEOSHasZ_r _ => 0
    | .GEOSCoordSeq_setOrdinate_r _ _ dim _ => if dim = 1 then 0 else 1
    | _ => 1
  retp := fun _ => 7
  retd := fun _ => 0
  stored := fun _ => none
  report := fun _ => none
  tp_alloc_ok := fun _ => true
  char_signed := true
  dne := fun a b => a != b
  is_minus_one := fun d => d == -1
  isinstance := fun _ => 0
  isinstance_exc := fun _ => ⟨.Exception, ""⟩

/-- An engine over integer-valued coordinates whose clone of pointer `g` is the
new pointer `g + 10`, whose polygon constructor returns pointer 30, and which
otherwise answers like `okEnv 3 true true`. -/
def cloningEnv : Env Int where
  ret := (okEnv 3 true true).ret
  retp := fun c => match c with
    | .GEOSGeom_clone_r g => g + 10
    | .GEOSGeom_createPolygon_r _ _ _ => 30
    | _ => 7
  retd := fun _ => 0
  stored := fun _ => none
  report := fun _ => none
  tp_alloc_ok := fun _ => true
  char_signed := true
  dne := fun a b => a != b
  is_minus_one := fun d => d == -1
  isinstance := fun _ => 0
  isinstance_exc := fun _ => ⟨.Exception, ""⟩

/-- The engine `cloningEnv`, except that the in-place normalize reports failure
(-1). -/
def failingNormalizeEnv : Env Int where
  ret := fun c => match c with
    | .GEOSNormalize_r _ => -1
    | c => cloningEnv.ret c
  retp := cloningEnv.retp
  retd := fun _ => 0
  stored := fun _ => none
  report := fun _ => none
  tp_alloc_ok := fun _ => true
  char_signed := true
  dne := fun a b => a != b
  is_minus_one := fun d => d == -1
  isinstance := fun _ => 0
  isinstance_exc := fun _ => ⟨.Exception, ""⟩

/-- A world holding two usable geometries, at addresses 1 and 2, wrapping engine
pointers 5 and 6, and at address 3 an object that is not a Geometry. -/
def shellHoleOther : World Int :=
  ⟨none, [⟨1, true, false, 5, 0, 0⟩, ⟨1, true, false, 6, 0, 0⟩, ⟨1, false, false, 0, 0, 0⟩], []⟩

/-- What a call writes into a coordinate sequence: index, dimension and value for
a `GEOSCoordSeq_setOrdinate_r` call, nothing for any other call. -/
def Call.written : Call D → Option (Nat × Nat × D)
  | .GEOSCoordSeq_setOrdinate_r _ idx dim val => some (idx, dim, val)
  | _ => none

/-- How many `GEOSCoordSeq_setOrdinate_r` calls in a log address ordinate
`(i, j)`. -/
def setCount (i j : Nat) (log : List (Call D)) : Nat :=
  log.countP (fun c => match c with
    | .GEOSCoordSeq_setOrdinate_r _ idx dim _ => idx == i && dim == j
    | _ => false)

/-- The rows `[[0,0],[1,1],[2,2]]`. -/
def diagonalRows (r c : Nat) : Int := ([[0, 0], [1, 1], [2, 2]].getD r []).getD c 0

/-- The call is the engine's polygon constructor. -/
def Call.isCreatePolygon : Call D → Bool
  | .GEOSGeom_createPolygon_r _ _ _ => true
  | _ => false

/-- The handles the caller supplied for element `k` of `polygons_with_holes_func`:
the shell and the `n_c1` holes. -/
def callerHandles (in1 : Nat → Addr) (in2 : Nat → Nat → Addr) (n_c1 k : Nat) : List Addr :=
  in1 k :: (List.range n_c1).map (in2 k)

/-- A loop body touches the output array only at the position of its own
element, whether it falls through or returns. -/
def BodyFrame {V : Type} (body : Nat → St D V → Ctl (St D V) (St D V)) : Prop :=
  ∀ i s r, (body i s = .next r ∨ body i s = .ret r) → ∀ j, j ≠ i → r.out[j]? = s.out[j]?

/-- An engine over integer-valued coordinates whose out-parameter functions
store 42 through the output pointer and then report failure (status 0); every
other answer is that of `okEnv 0 true true`. -/
def storingEnv : Env Int where
  ret := fun c => match c with
    | .data_Y _ _ => 0
    | .data_YY _ _ _ => 0
    | c => (okEnv 0 true true).ret c
  retp := fun _ => 7
  retd := fun _ => 0
  stored := fun _ => some 42
  report := fun _ => none
  tp_alloc_ok := fun _ => true
  char_signed := true
  dne := fun a b => a != b
  is_minus_one := fun d => d == -1
  isinstance := fun _ => 0
  isinstance_exc := fun _ => ⟨.Exception, ""⟩

/-- The engine `okEnv 0 true true` in a host where the instance check fails
(`-1`, with an exception set) for every object that is not a Geometry. -/
def raisingCheckEnv : Env Int where
  ret := (okEnv 0 true true).ret
  retp := fun _ => 7
  retd := fun _ => 0
  stored := fun _ => none
  report := fun _ => none
  tp_alloc_ok := fun _ => true
  char_signed := true
  dne := fun a b => a != b
  is_minus_one := fun d => d == -1
  isinstance := fun _ => -1
  isinstance_exc := fun _ => ⟨.Exception, "__class__"⟩

/-- A world holding a usable geometry at address 1 (engine pointer 5) and, at
address 2, a Geometry object whose engine pointer is null. -/
def usableAndEmpty : World Int :=
  ⟨none, [⟨1, true, false, 5, 0, 0⟩, ⟨1, true, false, 0, 0, 0⟩], []⟩

/-- A world holding, at address 1, an object that is not a Geometry and whose
memory reads as 9 where a Geometry has its engine pointer. -/
def foreignObject : World Int := ⟨none, [⟨1, false, false, 9, 0, 0⟩], []⟩

/-- What a loop with a scalar output that makes engine call `mk i p` for element
`i` (`p` reads the engine pointers of the handles) and writes `val` of it has
done when it returns early at element `k`: every position `i < k` of the
output array holds `val` of the call for element `i`, and the engine calls made
are one per element before `k`, in order, followed by at most the call for
element `k`. -/
def ScalarResults {V : Type} (loop : Nat → St D V → Ctl (St D V) (St D V))
    (mk : Nat → (Addr → Ptr) → Call D) (val : Call D → V) : Prop :=
  ∀ k s sk s1, loop k s = .next sk → loop (k + 1) s = .ret s1 →
    (∀ i, i < k → i < s.out.length → s1.out[i]? = some (val (mk i (ptrOf s.w)))) ∧
    (s1.w.log = s.w.log ++ (List.range k).map (fun i => mk i (ptrOf s.w)) ∨
     s1.w.log = s.w.log ++ (List.range k).map (fun i => mk i (ptrOf s.w))
        ++ [mk k (ptrOf s.w)])

/-- What a loop whose engine function stores its result through the output
pointer has done when it returns early at element `k`: every position `i < k`
holds what the call for element `i` stored there; and either element `k` failed
validation, no call was made for it and position `k` is as before the call, or
the call for element `k` was made and position `k` holds what that call stored
there before it reported failure. -/
def StoredResults (E : Env D) (loop : Nat → St D D → Ctl (St D D) (St D D))
    (mk : Nat → (Addr → Ptr) → Call D) : Prop :=
  ∀ k s sk s1, loop k s = .next sk → loop (k + 1) s = .ret s1 →
    (∀ i, i < k → s1.out[i]? = (storeThrough E (mk i (ptrOf s.w)) i s.out)[i]?) ∧
    ((s1.w.log = s.w.log ++ (List.range k).map (fun i => mk i (ptrOf s.w)) ∧
      s1.out[k]? = s.out[k]?) ∨
     (s1.w.log = s.w.log ++ (List.range k).map (fun i => mk i (ptrOf s.w))
        ++ [mk k (ptrOf s.w)] ∧
      s1.out[k]? = (storeThrough E (mk k (ptrOf s.w)) k s.out)[k]?))

/-- What a loop with a handle output has done when it returns early at element
`k`: for every `i < k`, the loop reached element `i` in some state `si`, the
element obtained (`pre`) a non-null engine pointer `p` in a world `t`, and
position `i` of the output array holds the handle that
`GeometryObject_new_from_ptr` built for `p` in `t`. -/
def HandleResults (E : Env D) (loop : Nat → St D Addr → Ctl (St D Addr) (St D Addr))
    (pre : Nat → World D → World D → Ptr → Prop) : Prop :=
  ∀ k s sk s1, loop k s = .next sk → loop (k + 1) s = .ret s1 →
    ∀ i, i < k → i < s.out.length →
      ∃ si t p, loop i s = .next si ∧ pre i si.w t p ∧ p ≠ 0 ∧
        (GeometryObject_new_from_ptr E p t).2 ≠ 0 ∧
        s1.out[i]? = some (GeometryObject_new_from_ptr E p t).2


/-! # Properties -/


/-! ## Loops -/

theorem forRange_add {σ ρ : Type} (body : Nat → σ → Ctl σ ρ) (lo a b : Nat) (s : σ) :
    forRange body lo (a + b) s =
      match forRange body lo a s with
      | .next s1 => forRange body (lo + a) b s1
      | .ret r => .ret r
      | .crash r => .crash r := by
  induction a generalizing lo s with
  | zero => simp [forRange]
  | succ a ih =>
    have e1 : a + 1 + b = (a + b) + 1 := by omega
    rw [e1]
    simp only [forRange]
    cases h : body lo s with
    | next s1 =>
      simp only [ih]
      have e2 : lo + 1 + a = lo + (a + 1) := by omega
      rw [e2]
    | ret r => rfl
    | crash r => rfl

theorem forRange_one {σ ρ : Type} (body : Nat → σ → Ctl σ ρ) (lo : Nat) (s : σ) :
    forRange body lo 1 s = body lo s := by
  simp only [forRange]
  cases body lo s <;> rfl

theorem forRange_step {σ ρ : Type} (body : Nat → σ → Ctl σ ρ) (k : Nat) (s sk : σ)
    (h : forRange body 0 k s = .next sk) :
    forRange body 0 (k + 1) s = body k sk := by
  rw [forRange_add, h]
  simp [forRange_one]

theorem forRange_ret_mono {σ ρ : Type} (body : Nat → σ → Ctl σ ρ) (lo k n : Nat) (s : σ) (r : ρ)
    (h : forRange body lo k s = .ret r) (hkn : k ≤ n) :
    forRange body lo n s = .ret r := by
  obtain ⟨d, rfl⟩ := Nat.exists_eq_add_of_le hkn
  rw [forRange_add, h]

theorem forRange_stop {σ ρ : Type} (body : Nat → σ → Ctl σ ρ) (k n : Nat) (s sk : σ) (r : ρ)
    (hkn : k < n) (h : forRange body 0 k s = .next sk) (hb : body k sk = .ret r) :
    forRange body 0 n s = .ret r :=
  forRange_ret_mono body 0 (k + 1) n s r (by rw [forRange_step body k s sk h, hb]) hkn

/-- An invariant of the iterations that fall through holds when the loop falls
through. -/
theorem forRange_inv {σ ρ : Type} (body : Nat → σ → Ctl σ ρ) (P : Nat → σ → Prop)
    (lo cnt : Nat) (s s1 : σ) (h0 : P lo s)
    (hstep : ∀ i t t1, lo ≤ i → i < lo + cnt → P i t → body i t = .next t1 → P (i + 1) t1)
    (h : forRange body lo cnt s = .next s1) : P (lo + cnt) s1 := by
  induction cnt generalizing lo s with
  | zero => simp [forRange] at h; subst h; simpa using h0
  | succ cnt ih =>
    simp only [forRange] at h
    cases hb : body lo s with
    | next t1 =>
      rw [hb] at h
      have := ih (lo + 1) t1 (hstep lo s t1 (Nat.le_refl _) (by omega) h0 hb)
        (fun i t t2 h1 h2 => hstep i t t2 (by omega) (by omega)) h
      have e : lo + 1 + cnt = lo + (cnt + 1) := by omega
      rwa [e] at this
    | ret r => rw [hb] at h; cases h
    | crash r => rw [hb] at h; cases h

/-- A loop that returns does so in some iteration reached by falling through the
earlier ones. -/
theorem forRange_ret_inv {σ ρ : Type} (body : Nat → σ → Ctl σ ρ) (lo cnt : Nat) (s : σ) (r : ρ)
    (h : forRange body lo cnt s = .ret r) :
    ∃ d t, d < cnt ∧ forRange body lo d s = .next t ∧ body (lo + d) t = .ret r := by
  induction cnt generalizing lo s with
  | zero => simp [forRange] at h
  | succ cnt ih =>
    simp only [forRange] at h
    cases hb : body lo s with
    | next t1 =>
      rw [hb] at h
      obtain ⟨d, t, hd, h1, h2⟩ := ih (lo + 1) t1 h
      refine ⟨d + 1, t, by omega, ?_, ?_⟩
      · simp only [forRange, hb]; exact h1
      · have e : lo + (d + 1) = lo + 1 + d := by omega
        rw [e]; exact h2
    | ret r1 =>
      rw [hb] at h
      exact ⟨0, s, by omega, rfl, by simpa [hb] using h⟩
    | crash r1 => rw [hb] at h; cases h

/-- A loop whose body never kills the process does not either. -/
theorem forRange_no_crash {σ ρ : Type} (body : Nat → σ → Ctl σ ρ)
    (hbody : ∀ i t r, body i t ≠ .crash r) (lo cnt : Nat) (s : σ) (r : ρ) :
    forRange body lo cnt s ≠ .crash r := by
  induction cnt generalizing lo s with
  | zero => simp [forRange]
  | succ cnt ih =>
    simp only [forRange]
    cases hb : body lo s with
    | next t1 => exact ih (lo + 1) t1
    | ret r1 => simp
    | crash r1 => exact absurd hb (hbody lo s r1)

/-- When a loop falls through, so does every shorter run of it. -/
theorem forRange_next_prefix {σ ρ : Type} (body : Nat → σ → Ctl σ ρ) (a b : Nat) (s sk : σ)
    (h : forRange body 0 (a + b) s = .next sk) :
    ∃ sa, forRange body 0 a s = .next sa ∧ forRange body (0 + a) b sa = .next sk := by
  rw [forRange_add] at h
  cases ha : forRange body 0 a s with
  | next sa => rw [ha] at h; exact ⟨sa, rfl, h⟩
  | ret r => rw [ha] at h; cases h
  | crash r => rw [ha] at h; cases h

/-! ## Host primitives -/

theorem geos_eq (E : Env D) (c : Call D) (w : World D) :
    geos E c w = ⟨errAfter E c w.err, w.heap, w.log ++ [c]⟩ := by
  unfold geos errAfter HandleGEOSError PyErr_SetString
  cases E.report c <;> rfl

theorem obj_new (e : Option PyErr) (h : List GeometryObject) (l : List (Call D))
    (o : GeometryObject) :
    (World.mk e (h ++ [o]) l : World D).obj (h.length + 1) = some o := by
  simp [World.obj]

theorem obj_old (e : Option PyErr) (hp : List GeometryObject) (l : List (Call D))
    (o : GeometryObject) (a : Nat) (ha : a ≤ hp.length) :
    (World.mk e (hp ++ [o]) l : World D).obj a = (World.mk e hp l : World D).obj a := by
  unfold World.obj
  by_cases h0 : a = 0
  · simp [h0]
  · have h1 : a - 1 < hp.length := by omega
    simp only [h0, if_false]
    exact List.getElem?_append_left h1

theorem modObj_new (e : Option PyErr) (h : List GeometryObject) (l : List (Call D))
    (o : GeometryObject) (f : GeometryObject → GeometryObject) :
    (World.mk e (h ++ [o]) l : World D).modObj (h.length + 1) f = ⟨e, h ++ [f o], l⟩ := by
  simp [World.modObj, obj_new, World.setObj, List.set_append_right]

/-! ## Geometry handles -/

theorem tp_alloc_ok_eq (E : Env D) (w : World D) (h : E.tp_alloc_ok w.heap.length = true) :
    tp_alloc E w
      = (⟨w.err, w.heap ++ [⟨1, true, false, 0, 0, 0⟩], w.log⟩, w.heap.length + 1) := by
  simp [tp_alloc, h]

theorem tp_alloc_fail_eq (E : Env D) (w : World D) (h : E.tp_alloc_ok w.heap.length = false) :
    tp_alloc E w = (⟨some ⟨.MemoryError, ""⟩, w.heap, w.log⟩, 0) := by
  simp [tp_alloc, h, PyErr_SetString]


theorem new_from_ptr_fail_eq (e : Option PyErr) (hp : List GeometryObject) (l : List (Call D))
    (ptr : Ptr) (g z : Int) :
    GeometryObject_new_from_ptr_fail (hp.length + 1) (⟨e, hp ++ [⟨1, true, false, ptr, g, z⟩], l⟩ : World D)
      = (⟨some ⟨.RuntimeError, "Geometry initialization failed"⟩,
          hp ++ [⟨0, true, true, ptr, g, z⟩], l ++ destroyCalls ptr⟩, 0) := by
  by_cases h0 : ptr = 0
  · simp [GeometryObject_new_from_ptr_fail, Py_DECREF, PyErr_SetString, obj_new, modObj_new,
      GeometryObject_dealloc, tp_free, destroyCalls, h0]
  · simp [GeometryObject_new_from_ptr_fail, Py_DECREF, PyErr_SetString, obj_new, modObj_new,
      GeometryObject_dealloc, tp_free, destroyCalls, h0, geosVoid]

theorem new_from_ptr_alloc_fail (E : Env D) (ptr : Ptr) (w : World D)
    (h : E.tp_alloc_ok w.heap.length = false) :
    GeometryObject_new_from_ptr E ptr w = (⟨some ⟨.MemoryError, ""⟩, w.heap, w.log⟩, 0) := by
  simp [GeometryObject_new_from_ptr, tp_alloc_fail_eq E w h]

theorem new_from_ptr_bad_type (E : Env D) (ptr : Ptr) (w : World D)
    (h : E.tp_alloc_ok w.heap.length = true)
    (ht : E.ret (.GEOSGeomTypeId_r ptr) < 0 ∨ E.ret (.GEOSGeomTypeId_r ptr) > 255) :
    GeometryObject_new_from_ptr E ptr w
      = (⟨some ⟨.RuntimeError, "Geometry initialization failed"⟩,
          w.heap ++ [⟨0, true, true, ptr, 0, 0⟩],
          w.log ++ [.GEOSGeomTypeId_r ptr] ++ destroyCalls ptr⟩, 0) := by
  simp [GeometryObject_new_from_ptr, tp_alloc_ok_eq E w h, modObj_new, geos_eq, ht,
    new_from_ptr_fail_eq]

theorem new_from_ptr_bad_z (E : Env D) (ptr : Ptr) (w : World D)
    (h : E.tp_alloc_ok w.heap.length = true)
    (ht : ¬ (E.ret (.GEOSGeomTypeId_r ptr) < 0 ∨ E.ret (.GEOSGeomTypeId_r ptr) > 255))
    (hz : E.ret (.GEOSHasZ_r ptr) < 0 ∨ E.ret (.GEOSHasZ_r ptr) > 1) :
    GeometryObject_new_from_ptr E ptr w
      = (⟨some ⟨.RuntimeError, "Geometry initialization failed"⟩,
          w.heap ++ [⟨0, true, true, ptr, toChar E (E.ret (.GEOSGeomTypeId_r ptr)), 0⟩],
          w.log ++ [.GEOSGeomTypeId_r ptr, .GEOSHasZ_r ptr] ++ destroyCalls ptr⟩, 0) := by
  simp [GeometryObject_new_from_ptr, tp_alloc_ok_eq E w h, modObj_new, geos_eq, ht, hz,
    new_from_ptr_fail_eq]

theorem new_from_ptr_ok (E : Env D) (ptr : Ptr) (w : World D)
    (h : E.tp_alloc_ok w.heap.length = true)
    (ht : ¬ (E.ret (.GEOSGeomTypeId_r ptr) < 0 ∨ E.ret (.GEOSGeomTypeId_r ptr) > 255))
    (hz : ¬ (E.ret (.GEOSHasZ_r ptr) < 0 ∨ E.ret (.GEOSHasZ_r ptr) > 1)) :
    GeometryObject_new_from_ptr E ptr w
      = (⟨errAfter E (.GEOSHasZ_r ptr) (errAfter E (.GEOSGeomTypeId_r ptr) w.err),
          w.heap ++ [⟨1, true, false, ptr, toChar E (E.ret (.GEOSGeomTypeId_r ptr)),
                      toChar E (E.ret (.GEOSHasZ_r ptr))⟩],
          w.log ++ [.GEOSGeomTypeId_r ptr, .GEOSHasZ_r ptr]⟩, w.heap.length + 1) := by
  simp [GeometryObject_new_from_ptr, tp_alloc_ok_eq E w h, modObj_new, geos_eq, ht, hz]

/-! ## C5 and C6: construction of a handle -/

theorem destroyCount_append (p : Ptr) (l1 l2 : List (Call D)) :
    destroyCount p (l1 ++ l2) = destroyCount p l1 + destroyCount p l2 := by
  simp [destroyCount, List.countP_append]

theorem destroyCount_destroyCalls (p : Nat) (hp : p ≠ 0) :
    destroyCount p (destroyCalls p : List (Call D)) = 1 := by
  simp [destroyCount, destroyCalls, hp]

/-- C5, as amended. When the host allocates the handle object and the pointer
given is not null, `GeometryObject_new_from_ptr` returns a handle if and only if
the type-id query answers a value in 0..255 and the has-Z query answers 0 or 1;
when it returns no handle the error `Geometry initialization failed` is set and
`GEOSGeom_destroy_r` has been called exactly once more on the pointer; when it
returns a handle the pointer has not been destroyed. -/
theorem GeometryObject_new_from_ptr_handle_iff (E : Env D) (ptr : Nat) (w : World D)
    (halloc : E.tp_alloc_ok w.heap.length = true) (hptr : ptr ≠ 0) :
    ((GeometryObject_new_from_ptr E ptr w).2 ≠ 0 ↔
      (0 ≤ E.ret (.GEOSGeomTypeId_r ptr) ∧ E.ret (.GEOSGeomTypeId_r ptr) ≤ 255 ∧
       0 ≤ E.ret (.GEOSHasZ_r ptr) ∧ E.ret (.GEOSHasZ_r ptr) ≤ 1)) ∧
    ((GeometryObject_new_from_ptr E ptr w).2 = 0 →
      (GeometryObject_new_from_ptr E ptr w).1.err
          = some ⟨.RuntimeError, "Geometry initialization failed"⟩ ∧
      destroyCount ptr (GeometryObject_new_from_ptr E ptr w).1.log
          = destroyCount ptr w.log + 1) ∧
    ((GeometryObject_new_from_ptr E ptr w).2 ≠ 0 →
      destroyCount ptr (GeometryObject_new_from_ptr E ptr w).1.log
          = destroyCount ptr w.log) := by
  by_cases ht : E.ret (.GEOSGeomTypeId_r ptr) < 0 ∨ E.ret (.GEOSGeomTypeId_r ptr) > 255
  · rw [new_from_ptr_bad_type E ptr w halloc ht]
    refine ⟨?_, ?_, ?_⟩
    · constructor
      · intro h; exact absurd rfl h
      · rintro ⟨h1, h2, -, -⟩; omega
    · intro _
      refine ⟨rfl, ?_⟩
      show destroyCount ptr (w.log ++ [.GEOSGeomTypeId_r ptr] ++ destroyCalls ptr) = _
      rw [destroyCount_append, destroyCount_append, destroyCount_destroyCalls ptr hptr]
      simp [destroyCount]
    · intro h; exact absurd rfl h
  · by_cases hz : E.ret (.GEOSHasZ_r ptr) < 0 ∨ E.ret (.GEOSHasZ_r ptr) > 1
    · rw [new_from_ptr_bad_z E ptr w halloc ht hz]
      refine ⟨?_, ?_, ?_⟩
      · constructor
        · intro h; exact absurd rfl h
        · rintro ⟨-, -, h1, h2⟩; omega
      · intro _
        refine ⟨rfl, ?_⟩
        show destroyCount ptr (w.log ++ [.GEOSGeomTypeId_r ptr, .GEOSHasZ_r ptr] ++ destroyCalls ptr) = _
        rw [destroyCount_append, destroyCount_append, destroyCount_destroyCalls ptr hptr]
        simp [destroyCount]
      · intro h; exact absurd rfl h
    · rw [new_from_ptr_ok E ptr w halloc ht hz]
      refine ⟨?_, ?_, ?_⟩
      · constructor
        · intro _; omega
        · intro _; simp
      · intro h; simp at h
      · intro _
        show destroyCount ptr (w.log ++ [.GEOSGeomTypeId_r ptr, .GEOSHasZ_r ptr]) = _
        rw [destroyCount_append]
        simp [destroyCount]

/-- C5 is applicable: an engine reporting type id 300 for pointer 7. -/
theorem GeometryObject_new_from_ptr_handle_iff_witness :
    ((GeometryObject_new_from_ptr (okEnv 300 true true) 7 emptyWorld).2 ≠ 0 ↔
      (0 ≤ (okEnv 300 true true).ret (.GEOSGeomTypeId_r 7) ∧
       (okEnv 300 true true).ret (.GEOSGeomTypeId_r 7) ≤ 255 ∧
       0 ≤ (okEnv 300 true true).ret (.GEOSHasZ_r 7) ∧
       (okEnv 300 true true).ret (.GEOSHasZ_r 7) ≤ 1)) ∧
    ((GeometryObject_new_from_ptr (okEnv 300 true true) 7 emptyWorld).2 = 0 →
      (GeometryObject_new_from_ptr (okEnv 300 true true) 7 emptyWorld).1.err
          = some ⟨.RuntimeError, "Geometry initialization failed"⟩ ∧
      destroyCount 7 (GeometryObject_new_from_ptr (okEnv 300 true true) 7 emptyWorld).1.log
          = destroyCount 7 emptyWorld.log + 1) ∧
    ((GeometryObject_new_from_ptr (okEnv 300 true true) 7 emptyWorld).2 ≠ 0 →
      destroyCount 7 (GeometryObject_new_from_ptr (okEnv 300 true true) 7 emptyWorld).1.log
          = destroyCount 7 emptyWorld.log) :=
  GeometryObject_new_from_ptr_handle_iff (okEnv 300 true true) 7 emptyWorld (by decide) (by decide)

/-- C5 as stated fails when the host cannot allocate the handle object: both
queries would answer in range (type id 3, has-Z 0), yet no handle is returned,
the error set is not `Geometry initialization failed`, and the pointer is not
destroyed. -/
theorem GeometryObject_new_from_ptr_alloc_failure :
    (0 ≤ (okEnv 3 false true).ret (.GEOSGeomTypeId_r 7) ∧
     (okEnv 3 false true).ret (.GEOSGeomTypeId_r 7) ≤ 255 ∧
     0 ≤ (okEnv 3 false true).ret (.GEOSHasZ_r 7) ∧
     (okEnv 3 false true).ret (.GEOSHasZ_r 7) ≤ 1) ∧
    (GeometryObject_new_from_ptr (okEnv 3 false true) 7 emptyWorld).2 = 0 ∧
    (GeometryObject_new_from_ptr (okEnv 3 false true) 7 emptyWorld).1.err
        ≠ some ⟨.RuntimeError, "Geometry initialization failed"⟩ ∧
    destroyCount 7 (GeometryObject_new_from_ptr (okEnv 3 false true) 7 emptyWorld).1.log = 0 := by
  decide

/-- What `toChar` preserves: every value in 0..127, and every value in 0..255 when
`char` is unsigned. -/
theorem toChar_eq_self (E : Env D) (x : Int) (h0 : 0 ≤ x)
    (h1 : x ≤ 127 ∨ (E.char_signed = false ∧ x ≤ 255)) : toChar E x = x := by
  unfold toChar
  cases hs : E.char_signed with
  | true =>
    rcases h1 with h | h
    · simp only [if_true]; omega
    · rw [hs] at h; exact absurd h.1 (by decide)
  | false =>
    simp only [Bool.false_eq_true, if_false]
    rcases h1 with h | h <;> omega

/-- A handle that is built stores the engine's type id and has-Z answers
converted to `char`; the has-Z answer (0 or 1) and a type id up to 127 read
back unchanged. -/
theorem GeometryObject_new_from_ptr_fields (E : Env D) (ptr : Nat) (w w1 : World D) (a : Nat)
    (h : GeometryObject_new_from_ptr E ptr w = (w1, a)) (ha : a ≠ 0) :
    ∃ o, w1.obj a = some o ∧ o.ptr = ptr ∧
      o.geom_type_id = toChar E (E.ret (.GEOSGeomTypeId_r ptr)) ∧
      o.has_z = E.ret (.GEOSHasZ_r ptr) ∧
      (E.ret (.GEOSGeomTypeId_r ptr) ≤ 127 ∨ E.char_signed = false →
        o.geom_type_id = E.ret (.GEOSGeomTypeId_r ptr)) := by
  by_cases halloc : E.tp_alloc_ok w.heap.length = true
  · by_cases ht : E.ret (.GEOSGeomTypeId_r ptr) < 0 ∨ E.ret (.GEOSGeomTypeId_r ptr) > 255
    · rw [new_from_ptr_bad_type E ptr w halloc ht] at h
      cases h; exact absurd rfl ha
    · by_cases hz : E.ret (.GEOSHasZ_r ptr) < 0 ∨ E.ret (.GEOSHasZ_r ptr) > 1
      · rw [new_from_ptr_bad_z E ptr w halloc ht hz] at h
        cases h; exact absurd rfl ha
      · rw [new_from_ptr_ok E ptr w halloc ht hz] at h
        cases h
        refine ⟨_, obj_new _ _ _ _, rfl, rfl, ?_, ?_⟩
        · exact toChar_eq_self E _ (by omega) (Or.inl (by omega))
        · intro hsmall
          refine toChar_eq_self E _ (by omega) ?_
          rcases hsmall with h1 | h1
          · exact Or.inl h1
          · exact Or.inr ⟨h1, by omega⟩
  · rw [new_from_ptr_alloc_fail E ptr w (by simpa using halloc)] at h
    cases h; exact absurd rfl ha

/-- C6 at the failing input: on a platform whose `char` is signed, an engine
pointer whose type id is reported as 200 (inside 0..255) yields a handle whose
`geom_type_id` field reads back as -56. -/
theorem GeometryObject_new_from_ptr_type_id_200 :
    (okEnv 200 true true).ret (.GEOSGeomTypeId_r 7) = 200 ∧
    GeometryObject_new_from_ptr (okEnv 200 true true) 7 emptyWorld
      = (⟨none, [⟨1, true, false, 7, -56, 0⟩],
          [.GEOSGeomTypeId_r 7, .GEOSHasZ_r 7]⟩, 1) := by
  decide

/-! ## Validation of handle inputs -/

theorem handleError_none_iff (w : World D) (a : Addr) :
    handleError w a = none ↔ Usable w a := by
  unfold handleError Usable
  by_cases h1 : isGeometry w a = false
  · simp [h1]
  · by_cases h2 : ptrOf w a = 0
    · simp [h1, h2]
    · simp [h1, h2]

theorem firstHandleError_one (w : World D) (a : Addr) (h : Usable w a) :
    firstHandleError w [a] = none := by
  simp [firstHandleError, List.findSome?, (handleError_none_iff w a).2 h]

theorem firstHandleError_two (w : World D) (a b : Addr) (ha : Usable w a) (hb : Usable w b) :
    firstHandleError w [a, b] = none := by
  simp [firstHandleError, List.findSome?, (handleError_none_iff w a).2 ha,
    (handleError_none_iff w b).2 hb]

/-- On a usable handle `CHECK_GEOM` falls through and changes nothing. -/
theorem CHECK_GEOM_usable (E : Env D) (a : Addr) (w : World D) (h : Usable w a) :
    CHECK_GEOM E a w = .next w := by
  obtain ⟨hg, hp⟩ := h
  unfold isGeometry at hg
  unfold CHECK_GEOM PyObject_IsInstance
  cases ho : w.obj a with
  | none => rw [ho] at hg; cases hg
  | some o =>
    rw [ho] at hg
    simp only at hg
    simp [hg, hp]

/-- The ways `CHECK_GEOM` can end: the process is killed with nothing changed,
or it falls through or returns having changed at most the error indicator. -/
theorem CHECK_GEOM_cases (E : Env D) (a : Addr) (w : World D) :
    ∃ e, CHECK_GEOM E a w = .crash w ∨ CHECK_GEOM E a w = .next ⟨e, w.heap, w.log⟩ ∨
      CHECK_GEOM E a w = .ret ⟨e, w.heap, w.log⟩ := by
  unfold CHECK_GEOM PyObject_IsInstance
  cases w.obj a with
  | none => exact ⟨none, Or.inl rfl⟩
  | some o =>
    simp only
    by_cases hg : o.is_geometry = true
    · simp only [hg, if_true]
      by_cases hp : ptrOf w a = 0
      · exact ⟨some emptyGeometry, Or.inr (Or.inr (by simp [hp, PyErr_Format, emptyGeometry]))⟩
      · exact ⟨w.err, Or.inr (Or.inl (by simp [hp]))⟩
    · simp only [hg]
      by_cases hm : E.isinstance a = -1
      · simp only [hm, if_true]
        by_cases hp : ptrOf (D := D) { w with err := some (E.isinstance_exc a) } a = 0
        · exact ⟨some emptyGeometry,
            Or.inr (Or.inr (by simp [hp, PyErr_Format, emptyGeometry]))⟩
        · exact ⟨some (E.isinstance_exc a), Or.inr (Or.inl (by simp [hp]))⟩
      · simp only [hm, if_false]
        by_cases h0 : E.isinstance a = 0
        · exact ⟨some incorrectType,
            Or.inr (Or.inr (by simp [h0, PyErr_Format, incorrectType]))⟩
        · by_cases hp : ptrOf w a = 0
          · exact ⟨some emptyGeometry,
              Or.inr (Or.inr (by simp [h0, hp, PyErr_Format, emptyGeometry]))⟩
          · exact ⟨w.err, Or.inr (Or.inl (by simp [h0, hp]))⟩

/-- However `CHECK_GEOM` ends, it leaves the heap and the log of engine calls as
they were: it can only change the error indicator. -/
theorem CHECK_GEOM_frame (E : Env D) (a : Addr) (w w1 : World D)
    (h : CHECK_GEOM E a w = .next w1 ∨ CHECK_GEOM E a w = .ret w1 ∨
      CHECK_GEOM E a w = .crash w1) :
    w1.heap = w.heap ∧ w1.log = w.log := by
  obtain ⟨e, hc | hc | hc⟩ := CHECK_GEOM_cases E a w <;> rw [hc] at h <;>
    rcases h with h | h | h <;> cases h <;> exact ⟨rfl, rfl⟩

theorem checkHandles_frame (E : Env D) (l : List Addr) :
    ∀ (w w1 : World D),
    (checkHandles E l w = .next w1 ∨ checkHandles E l w = .ret w1 ∨
      checkHandles E l w = .crash w1) →
    w1.heap = w.heap ∧ w1.log = w.log := by
  induction l with
  | nil =>
    intro w w1 h
    simp only [checkHandles] at h
    rcases h with h | h | h <;> cases h
    exact ⟨rfl, rfl⟩
  | cons a rest ih =>
    intro w w1 h
    simp only [checkHandles] at h
    cases hc : CHECK_GEOM E a w with
    | next w2 =>
      rw [hc] at h
      obtain ⟨h1, h2⟩ := CHECK_GEOM_frame E a w w2 (Or.inl hc)
      obtain ⟨h3, h4⟩ := ih w2 w1 h
      exact ⟨by rw [h3, h1], by rw [h4, h2]⟩
    | ret r =>
      rw [hc] at h
      have : r = w1 := by rcases h with h | h | h <;> cases h; rfl
      subst this
      exact CHECK_GEOM_frame E a w r (Or.inr (Or.inl hc))
    | crash r =>
      rw [hc] at h
      have : r = w1 := by rcases h with h | h | h <;> cases h; rfl
      subst this
      exact CHECK_GEOM_frame E a w r (Or.inr (Or.inr hc))

/-- When every handle input is usable the validation falls through and changes
nothing. -/
theorem checkHandles_usable (E : Env D) (l : List Addr) (w : World D)
    (h : firstHandleError w l = none) : checkHandles E l w = .next w := by
  induction l with
  | nil => rfl
  | cons a rest ih =>
    unfold firstHandleError at h ih
    rw [List.findSome?_cons] at h
    cases ha : handleError w a with
    | some e => rw [ha] at h; cases h
    | none =>
      rw [ha] at h
      simp only [checkHandles, CHECK_GEOM_usable E a w ((handleError_none_iff w a).1 ha)]
      exact ih h

theorem INPUT_Y_eq (E : Env D) (a : Addr) (w : World D) :
    INPUT_Y E a w = checkHandles E [a] w := by
  simp only [INPUT_Y, checkHandles]
  cases CHECK_GEOM E a w <;> rfl

theorem INPUT_YY_eq (E : Env D) (a b : Addr) (w : World D) :
    INPUT_YY E a b w = checkHandles E [a, b] w := by
  simp only [INPUT_YY, checkHandles]
  cases CHECK_GEOM E a w with
  | next w1 => simp only; cases CHECK_GEOM E b w1 <;> rfl
  | ret r => rfl
  | crash r => rfl

/-! ## The loop bodies as instances of the two shapes -/

theorem ite_not_decide {α : Type} (p : Prop) [Decidable p] (a b : α) :
    (if ¬ p then a else b) = (if decide p = true then b else a) := by
  by_cases h : p <;> simp [h]

theorem ite_decide_not {α : Type} (p : Prop) [Decidable p] (a b : α) :
    (if p then a else b) = (if decide (¬ p) = true then b else a) := by
  by_cases h : p <;> simp [h]

theorem ite_bnot {α : Type} (b : Bool) (x y : α) :
    (if b = true then x else y) = (if (!b) = true then y else x) := by
  cases b <;> simp

theorem Y_b_body_eq (E : Env D) (func : Ptr → Call D) (in1 : Nat → Addr) :
    Y_b_body E func in1 = scalarBody E (fun i => [in1 i]) (fun i p => func (p (in1 i)))
      (fun c => decide (E.ret c % 256 = 0 ∨ E.ret c % 256 = 1))
      (fun i c out => out.set i (E.ret c % 256)) (fun _ _ out => out) := by
  funext i s
  simp only [Y_b_body, scalarBody, INPUT_Y_eq, OUTPUT_b, RAISE_ILLEGAL_GEOS]
  cases checkHandles E [in1 i] s.w with
  | next w => exact ite_not_decide _ _ _
  | ret w => rfl
  | crash w => rfl

theorem YY_b_body_eq (E : Env D) (func : Ptr → Ptr → Call D) (in1 in2 : Nat → Addr) :
    YY_b_body E func in1 in2 = scalarBody E (fun i => [in1 i, in2 i])
      (fun i p => func (p (in1 i)) (p (in2 i)))
      (fun c => decide (E.ret c % 256 = 0 ∨ E.ret c % 256 = 1))
      (fun i c out => out.set i (E.ret c % 256)) (fun _ _ out => out) := by
  funext i s
  simp only [YY_b_body, scalarBody, INPUT_YY_eq, OUTPUT_b, RAISE_ILLEGAL_GEOS]
  cases checkHandles E [in1 i, in2 i] s.w with
  | next w => exact ite_not_decide _ _ _
  | ret w => rfl
  | crash w => rfl

theorem equals_exact_body_eq (E : Env D) (in1 in2 : Nat → Addr) (in3 : Nat → D) :
    equals_exact_body E in1 in2 in3 = scalarBody E (fun i => [in1 i, in2 i])
      (fun i p => .GEOSEqualsExact_r (p (in1 i)) (p (in2 i)) (in3 i))
      (fun c => decide (E.ret c % 256 = 0 ∨ E.ret c % 256 = 1))
      (fun i c out => out.set i (E.ret c % 256)) (fun _ _ out => out) := by
  funext i s
  simp only [equals_exact_body, scalarBody, INPUT_YY_eq, OUTPUT_b, RAISE_ILLEGAL_GEOS]
  cases checkHandles E [in1 i, in2 i] s.w with
  | next w => exact ite_not_decide _ _ _
  | ret w => rfl
  | crash w => rfl

theorem Y_B_body_eq (E : Env D) (func : Ptr → Call D) (in1 : Nat → Addr) :
    Y_B_body E func in1 = scalarBody E (fun i => [in1 i]) (fun i p => func (p (in1 i)))
      (fun c => decide (¬ (E.ret c < 0 ∨ E.ret c > NPY_MAX_UBYTE)))
      (fun i c out => out.set i (E.ret c % 256)) (fun _ _ out => out) := by
  funext i s
  simp only [Y_B_body, scalarBody, INPUT_Y_eq, RAISE_ILLEGAL_GEOS]
  cases checkHandles E [in1 i] s.w with
  | next w => exact ite_decide_not _ _ _
  | ret w => rfl
  | crash w => rfl

theorem Y_i_body_eq (E : Env D) (func : Ptr → Call D) (in1 : Nat → Addr) :
    Y_i_body E func in1 = scalarBody E (fun i => [in1 i]) (fun i p => func (p (in1 i)))
      (fun c => decide (¬ (E.ret c < 0 ∨ E.ret c > NPY_MAX_INT)))
      (fun i c out => out.set i (E.ret c)) (fun _ _ out => out) := by
  funext i s
  simp only [Y_i_body, scalarBody, INPUT_Y_eq, RAISE_ILLEGAL_GEOS]
  cases checkHandles E [in1 i] s.w with
  | next w => exact ite_decide_not _ _ _
  | ret w => rfl
  | crash w => rfl

theorem Y_d_body_eq (E : Env D) (func : Ptr → Call D) (in1 : Nat → Addr) :
    Y_d_body E func in1 = scalarBody E (fun i => [in1 i]) (fun i p => func (p (in1 i)))
      (fun c => decide (¬ E.ret c = 0))
      (fun i c out => storeThrough E c i out) (fun i c out => storeThrough E c i out) := by
  funext i s
  simp only [Y_d_body, scalarBody, INPUT_Y_eq, RAISE_ILLEGAL_GEOS]
  cases checkHandles E [in1 i] s.w with
  | next w => exact ite_decide_not _ _ _
  | ret w => rfl
  | crash w => rfl

theorem YY_d_body_eq (E : Env D) (func : Ptr → Ptr → Call D) (in1 in2 : Nat → Addr) :
    YY_d_body E func in1 in2 = scalarBody E (fun i => [in1 i, in2 i])
      (fun i p => func (p (in1 i)) (p (in2 i)))
      (fun c => decide (¬ E.ret c = 0))
      (fun i c out => storeThrough E c i out) (fun i c out => storeThrough E c i out) := by
  funext i s
  simp only [YY_d_body, scalarBody, INPUT_YY_eq, RAISE_ILLEGAL_GEOS]
  cases checkHandles E [in1 i, in2 i] s.w with
  | next w => exact ite_decide_not _ _ _
  | ret w => rfl
  | crash w => rfl

theorem YY_d_2_body_eq (E : Env D) (func : Ptr → Ptr → Call D) (in1 in2 : Nat → Addr) :
    YY_d_2_body E func in1 in2 = scalarBody E (fun i => [in1 i, in2 i])
      (fun i p => func (p (in1 i)) (p (in2 i)))
      (fun c => !E.is_minus_one (E.retd c))
      (fun i c out => out.set i (E.retd c)) (fun _ _ out => out) := by
  funext i s
  simp only [YY_d_2_body, scalarBody, INPUT_YY_eq, RAISE_ILLEGAL_GEOS]
  cases checkHandles E [in1 i, in2 i] s.w with
  | next w => exact ite_bnot _ _ _
  | ret w => rfl
  | crash w => rfl

theorem Y_Y_body_eq (E : Env D) (func : FuncGEOS_Y_Y D) (in1 : Nat → Addr) :
    Y_Y_body E func in1 = handleBody E (fun i => [in1 i])
      (fun i w => func E (ptrOf w (in1 i)) w) := by
  funext i s
  simp only [Y_Y_body, handleBody, INPUT_Y_eq]

theorem Yd_Y_body_eq (E : Env D) (func : Ptr → D → Call D) (in1 : Nat → Addr) (in2 : Nat → D) :
    Yd_Y_body E func in1 in2 = handleBody E (fun i => [in1 i])
      (fun i w => (geos E (func (ptrOf w (in1 i)) (in2 i)) w,
                   E.retp (func (ptrOf w (in1 i)) (in2 i)))) := by
  funext i s
  simp only [Yd_Y_body, handleBody, INPUT_Y_eq]

theorem Yi_Y_body_eq (E : Env D) (func : Ptr → Int → Call D) (in1 : Nat → Addr)
    (in2 : Nat → Int) :
    Yi_Y_body E func in1 in2 = handleBody E (fun i => [in1 i])
      (fun i w => (geos E (func (ptrOf w (in1 i)) (in2 i)) w,
                   E.retp (func (ptrOf w (in1 i)) (in2 i)))) := by
  funext i s
  simp only [Yi_Y_body, handleBody, INPUT_Y_eq]

theorem YY_Y_body_eq (E : Env D) (func : Ptr → Ptr → Call D) (in1 in2 : Nat → Addr) :
    YY_Y_body E func in1 in2 = handleBody E (fun i => [in1 i, in2 i])
      (fun i w => (geos E (func (ptrOf w (in1 i)) (ptrOf w (in2 i))) w,
                   E.retp (func (ptrOf w (in1 i)) (ptrOf w (in2 i))))) := by
  funext i s
  simp only [YY_Y_body, handleBody, INPUT_YY_eq]

theorem buffer_body_eq (E : Env D) (in1 : Nat → Addr) (in2 : Nat → D) (in3 : Nat → Int) :
    buffer_body E in1 in2 in3 = handleBody E (fun i => [in1 i])
      (fun i w => (geos E (.GEOSBuffer_r (ptrOf w (in1 i)) (in2 i) (in3 i)) w,
                   E.retp (.GEOSBuffer_r (ptrOf w (in1 i)) (in2 i) (in3 i)))) := by
  funext i s
  simp only [buffer_body, handleBody, INPUT_Y_eq]

theorem snap_body_eq (E : Env D) (in1 in2 : Nat → Addr) (in3 : Nat → D) :
    snap_body E in1 in2 in3 = handleBody E (fun i => [in1 i, in2 i])
      (fun i w => (geos E (.GEOSSnap_r (ptrOf w (in1 i)) (ptrOf w (in2 i)) (in3 i)) w,
                   E.retp (.GEOSSnap_r (ptrOf w (in1 i)) (ptrOf w (in2 i)) (in3 i)))) := by
  funext i s
  simp only [snap_body, handleBody, INPUT_YY_eq]

/-! ## Properties of the two shapes -/

theorem scalarBody_usable {V : Type} (E : Env D) (handles : Nat → List Addr)
    (mk : Nat → (Addr → Ptr) → Call D) (accept : Call D → Bool)
    (wr rj : Nat → Call D → List V → List V) (k : Nat) (sk : St D V)
    (h : firstHandleError sk.w (handles k) = none) :
    scalarBody E handles mk accept wr rj k sk =
      if accept (mk k (ptrOf sk.w)) then
        .next ⟨geos E (mk k (ptrOf sk.w)) sk.w, wr k (mk k (ptrOf sk.w)) sk.out⟩
      else .ret ⟨geos E (mk k (ptrOf sk.w)) sk.w, rj k (mk k (ptrOf sk.w)) sk.out⟩ := by
  simp [scalarBody, checkHandles_usable E _ _ h]

theorem handleBody_usable (E : Env D) (handles : Nat → List Addr)
    (f : Nat → World D → World D × Ptr) (k : Nat) (sk : St D Addr)
    (h : firstHandleError sk.w (handles k) = none) :
    handleBody E handles f k sk = OUTPUT_Y E (f k sk.w).2 k ⟨(f k sk.w).1, sk.out⟩ := by
  simp [handleBody, checkHandles_usable E _ _ h]

/-! ## Usable handles -/

/-- Processing element `k` of a scalar loop whose handles are usable. -/
theorem scalar_step {V : Type} (E : Env D) (handles : Nat → List Addr)
    (mk : Nat → (Addr → Ptr) → Call D) (accept : Call D → Bool)
    (wr rj : Nat → Call D → List V → List V) (k : Nat) (s sk : St D V)
    (h1 : forRange (scalarBody E handles mk accept wr rj) 0 k s = .next sk)
    (h2 : firstHandleError sk.w (handles k) = none) :
    forRange (scalarBody E handles mk accept wr rj) 0 (k + 1) s =
      if accept (mk k (ptrOf sk.w)) then
        .next ⟨geos E (mk k (ptrOf sk.w)) sk.w, wr k (mk k (ptrOf sk.w)) sk.out⟩
      else .ret ⟨geos E (mk k (ptrOf sk.w)) sk.w, rj k (mk k (ptrOf sk.w)) sk.out⟩ := by
  rw [forRange_step _ k s sk h1, scalarBody_usable E handles mk accept wr rj k sk h2]

/-- Processing element `k` of a handle loop whose handles are usable. -/
theorem handle_step (E : Env D) (handles : Nat → List Addr)
    (f : Nat → World D → World D × Ptr) (k : Nat) (s sk : St D Addr)
    (h1 : forRange (handleBody E handles f) 0 k s = .next sk)
    (h2 : firstHandleError sk.w (handles k) = none) :
    forRange (handleBody E handles f) 0 (k + 1) s =
      OUTPUT_Y E (f k sk.w).2 k ⟨(f k sk.w).1, sk.out⟩ := by
  rw [forRange_step _ k s sk h1, handleBody_usable E handles f k sk h2]

theorem writtenIff_of_step {V : Type} (inRange : Prop) (b : Bool) (hb : b = true ↔ inRange)
    (r r1 : V) (hr : inRange → r1 = r) (k : Nat) (w1 : World D) (out : List V)
    (after : Ctl (St D V) (St D V))
    (h : after = if b then .next ⟨w1, out.set k r1⟩ else .ret ⟨w1, out⟩) :
    WrittenIffInRange inRange r k w1 out after := by
  subst h
  constructor
  · intro hin
    rw [if_pos (hb.2 hin), hr hin]
  · intro hnot
    have : ¬ (b = true) := fun hbt => hnot (hb.1 hbt)
    rw [if_neg this]

theorem emod_256_eq_zero_or_one (r : Int) (h1 : -128 ≤ r) (h2 : r ≤ 255) :
    (r % 256 = 0 ∨ r % 256 = 1) ↔ (r = 0 ∨ r = 1) := by
  omega

/-! ## C7: scalar results are written exactly when in range -/

/-- C7. In the five loops with a boolean or integer output, when element `k` is
reached with usable handles, the result the engine returns for it is written
at output position `k` (and the loop goes on) if and only if it lies in the
declared range, and the value written is the engine's result; otherwise the
call returns without writing. The range is {0, 1} for `Y_b_func`, `YY_b_func`
and `equals_exact_func` (the engine's result there is a C `char`, so lies in
-128..255), 0..255 for `Y_B_func` and 0..2^31-1 for `Y_i_func`. -/
theorem scalar_result_written_iff_in_range :
    (∀ (E : Env D) (func : Ptr → Call D) (in1 : Nat → Addr) (k : Nat) (s sk : St D Int),
      Y_b_func E func in1 k s = .next sk → Usable sk.w (in1 k) →
      -128 ≤ E.ret (func (ptrOf sk.w (in1 k))) → E.ret (func (ptrOf sk.w (in1 k))) ≤ 255 →
      WrittenIffInRange
        (E.ret (func (ptrOf sk.w (in1 k))) = 0 ∨ E.ret (func (ptrOf sk.w (in1 k))) = 1)
        (E.ret (func (ptrOf sk.w (in1 k)))) k
        (geos E (func (ptrOf sk.w (in1 k))) sk.w) sk.out
        (Y_b_func E func in1 (k + 1) s)) ∧
    (∀ (E : Env D) (func : Ptr → Ptr → Call D) (in1 in2 : Nat → Addr) (k : Nat)
        (s sk : St D Int),
      YY_b_func E func in1 in2 k s = .next sk → Usable sk.w (in1 k) → Usable sk.w (in2 k) →
      -128 ≤ E.ret (func (ptrOf sk.w (in1 k)) (ptrOf sk.w (in2 k))) →
      E.ret (func (ptrOf sk.w (in1 k)) (ptrOf sk.w (in2 k))) ≤ 255 →
      WrittenIffInRange
        (E.ret (func (ptrOf sk.w (in1 k)) (ptrOf sk.w (in2 k))) = 0 ∨
          E.ret (func (ptrOf sk.w (in1 k)) (ptrOf sk.w (in2 k))) = 1)
        (E.ret (func (ptrOf sk.w (in1 k)) (ptrOf sk.w (in2 k)))) k
        (geos E (func (ptrOf sk.w (in1 k)) (ptrOf sk.w (in2 k))) sk.w) sk.out
        (YY_b_func E func in1 in2 (k + 1) s)) ∧
    (∀ (E : Env D) (in1 in2 : Nat → Addr) (in3 : Nat → D) (k : Nat) (s sk : St D Int),
      equals_exact_func E in1 in2 in3 k s = .next sk →
      Usable sk.w (in1 k) → Usable sk.w (in2 k) →
      -128 ≤ E.ret (.GEOSEqualsExact_r (ptrOf sk.w (in1 k)) (ptrOf sk.w (in2 k)) (in3 k)) →
      E.ret (.GEOSEqualsExact_r (ptrOf sk.w (in1 k)) (ptrOf sk.w (in2 k)) (in3 k)) ≤ 255 →
      WrittenIffInRange
        (E.ret (.GEOSEqualsExact_r (ptrOf sk.w (in1 k)) (ptrOf sk.w (in2 k)) (in3 k)) = 0 ∨
          E.ret (.GEOSEqualsExact_r (ptrOf sk.w (in1 k)) (ptrOf sk.w (in2 k)) (in3 k)) = 1)
        (E.ret (.GEOSEqualsExact_r (ptrOf sk.w (in1 k)) (ptrOf sk.w (in2 k)) (in3 k))) k
        (geos E (.GEOSEqualsExact_r (ptrOf sk.w (in1 k)) (ptrOf sk.w (in2 k)) (in3 k)) sk.w)
        sk.out (equals_exact_func E in1 in2 in3 (k + 1) s)) ∧
    (∀ (E : Env D) (func : Ptr → Call D) (in1 : Nat → Addr) (k : Nat) (s sk : St D Int),
      Y_B_func E func in1 k s = .next sk → Usable sk.w (in1 k) →
      WrittenIffInRange
        (0 ≤ E.ret (func (ptrOf sk.w (in1 k))) ∧ E.ret (func (ptrOf sk.w (in1 k))) ≤ 255)
        (E.ret (func (ptrOf sk.w (in1 k)))) k
        (geos E (func (ptrOf sk.w (in1 k))) sk.w) sk.out
        (Y_B_func E func in1 (k + 1) s)) ∧
    (∀ (E : Env D) (func : Ptr → Call D) (in1 : Nat → Addr) (k : Nat) (s sk : St D Int),
      Y_i_func E func in1 k s = .next sk → Usable sk.w (in1 k) →
      WrittenIffInRange
        (0 ≤ E.ret (func (ptrOf sk.w (in1 k))) ∧
          E.ret (func (ptrOf sk.w (in1 k))) ≤ 2 ^ 31 - 1)
        (E.ret (func (ptrOf sk.w (in1 k)))) k
        (geos E (func (ptrOf sk.w (in1 k))) sk.w) sk.out
        (Y_i_func E func in1 (k + 1) s)) := by
  refine ⟨?_, ?_, ?_, ?_, ?_⟩
  · intro E func in1 k s sk h1 hu hlo hhi
    unfold Y_b_func ELEMENT_LOOP at h1 ⊢
    rw [Y_b_body_eq] at h1 ⊢
    refine writtenIff_of_step _ _ ?_ _ _ ?_ k _ _ _
      (scalar_step E _ _ _ _ _ k s sk h1 (firstHandleError_one _ _ hu))
    · simp only [decide_eq_true_eq]; exact emod_256_eq_zero_or_one _ hlo hhi
    · intro h; omega
  · intro E func in1 in2 k s sk h1 hu1 hu2 hlo hhi
    unfold YY_b_func ELEMENT_LOOP at h1 ⊢
    rw [YY_b_body_eq] at h1 ⊢
    refine writtenIff_of_step _ _ ?_ _ _ ?_ k _ _ _
      (scalar_step E _ _ _ _ _ k s sk h1 (firstHandleError_two _ _ _ hu1 hu2))
    · simp only [decide_eq_true_eq]; exact emod_256_eq_zero_or_one _ hlo hhi
    · intro h; omega
  · intro E in1 in2 in3 k s sk h1 hu1 hu2 hlo hhi
    unfold equals_exact_func ELEMENT_LOOP at h1 ⊢
    rw [equals_exact_body_eq] at h1 ⊢
    refine writtenIff_of_step _ _ ?_ _ _ ?_ k _ _ _
      (scalar_step E _ _ _ _ _ k s sk h1 (firstHandleError_two _ _ _ hu1 hu2))
    · simp only [decide_eq_true_eq]; exact emod_256_eq_zero_or_one _ hlo hhi
    · intro h; omega
  · intro E func in1 k s sk h1 hu
    unfold Y_B_func ELEMENT_LOOP at h1 ⊢
    rw [Y_B_body_eq] at h1 ⊢
    refine writtenIff_of_step _ _ ?_ _ _ ?_ k _ _ _
      (scalar_step E _ _ _ _ _ k s sk h1 (firstHandleError_one _ _ hu))
    · simp only [decide_eq_true_eq, NPY_MAX_UBYTE]; omega
    · intro h; omega
  · intro E func in1 k s sk h1 hu
    unfold Y_i_func ELEMENT_LOOP at h1 ⊢
    rw [Y_i_body_eq] at h1 ⊢
    refine writtenIff_of_step _ _ ?_ _ _ ?_ k _ _ _
      (scalar_step E _ _ _ _ _ k s sk h1 (firstHandleError_one _ _ hu))
    · simp only [decide_eq_true_eq, NPY_MAX_INT]; omega
    · intro h; rfl

/-- C7 applies: `Y_B_func` at its first element, a usable geometry for which the
engine answers 1. -/
theorem scalar_result_written_iff_in_range_witness :
    WrittenIffInRange
      (0 ≤ (okEnv 0 true true).ret (Call.data_Y "GEOSGeom_getDimensions_r" (ptrOf oneGeometry 1)) ∧
        (okEnv 0 true true).ret (Call.data_Y "GEOSGeom_getDimensions_r" (ptrOf oneGeometry 1)) ≤ 255)
      ((okEnv 0 true true).ret (Call.data_Y "GEOSGeom_getDimensions_r" (ptrOf oneGeometry 1))) 0
      (geos (okEnv 0 true true) (Call.data_Y "GEOSGeom_getDimensions_r" (ptrOf oneGeometry 1))
        oneGeometry) [0]
      (Y_B_func (okEnv 0 true true) (Call.data_Y "GEOSGeom_getDimensions_r") (fun _ => 1) (0 + 1)
        ⟨oneGeometry, [0]⟩) :=
  scalar_result_written_iff_in_range.2.2.2.1 (okEnv 0 true true)
    (Call.data_Y "GEOSGeom_getDimensions_r") (fun _ => 1) 0 ⟨oneGeometry, [0]⟩ ⟨oneGeometry, [0]⟩
    rfl ⟨by decide, by decide⟩

/-! ## C8: the failure results of the engine -/

theorem scalar_stop {V : Type} (E : Env D) (handles : Nat → List Addr)
    (mk : Nat → (Addr → Ptr) → Call D) (accept : Call D → Bool)
    (wr rj : Nat → Call D → List V → List V) (n k : Nat) (s sk : St D V) (hk : k < n)
    (h1 : forRange (scalarBody E handles mk accept wr rj) 0 k s = .next sk)
    (h2 : firstHandleError sk.w (handles k) = none)
    (h3 : accept (mk k (ptrOf sk.w)) = false) :
    forRange (scalarBody E handles mk accept wr rj) 0 n s =
      .ret ⟨geos E (mk k (ptrOf sk.w)) sk.w, rj k (mk k (ptrOf sk.w)) sk.out⟩ := by
  apply forRange_stop _ k n s sk _ hk h1
  rw [scalarBody_usable E handles mk accept wr rj k sk h2, h3]
  rfl

theorem scalar_stop_err {V : Type} (E : Env D) (handles : Nat → List Addr)
    (mk : Nat → (Addr → Ptr) → Call D) (accept : Call D → Bool)
    (wr rj : Nat → Call D → List V → List V) (n k : Nat) (s sk : St D V) (hk : k < n)
    (h1 : forRange (scalarBody E handles mk accept wr rj) 0 k s = .next sk)
    (h2 : firstHandleError sk.w (handles k) = none)
    (h3 : accept (mk k (ptrOf sk.w)) = false) :
    ReturnedWithErr (errAfter E (mk k (ptrOf sk.w)) sk.w.err)
      (forRange (scalarBody E handles mk accept wr rj) 0 n s) :=
  ⟨_, scalar_stop E handles mk accept wr rj n k s sk hk h1 h2 h3, by rw [geos_eq]⟩

theorem OUTPUT_Y_null (E : Env D) (i : Nat) (s : St D Addr) :
    OUTPUT_Y E 0 i s = .ret s := by
  simp [OUTPUT_Y, RAISE_ILLEGAL_GEOS]

theorem handle_stop (E : Env D) (handles : Nat → List Addr)
    (f : Nat → World D → World D × Ptr) (n k : Nat) (s sk : St D Addr) (hk : k < n)
    (h1 : forRange (handleBody E handles f) 0 k s = .next sk)
    (h2 : firstHandleError sk.w (handles k) = none)
    (h3 : (f k sk.w).2 = 0) :
    forRange (handleBody E handles f) 0 n s = .ret ⟨(f k sk.w).1, sk.out⟩ := by
  apply forRange_stop _ k n s sk _ hk h1
  rw [handleBody_usable E handles f k sk h2, h3, OUTPUT_Y_null]

theorem decide_false_of_not (p : Prop) [Decidable p] (h : ¬ p) : decide p = false := by
  simp [h]

/-- C8, as amended. In every elementwise loop, when element `k` is reached with
usable handles and the engine answers with its failure result (a boolean result
outside {0, 1}, an integer result out of range, a zero status from an
out-parameter function, a null pointer), the call returns there, and the error
indicator is then the one the engine call left: `RAISE_ILLEGAL_GEOS` sets
nothing, so it is the error the engine reported to the handler during that
call if it reported one, and otherwise whatever the indicator was when the
element was reached. The same holds wherever a null pointer reaches `OUTPUT_Y`
(the constructors from coordinates included): it returns with the state
untouched. -/
theorem failure_result_returns_with_engine_error :
    (∀ (E : Env D) (func : Ptr → Call D) (in1 : Nat → Addr) (n k : Nat) (s sk : St D Int),
      k < n → Y_b_func E func in1 k s = .next sk → Usable sk.w (in1 k) →
      -128 ≤ E.ret (func (ptrOf sk.w (in1 k))) → E.ret (func (ptrOf sk.w (in1 k))) ≤ 255 →
      ¬ (E.ret (func (ptrOf sk.w (in1 k))) = 0 ∨ E.ret (func (ptrOf sk.w (in1 k))) = 1) →
      ReturnedWithErr (errAfter E (func (ptrOf sk.w (in1 k))) sk.w.err)
        (Y_b_func E func in1 n s)) ∧
    (∀ (E : Env D) (func : Ptr → Ptr → Call D) (in1 in2 : Nat → Addr) (n k : Nat)
        (s sk : St D Int),
      k < n → YY_b_func E func in1 in2 k s = .next sk →
      Usable sk.w (in1 k) → Usable sk.w (in2 k) →
      -128 ≤ E.ret (func (ptrOf sk.w (in1 k)) (ptrOf sk.w (in2 k))) →
      E.ret (func (ptrOf sk.w (in1 k)) (ptrOf sk.w (in2 k))) ≤ 255 →
      ¬ (E.ret (func (ptrOf sk.w (in1 k)) (ptrOf sk.w (in2 k))) = 0 ∨
          E.ret (func (ptrOf sk.w (in1 k)) (ptrOf sk.w (in2 k))) = 1) →
      ReturnedWithErr (errAfter E (func (ptrOf sk.w (in1 k)) (ptrOf sk.w (in2 k))) sk.w.err)
        (YY_b_func E func in1 in2 n s)) ∧
    (∀ (E : Env D) (in1 in2 : Nat → Addr) (in3 : Nat → D) (n k : Nat) (s sk : St D Int),
      k < n → equals_exact_func E in1 in2 in3 k s = .next sk →
      Usable sk.w (in1 k) → Usable sk.w (in2 k) →
      -128 ≤ E.ret (.GEOSEqualsExact_r (ptrOf sk.w (in1 k)) (ptrOf sk.w (in2 k)) (in3 k)) →
      E.ret (.GEOSEqualsExact_r (ptrOf sk.w (in1 k)) (ptrOf sk.w (in2 k)) (in3 k)) ≤ 255 →
      ¬ (E.ret (.GEOSEqualsExact_r (ptrOf sk.w (in1 k)) (ptrOf sk.w (in2 k)) (in3 k)) = 0 ∨
          E.ret (.GEOSEqualsExact_r (ptrOf sk.w (in1 k)) (ptrOf sk.w (in2 k)) (in3 k)) = 1) →
      ReturnedWithErr
        (errAfter E (.GEOSEqualsExact_r (ptrOf sk.w (in1 k)) (ptrOf sk.w (in2 k)) (in3 k))
          sk.w.err)
        (equals_exact_func E in1 in2 in3 n s)) ∧
    (∀ (E : Env D) (func : Ptr → Call D) (in1 : Nat → Addr) (n k : Nat) (s sk : St D Int),
      k < n → Y_B_func E func in1 k s = .next sk → Usable sk.w (in1 k) →
      (E.ret (func (ptrOf sk.w (in1 k))) < 0 ∨ E.ret (func (ptrOf sk.w (in1 k))) > 255) →
      ReturnedWithErr (errAfter E (func (ptrOf sk.w (in1 k))) sk.w.err)
        (Y_B_func E func in1 n s)) ∧
    (∀ (E : Env D) (func : Ptr → Call D) (in1 : Nat → Addr) (n k : Nat) (s sk : St D Int),
      k < n → Y_i_func E func in1 k s = .next sk → Usable sk.w (in1 k) →
      (E.ret (func (ptrOf sk.w (in1 k))) < 0 ∨
        E.ret (func (ptrOf sk.w (in1 k))) > 2 ^ 31 - 1) →
      ReturnedWithErr (errAfter E (func (ptrOf sk.w (in1 k))) sk.w.err)
        (Y_i_func E func in1 n s)) ∧
    (∀ (E : Env D) (func : Ptr → Call D) (in1 : Nat → Addr) (n k : Nat) (s sk : St D D),
      k < n → Y_d_func E func in1 k s = .next sk → Usable sk.w (in1 k) →
      E.ret (func (ptrOf sk.w (in1 k))) = 0 →
      ReturnedWithErr (errAfter E (func (ptrOf sk.w (in1 k))) sk.w.err)
        (Y_d_func E func in1 n s)) ∧
    (∀ (E : Env D) (func : Ptr → Ptr → Call D) (in1 in2 : Nat → Addr) (n k : Nat)
        (s sk : St D D),
      k < n → YY_d_func E func in1 in2 k s = .next sk →
      Usable sk.w (in1 k) → Usable sk.w (in2 k) →
      E.ret (func (ptrOf sk.w (in1 k)) (ptrOf sk.w (in2 k))) = 0 →
      ReturnedWithErr (errAfter E (func (ptrOf sk.w (in1 k)) (ptrOf sk.w (in2 k))) sk.w.err)
        (YY_d_func E func in1 in2 n s)) ∧
    (∀ (E : Env D) (func : FuncGEOS_Y_Y D) (in1 : Nat → Addr) (n k : Nat) (s sk : St D Addr),
      k < n → Y_Y_func E func in1 k s = .next sk → Usable sk.w (in1 k) →
      (func E (ptrOf sk.w (in1 k)) sk.w).2 = 0 →
      ReturnedWithErr (func E (ptrOf sk.w (in1 k)) sk.w).1.err (Y_Y_func E func in1 n s)) ∧
    (∀ (E : Env D) (mk : Ptr → Call D) (a : Ptr) (w : World D),
      (engine_Y_Y mk E a w).1.err = errAfter E (mk a) w.err) ∧
    (∀ (E : Env D) (func : Ptr → D → Call D) (in1 : Nat → Addr) (in2 : Nat → D) (n k : Nat)
        (s sk : St D Addr),
      k < n → Yd_Y_func E func in1 in2 k s = .next sk → Usable sk.w (in1 k) →
      E.retp (func (ptrOf sk.w (in1 k)) (in2 k)) = 0 →
      ReturnedWithErr (errAfter E (func (ptrOf sk.w (in1 k)) (in2 k)) sk.w.err)
        (Yd_Y_func E func in1 in2 n s)) ∧
    (∀ (E : Env D) (func : Ptr → Int → Call D) (in1 : Nat → Addr) (in2 : Nat → Int) (n k : Nat)
        (s sk : St D Addr),
      k < n → Yi_Y_func E func in1 in2 k s = .next sk → Usable sk.w (in1 k) →
      E.retp (func (ptrOf sk.w (in1 k)) (in2 k)) = 0 →
      ReturnedWithErr (errAfter E (func (ptrOf sk.w (in1 k)) (in2 k)) sk.w.err)
        (Yi_Y_func E func in1 in2 n s)) ∧
    (∀ (E : Env D) (func : Ptr → Ptr → Call D) (in1 in2 : Nat → Addr) (n k : Nat)
        (s sk : St D Addr),
      k < n → YY_Y_func E func in1 in2 k s = .next sk →
      Usable sk.w (in1 k) → Usable sk.w (in2 k) →
      E.retp (func (ptrOf sk.w (in1 k)) (ptrOf sk.w (in2 k))) = 0 →
      ReturnedWithErr (errAfter E (func (ptrOf sk.w (in1 k)) (ptrOf sk.w (in2 k))) sk.w.err)
        (YY_Y_func E func in1 in2 n s)) ∧
    (∀ (E : Env D) (in1 : Nat → Addr) (in2 : Nat → D) (in3 : Nat → Int) (n k : Nat)
        (s sk : St D Addr),
      k < n → buffer_func E in1 in2 in3 k s = .next sk → Usable sk.w (in1 k) →
      E.retp (.GEOSBuffer_r (ptrOf sk.w (in1 k)) (in2 k) (in3 k)) = 0 →
      ReturnedWithErr
        (errAfter E (.GEOSBuffer_r (ptrOf sk.w (in1 k)) (in2 k) (in3 k)) sk.w.err)
        (buffer_func E in1 in2 in3 n s)) ∧
    (∀ (E : Env D) (in1 in2 : Nat → Addr) (in3 : Nat → D) (n k : Nat) (s sk : St D Addr),
      k < n → snap_func E in1 in2 in3 k s = .next sk →
      Usable sk.w (in1 k) → Usable sk.w (in2 k) →
      E.retp (.GEOSSnap_r (ptrOf sk.w (in1 k)) (ptrOf sk.w (in2 k)) (in3 k)) = 0 →
      ReturnedWithErr
        (errAfter E (.GEOSSnap_r (ptrOf sk.w (in1 k)) (ptrOf sk.w (in2 k)) (in3 k)) sk.w.err)
        (snap_func E in1 in2 in3 n s)) ∧
    (∀ (E : Env D) (i : Nat) (s : St D Addr), OUTPUT_Y E 0 i s = .ret s) ∧
    (∀ (E : Env D) (c : Call D) (e : Option PyErr), E.report c = none → errAfter E c e = e) ∧
    (∀ (E : Env D) (c : Call D) (e : Option PyErr) (message : String),
      E.report c = some message → errAfter E c e = some ⟨.GEOSException, message⟩) := by
  refine ⟨?_, ?_, ?_, ?_, ?_, ?_, ?_, ?_, ?_, ?_, ?_, ?_, ?_, ?_, ?_, ?_, ?_⟩
  · intro E func in1 n k s sk hk h1 hu hlo hhi hbad
    unfold Y_b_func ELEMENT_LOOP at h1 ⊢
    rw [Y_b_body_eq] at h1 ⊢
    exact scalar_stop_err E _ _ _ _ _ n k s sk hk h1 (firstHandleError_one _ _ hu)
      (decide_false_of_not _ (fun h => hbad ((emod_256_eq_zero_or_one _ hlo hhi).1 h)))
  · intro E func in1 in2 n k s sk hk h1 hu1 hu2 hlo hhi hbad
    unfold YY_b_func ELEMENT_LOOP at h1 ⊢
    rw [YY_b_body_eq] at h1 ⊢
    exact scalar_stop_err E _ _ _ _ _ n k s sk hk h1 (firstHandleError_two _ _ _ hu1 hu2)
      (decide_false_of_not _ (fun h => hbad ((emod_256_eq_zero_or_one _ hlo hhi).1 h)))
  · intro E in1 in2 in3 n k s sk hk h1 hu1 hu2 hlo hhi hbad
    unfold equals_exact_func ELEMENT_LOOP at h1 ⊢
    rw [equals_exact_body_eq] at h1 ⊢
    exact scalar_stop_err E _ _ _ _ _ n k s sk hk h1 (firstHandleError_two _ _ _ hu1 hu2)
      (decide_false_of_not _ (fun h => hbad ((emod_256_eq_zero_or_one _ hlo hhi).1 h)))
  · intro E func in1 n k s sk hk h1 hu hbad
    unfold Y_B_func ELEMENT_LOOP at h1 ⊢
    rw [Y_B_body_eq] at h1 ⊢
    exact scalar_stop_err E _ _ _ _ _ n k s sk hk h1 (firstHandleError_one _ _ hu)
      (decide_false_of_not _ (fun h => h (by simpa [NPY_MAX_UBYTE] using hbad)))
  · intro E func in1 n k s sk hk h1 hu hbad
    unfold Y_i_func ELEMENT_LOOP at h1 ⊢
    rw [Y_i_body_eq] at h1 ⊢
    exact scalar_stop_err E _ _ _ _ _ n k s sk hk h1 (firstHandleError_one _ _ hu)
      (decide_false_of_not _ (fun h => h (by simpa [NPY_MAX_INT] using hbad)))
  · intro E func in1 n k s sk hk h1 hu hbad
    unfold Y_d_func ELEMENT_LOOP at h1 ⊢
    rw [Y_d_body_eq] at h1 ⊢
    exact scalar_stop_err E _ _ _ _ _ n k s sk hk h1 (firstHandleError_one _ _ hu)
      (decide_false_of_not _ (fun h => h hbad))
  · intro E func in1 in2 n k s sk hk h1 hu1 hu2 hbad
    unfold YY_d_func ELEMENT_LOOP at h1 ⊢
    rw [YY_d_body_eq] at h1 ⊢
    exact scalar_stop_err E _ _ _ _ _ n k s sk hk h1 (firstHandleError_two _ _ _ hu1 hu2)
      (decide_false_of_not _ (fun h => h hbad))
  · intro E func in1 n k s sk hk h1 hu hbad
    unfold Y_Y_func ELEMENT_LOOP at h1 ⊢
    rw [Y_Y_body_eq] at h1 ⊢
    exact ⟨_, handle_stop E _ _ n k s sk hk h1 (firstHandleError_one _ _ hu) hbad, rfl⟩
  · intro E mk a w
    simp [engine_Y_Y, geos_eq]
  · intro E func in1 in2 n k s sk hk h1 hu hbad
    unfold Yd_Y_func ELEMENT_LOOP at h1 ⊢
    rw [Yd_Y_body_eq] at h1 ⊢
    exact ⟨_, handle_stop E _ _ n k s sk hk h1 (firstHandleError_one _ _ hu) hbad,
      by simp [geos_eq]⟩
  · intro E func in1 in2 n k s sk hk h1 hu hbad
    unfold Yi_Y_func ELEMENT_LOOP at h1 ⊢
    rw [Yi_Y_body_eq] at h1 ⊢
    exact ⟨_, handle_stop E _ _ n k s sk hk h1 (firstHandleError_one _ _ hu) hbad,
      by simp [geos_eq]⟩
  · intro E func in1 in2 n k s sk hk h1 hu1 hu2 hbad
    unfold YY_Y_func ELEMENT_LOOP at h1 ⊢
    rw [YY_Y_body_eq] at h1 ⊢
    exact ⟨_, handle_stop E _ _ n k s sk hk h1 (firstHandleError_two _ _ _ hu1 hu2) hbad,
      by simp [geos_eq]⟩
  · intro E in1 in2 in3 n k s sk hk h1 hu hbad
    unfold buffer_func ELEMENT_LOOP at h1 ⊢
    rw [buffer_body_eq] at h1 ⊢
    exact ⟨_, handle_stop E _ _ n k s sk hk h1 (firstHandleError_one _ _ hu) hbad,
      by simp [geos_eq]⟩
  · intro E in1 in2 in3 n k s sk hk h1 hu1 hu2 hbad
    unfold snap_func ELEMENT_LOOP at h1 ⊢
    rw [snap_body_eq] at h1 ⊢
    exact ⟨_, handle_stop E _ _ n k s sk hk h1 (firstHandleError_two _ _ _ hu1 hu2) hbad,
      by simp [geos_eq]⟩
  · intro E i s
    exact OUTPUT_Y_null E i s
  · intro E c e h
    simp [errAfter, h]
  · intro E c e message h
    simp [errAfter, h]

/-- C8 as amended applies: `Y_b_func` over one usable geometry for which the engine
answers 2. -/
theorem failure_result_returns_with_engine_error_witness :
    ReturnedWithErr
      (errAfter silentEnv (Call.data_Y "GEOSisValid_r" (ptrOf oneGeometry 1)) oneGeometry.err)
      (Y_b_func silentEnv (Call.data_Y "GEOSisValid_r") (fun _ => 1) 1 ⟨oneGeometry, [0]⟩) :=
  failure_result_returns_with_engine_error.1 silentEnv (Call.data_Y "GEOSisValid_r")
    (fun _ => 1) 1 0 ⟨oneGeometry, [0]⟩ ⟨oneGeometry, [0]⟩ (by decide) rfl
    ⟨by decide, by decide⟩ (by decide) (by decide) (by decide)

/-- C8 as stated fails: the engine answers `GEOSisValid_r` with the failure
result 2 without reporting anything to the error handler; `Y_b_func` returns
at that element and the error indicator is still clear, so the host has no
error to raise. -/
theorem failure_result_without_report_sets_no_error :
    silentEnv.ret (Call.data_Y "GEOSisValid_r" 5) = 2 ∧
    Y_b_func silentEnv (Call.data_Y "GEOSisValid_r") (fun _ => 1) 1 ⟨oneGeometry, [0]⟩
      = .ret ⟨⟨none, [⟨1, true, false, 5, 0, 0⟩], [Call.data_Y "GEOSisValid_r" 5]⟩, [0]⟩ := by
  decide

/-! ## Reference counts -/

theorem obj_modObj (w : World D) (a b : Nat) (f : GeometryObject → GeometryObject) :
    (w.modObj a f).obj b = if b = a then (w.obj a).map f else w.obj b := by
  unfold World.modObj
  cases h : w.obj a with
  | none =>
    by_cases hb : b = a
    · subst hb; simp [h]
    · simp [hb]
  | some o =>
    have ha : a ≠ 0 := by
      intro h0; subst h0; simp [World.obj] at h
    have hlt : a - 1 < w.heap.length := by
      unfold World.obj at h
      rw [if_neg ha] at h
      by_contra hge
      rw [List.getElem?_eq_none (by omega)] at h
      cases h
    by_cases hb : b = a
    · subst hb
      simp [World.obj, World.setObj, ha, List.getElem?_set, hlt]
    · by_cases hb0 : b = 0
      · subst hb0; simp [World.obj, hb]
      · have hne : a - 1 ≠ b - 1 := by omega
        simp [World.obj, World.setObj, hb, hb0, List.getElem?_set, hne]

theorem modObj_err (w : World D) (a : Nat) (f : GeometryObject → GeometryObject) :
    (w.modObj a f).err = w.err := by
  unfold World.modObj; cases w.obj a <;> rfl

theorem modObj_log (w : World D) (a : Nat) (f : GeometryObject → GeometryObject) :
    (w.modObj a f).log = w.log := by
  unfold World.modObj; cases w.obj a <;> rfl

theorem obj_geosVoid (c : Call D) (w : World D) (b : Nat) : (geosVoid c w).obj b = w.obj b := rfl

theorem geosVoid_err (c : Call D) (w : World D) : (geosVoid c w).err = w.err := rfl

theorem geosVoid_log (c : Call D) (w : World D) : (geosVoid c w).log = w.log ++ [c] := rfl

/-- What `Py_DECREF` does to the object it is applied to and to the others. -/
theorem Py_DECREF_obj (w : World D) (old : Nat) (o : GeometryObject)
    (h : w.obj old = some o) :
    (∃ o1, (Py_DECREF old w).obj old = some o1 ∧ o1.ob_refcnt = o.ob_refcnt - 1 ∧
      o1.ptr = o.ptr ∧ o1.is_geometry = o.is_geometry ∧
      (o1.freed = true ↔ (o.freed = true ∨ o.ob_refcnt - 1 = 0))) ∧
    (∀ b, b ≠ old → (Py_DECREF old w).obj b = w.obj b) ∧
    (Py_DECREF old w).err = w.err ∧
    (Py_DECREF old w).log = w.log ++
      (if o.ob_refcnt - 1 = 0 ∧ o.is_geometry = true then destroyCalls o.ptr else []) := by
  unfold Py_DECREF
  rw [h]
  simp only
  by_cases hz : o.ob_refcnt - 1 = 0
  · rw [if_pos hz]
    by_cases hg : o.is_geometry = true
    · rw [if_pos hg]
      unfold GeometryObject_dealloc
      rw [obj_modObj, if_pos rfl, h]
      simp only [Option.map_some']
      by_cases hp : o.ptr = 0
      · simp [hp, tp_free, obj_modObj, h, modObj_err, modObj_log, hz, hg, destroyCalls]
        intro b hb; simp [hb]
      · simp [hp, tp_free, obj_modObj, h, modObj_err, modObj_log, hz, hg, destroyCalls,
          obj_geosVoid, geosVoid_err, geosVoid_log]
        intro b hb; simp [hb]
    · rw [if_neg hg]
      simp [tp_free, obj_modObj, h, modObj_err, modObj_log, hz, hg]
      intro b hb; simp [hb]
  · rw [if_neg hz]
    simp [obj_modObj, h, modObj_err, modObj_log, hz]
    intro b hb; simp [hb]

/-! ## C9: writing a handle output -/

theorem new_from_ptr_nonnull (E : Env D) (ptr : Ptr) (w w1 : World D) (a : Nat)
    (h : GeometryObject_new_from_ptr E ptr w = (w1, a)) (ha : a ≠ 0) :
    a = w.heap.length + 1 ∧
    w1 = ⟨errAfter E (.GEOSHasZ_r ptr) (errAfter E (.GEOSGeomTypeId_r ptr) w.err),
          w.heap ++ [⟨1, true, false, ptr, toChar E (E.ret (.GEOSGeomTypeId_r ptr)),
                      toChar E (E.ret (.GEOSHasZ_r ptr))⟩],
          w.log ++ [.GEOSGeomTypeId_r ptr, .GEOSHasZ_r ptr]⟩ := by
  by_cases halloc : E.tp_alloc_ok w.heap.length = true
  · by_cases ht : E.ret (.GEOSGeomTypeId_r ptr) < 0 ∨ E.ret (.GEOSGeomTypeId_r ptr) > 255
    · rw [new_from_ptr_bad_type E ptr w halloc ht] at h
      cases h; exact absurd rfl ha
    · by_cases hz : E.ret (.GEOSHasZ_r ptr) < 0 ∨ E.ret (.GEOSHasZ_r ptr) > 1
      · rw [new_from_ptr_bad_z E ptr w halloc ht hz] at h
        cases h; exact absurd rfl ha
      · rw [new_from_ptr_ok E ptr w halloc ht hz] at h
        cases h; exact ⟨rfl, rfl⟩
  · rw [new_from_ptr_alloc_fail E ptr w (by simpa using halloc)] at h
    cases h; exact absurd rfl ha

theorem obj_le_length (w : World D) (a : Nat) (o : GeometryObject) (h : w.obj a = some o) :
    a ≠ 0 ∧ a ≤ w.heap.length := by
  unfold World.obj at h
  by_cases h0 : a = 0
  · simp [h0] at h
  · rw [if_neg h0] at h
    refine ⟨h0, ?_⟩
    by_contra hgt
    rw [List.getElem?_eq_none (by omega)] at h
    cases h

theorem OUTPUT_Y_success (E : Env D) (ret_ptr : Nat) (i : Nat) (s : St D Addr) (w1 : World D)
    (ret : Nat) (hp : ret_ptr ≠ 0) (hi : i < s.out.length)
    (hslot : ∀ old, s.out[i]? = some old → old ≠ 0 → ∃ o, s.w.obj old = some o)
    (hnew : GeometryObject_new_from_ptr E ret_ptr s.w = (w1, ret)) (hret : ret ≠ 0) :
    SlotFilled ret_ptr i s w1 ret (OUTPUT_Y E ret_ptr i s) := by
  obtain ⟨hreteq, hw1⟩ := new_from_ptr_nonnull E ret_ptr s.w w1 ret hnew hret
  have hout : OUTPUT_Y E ret_ptr i s
      = .next ⟨Py_XDECREF (s.out.getD i 0) w1, s.out.set i ret⟩ := by
    simp [OUTPUT_Y, hp, hnew, hret]
  have hobjnew : w1.obj ret = some ⟨1, true, false, ret_ptr,
      toChar E (E.ret (.GEOSGeomTypeId_r ret_ptr)), toChar E (E.ret (.GEOSHasZ_r ret_ptr))⟩ := by
    rw [hw1, hreteq]; exact obj_new _ _ _ _
  have hget : s.out.getD i 0 = s.out[i] := by
    simp [List.getD_eq_getElem?_getD, List.getElem?_eq_getElem hi]
  have hsome : s.out[i]? = some s.out[i] := List.getElem?_eq_getElem hi
  refine ⟨_, hout, rfl, List.getElem?_set_self hi, ?_, ?_, ?_⟩
  · -- the new handle
    by_cases hold0 : s.out[i] = 0
    · simp only [hget, hold0, Py_XDECREF, if_true]
      exact ⟨_, hobjnew, rfl, rfl, rfl, rfl⟩
    · simp only [hget, Py_XDECREF, if_neg hold0]
      obtain ⟨o, hobj⟩ := hslot _ hsome hold0
      obtain ⟨-, hle⟩ := obj_le_length s.w _ o hobj
      have hne : ret ≠ s.out[i] := by omega
      have hobj1 : w1.obj s.out[i] = some o := by
        rw [hw1, obj_old _ _ _ _ _ hle]
        exact hobj
      obtain ⟨-, hother, -, -⟩ := Py_DECREF_obj w1 _ o hobj1
      rw [hother ret hne]
      exact ⟨_, hobjnew, rfl, rfl, rfl, rfl⟩
  · intro h0
    rw [hsome] at h0
    have h00 : s.out[i] = 0 := by simpa using h0
    show Py_XDECREF (s.out.getD i 0) w1 = w1
    rw [hget, h00]
    rfl
  · intro old o hold hne hobj
    rw [hsome] at hold
    have hold' : s.out[i] = old := by simpa using hold
    obtain ⟨-, hle⟩ := obj_le_length s.w old o hobj
    have hobj1 : w1.obj old = some o := by
      rw [hw1, obj_old _ _ _ _ old hle]
      exact hobj
    simp only [hget, hold', Py_XDECREF, if_neg hne]
    obtain ⟨⟨o1, h1, h2, -, -, -⟩, hother, -, -⟩ := Py_DECREF_obj w1 old o hobj1
    exact ⟨⟨o1, h1, h2⟩, hother⟩

/-- C9. (1) Whenever `OUTPUT_Y` is reached at element `i` with a non-null pointer
`ret_ptr` and the handle construction succeeds (returns `ret`, leaving world
`w1`), the slot being inside the output array and holding null or the address
of an object: the loop goes on, slot `i` holds `ret`, which is a live Geometry
object of reference count 1 wrapping exactly `ret_ptr`; a null slot is simply
filled (the world is `w1`, nothing is released); the object that occupied the
slot has had its reference count decreased by exactly one and no other object
is touched. (2) Every loop with a handle output processes an element whose
inputs are usable by handing the pointer the engine returned for it to
`OUTPUT_Y` at that element's slot. -/
theorem handle_output_fills_slot :
    (∀ (E : Env D) (ret_ptr i : Nat) (s : St D Addr) (w1 : World D) (ret : Nat),
      ret_ptr ≠ 0 → i < s.out.length →
      (∀ old, s.out[i]? = some old → old ≠ 0 → ∃ o, s.w.obj old = some o) →
      GeometryObject_new_from_ptr E ret_ptr s.w = (w1, ret) → ret ≠ 0 →
      SlotFilled ret_ptr i s w1 ret (OUTPUT_Y E ret_ptr i s)) ∧
    (∀ (E : Env D) (func : FuncGEOS_Y_Y D) (in1 : Nat → Addr) (k : Nat) (s sk : St D Addr),
      Y_Y_func E func in1 k s = .next sk → Usable sk.w (in1 k) →
      Y_Y_func E func in1 (k + 1) s
        = OUTPUT_Y E (func E (ptrOf sk.w (in1 k)) sk.w).2 k
            ⟨(func E (ptrOf sk.w (in1 k)) sk.w).1, sk.out⟩) ∧
    (∀ (E : Env D) (func : Ptr → D → Call D) (in1 : Nat → Addr) (in2 : Nat → D) (k : Nat)
        (s sk : St D Addr),
      Yd_Y_func E func in1 in2 k s = .next sk → Usable sk.w (in1 k) →
      Yd_Y_func E func in1 in2 (k + 1) s
        = OUTPUT_Y E (E.retp (func (ptrOf sk.w (in1 k)) (in2 k))) k
            ⟨geos E (func (ptrOf sk.w (in1 k)) (in2 k)) sk.w, sk.out⟩) ∧
    (∀ (E : Env D) (func : Ptr → Int → Call D) (in1 : Nat → Addr) (in2 : Nat → Int) (k : Nat)
        (s sk : St D Addr),
      Yi_Y_func E func in1 in2 k s = .next sk → Usable sk.w (in1 k) →
      Yi_Y_func E func in1 in2 (k + 1) s
        = OUTPUT_Y E (E.retp (func (ptrOf sk.w (in1 k)) (in2 k))) k
            ⟨geos E (func (ptrOf sk.w (in1 k)) (in2 k)) sk.w, sk.out⟩) ∧
    (∀ (E : Env D) (func : Ptr → Ptr → Call D) (in1 in2 : Nat → Addr) (k : Nat)
        (s sk : St D Addr),
      YY_Y_func E func in1 in2 k s = .next sk → Usable sk.w (in1 k) → Usable sk.w (in2 k) →
      YY_Y_func E func in1 in2 (k + 1) s
        = OUTPUT_Y E (E.retp (func (ptrOf sk.w (in1 k)) (ptrOf sk.w (in2 k)))) k
            ⟨geos E (func (ptrOf sk.w (in1 k)) (ptrOf sk.w (in2 k))) sk.w, sk.out⟩) ∧
    (∀ (E : Env D) (in1 : Nat → Addr) (in2 : Nat → D) (in3 : Nat → Int) (k : Nat)
        (s sk : St D Addr),
      buffer_func E in1 in2 in3 k s = .next sk → Usable sk.w (in1 k) →
      buffer_func E in1 in2 in3 (k + 1) s
        = OUTPUT_Y E (E.retp (.GEOSBuffer_r (ptrOf sk.w (in1 k)) (in2 k) (in3 k))) k
            ⟨geos E (.GEOSBuffer_r (ptrOf sk.w (in1 k)) (in2 k) (in3 k)) sk.w, sk.out⟩) ∧
    (∀ (E : Env D) (in1 in2 : Nat → Addr) (in3 : Nat → D) (k : Nat) (s sk : St D Addr),
      snap_func E in1 in2 in3 k s = .next sk → Usable sk.w (in1 k) → Usable sk.w (in2 k) →
      snap_func E in1 in2 in3 (k + 1) s
        = OUTPUT_Y E (E.retp (.GEOSSnap_r (ptrOf sk.w (in1 k)) (ptrOf sk.w (in2 k)) (in3 k))) k
            ⟨geos E (.GEOSSnap_r (ptrOf sk.w (in1 k)) (ptrOf sk.w (in2 k)) (in3 k)) sk.w,
              sk.out⟩) ∧
    (∀ (E : Env D) (in1 : Nat → Nat → D) (n_c1 k : Nat) (s sk : St D Addr)
        (st0 st1 : World D × CoordSeq D),
      points_func E in1 n_c1 k s = .next sk →
      CREATE_COORDSEQ E 1 n_c1 sk.w = .next st0 →
      COREDIM_LOOP (fun i_c1 st => SET_COORD E 0 i_c1 (in1 k i_c1) st) n_c1 st0 = .next st1 →
      points_func E in1 n_c1 (k + 1) s
        = OUTPUT_Y E (E.retp (.GEOSGeom_createPoint_r st1.2)) k
            ⟨geos E (.GEOSGeom_createPoint_r st1.2) st1.1, sk.out⟩) ∧
    (∀ (E : Env D) (in1 : Nat → Nat → Nat → D) (n_c1 n_c2 k : Nat) (s sk : St D Addr)
        (st0 st1 : World D × CoordSeq D),
      linestrings_func E in1 n_c1 n_c2 k s = .next sk →
      CREATE_COORDSEQ E n_c1 n_c2 sk.w = .next st0 →
      fill_coords E (in1 k) n_c1 n_c2 st0 = .next st1 →
      linestrings_func E in1 n_c1 n_c2 (k + 1) s
        = OUTPUT_Y E (E.retp (.GEOSGeom_createLineString_r st1.2)) k
            ⟨geos E (.GEOSGeom_createLineString_r st1.2) st1.1, sk.out⟩) ∧
    (∀ (E : Env D) (in1 : Nat → Nat → Nat → D) (n_c1 n_c2 k : Nat) (s sk : St D Addr)
        (st0 st1 st2 : World D × CoordSeq D),
      linearrings_func E in1 n_c1 n_c2 k s = .next sk →
      CREATE_COORDSEQ E (n_c1 + ring_closure E (in1 k) n_c1 n_c2) n_c2 sk.w = .next st0 →
      fill_coords E (in1 k) n_c1 n_c2 st0 = .next st1 →
      close_ring E (in1 k) n_c1 n_c2 (ring_closure E (in1 k) n_c1 n_c2) st1 = .next st2 →
      linearrings_func E in1 n_c1 n_c2 (k + 1) s
        = OUTPUT_Y E (E.retp (.GEOSGeom_createLinearRing_r st2.2)) k
            ⟨geos E (.GEOSGeom_createLinearRing_r st2.2) st2.1, sk.out⟩) ∧
    (∀ (E : Env D) (in1 : Nat → Addr) (in2 : Nat → Nat → Addr) (n_c1 k : Nat)
        (s sk : St D Addr) (st : World D × List Ptr),
      polygons_with_holes_func E in1 in2 n_c1 k s = .next sk → Usable sk.w (in1 k) →
      E.retp (.GEOSGeom_clone_r (ptrOf sk.w (in1 k))) ≠ 0 →
      clone_holes E (in2 k) n_c1
          (geos E (.GEOSGeom_clone_r (ptrOf sk.w (in1 k))) sk.w, List.replicate n_c1 0)
        = .next st →
      polygons_with_holes_func E in1 in2 n_c1 (k + 1) s
        = OUTPUT_Y E
            (E.retp (.GEOSGeom_createPolygon_r
              (E.retp (.GEOSGeom_clone_r (ptrOf sk.w (in1 k)))) st.2 n_c1)) k
            ⟨geos E (.GEOSGeom_createPolygon_r
              (E.retp (.GEOSGeom_clone_r (ptrOf sk.w (in1 k)))) st.2 n_c1) st.1, sk.out⟩) := by
  refine ⟨?_, ?_, ?_, ?_, ?_, ?_, ?_, ?_, ?_, ?_, ?_⟩
  · intro E ret_ptr i s w1 ret hp hi hslot hnew hret
    exact OUTPUT_Y_success E ret_ptr i s w1 ret hp hi hslot hnew hret
  · intro E func in1 k s sk h1 hu
    unfold Y_Y_func ELEMENT_LOOP at h1 ⊢
    rw [Y_Y_body_eq] at h1 ⊢
    exact handle_step E _ _ k s sk h1 (firstHandleError_one _ _ hu)
  · intro E func in1 in2 k s sk h1 hu
    unfold Yd_Y_func ELEMENT_LOOP at h1 ⊢
    rw [Yd_Y_body_eq] at h1 ⊢
    exact handle_step E _ _ k s sk h1 (firstHandleError_one _ _ hu)
  · intro E func in1 in2 k s sk h1 hu
    unfold Yi_Y_func ELEMENT_LOOP at h1 ⊢
    rw [Yi_Y_body_eq] at h1 ⊢
    exact handle_step E _ _ k s sk h1 (firstHandleError_one _ _ hu)
  · intro E func in1 in2 k s sk h1 hu1 hu2
    unfold YY_Y_func ELEMENT_LOOP at h1 ⊢
    rw [YY_Y_body_eq] at h1 ⊢
    exact handle_step E _ _ k s sk h1 (firstHandleError_two _ _ _ hu1 hu2)
  · intro E in1 in2 in3 k s sk h1 hu
    unfold buffer_func ELEMENT_LOOP at h1 ⊢
    rw [buffer_body_eq] at h1 ⊢
    exact handle_step E _ _ k s sk h1 (firstHandleError_one _ _ hu)
  · intro E in1 in2 in3 k s sk h1 hu1 hu2
    unfold snap_func ELEMENT_LOOP at h1 ⊢
    rw [snap_body_eq] at h1 ⊢
    exact handle_step E _ _ k s sk h1 (firstHandleError_two _ _ _ hu1 hu2)
  · intro E in1 n_c1 k s sk st0 st1 h1 h2 h3
    unfold points_func ELEMENT_LOOP at h1 ⊢
    rw [forRange_step _ k s sk h1]
    simp only [points_body, h2, h3]
  · intro E in1 n_c1 n_c2 k s sk st0 st1 h1 h2 h3
    unfold linestrings_func ELEMENT_LOOP at h1 ⊢
    rw [forRange_step _ k s sk h1]
    simp only [linestrings_body, h2, h3]
  · intro E in1 n_c1 n_c2 k s sk st0 st1 st2 h1 h2 h3 h4
    unfold linearrings_func ELEMENT_LOOP at h1 ⊢
    rw [forRange_step _ k s sk h1]
    simp only [linearrings_body, h2, h3, h4]
  · intro E in1 in2 n_c1 k s sk st h1 hu hclone h2
    unfold polygons_with_holes_func at h1 ⊢
    rw [forRange_step _ k s sk h1]
    simp only [polygons_with_holes_body, CHECK_GEOM_usable E _ _ hu, hclone, if_false, h2]

/-- C9 applies: `OUTPUT_Y` at slot 0, which holds the handle at address 2 (count
1, wrapping pointer 9); the engine returned pointer 7 and the new handle is
built at address 3. -/
theorem handle_output_fills_slot_witness :
    SlotFilled 7 0
      (⟨⟨none, [⟨1, true, false, 5, 0, 0⟩, ⟨1, true, false, 9, 0, 0⟩], []⟩, [2]⟩ : St Int Addr)
      ⟨none, [⟨1, true, false, 5, 0, 0⟩, ⟨1, true, false, 9, 0, 0⟩, ⟨1, true, false, 7, 3, 0⟩],
        [.GEOSGeomTypeId_r 7, .GEOSHasZ_r 7]⟩ 3
      (OUTPUT_Y (okEnv 3 true true) 7 0
        ⟨⟨none, [⟨1, true, false, 5, 0, 0⟩, ⟨1, true, false, 9, 0, 0⟩], []⟩, [2]⟩) :=
  handle_output_fills_slot.1 (okEnv 3 true true) 7 0 _ _ 3 (by decide) (by decide)
    (by intro old h hne; simp at h; subst h; exact ⟨_, rfl⟩) (by decide) (by decide)

/-! ## C3: what the validation lets through -/

/-- C3 fails at these inputs. (1) `Y_b_func` over one element that is not a
Geometry and for which the instance check itself fails (it answers -1 with an
exception set): `CHECK_GEOM` negates the answer, so the check passes, the engine
function is invoked on whatever the object holds where a Geometry has its
engine pointer (here 9), its result is written to the output and the loop
goes on; no TypeError is set. (2) `Y_b_func` over one element whose slot is
null: the instance check dereferences the null pointer and the process is
killed before any exception is set. -/
theorem Y_b_func_unusable_handle_not_stopped :
    CHECK_GEOM raisingCheckEnv 1 foreignObject
      = .next ⟨some ⟨.Exception, "__class__"⟩, foreignObject.heap, []⟩ ∧
    Y_b_func raisingCheckEnv (Call.data_Y "GEOSisEmpty_r") (fun _ => 1) 1 ⟨foreignObject, [0]⟩
      = .next ⟨⟨some ⟨.Exception, "__class__"⟩, foreignObject.heap,
                [Call.data_Y "GEOSisEmpty_r" 9]⟩, [1]⟩ ∧
    Y_b_func (okEnv 0 true true) (Call.data_Y "GEOSisEmpty_r") (fun _ => 0) 1
        ⟨oneGeometry, [0]⟩
      = .crash ⟨oneGeometry, [0]⟩ := by
  decide

/-! ## C4: fail-fast loops -/

theorem bodyFrame_of_local {V : Type} (body : Nat → St D V → Ctl (St D V) (St D V))
    (h : BodyLocal body) : BodyFrame body := by
  intro i s r hr j hj
  rcases hr with hr | hr
  · exact (h i s).1 r hr j hj
  · rw [(h i s).2 r hr]

theorem loop_frame {V : Type} (body : Nat → St D V → Ctl (St D V) (St D V))
    (hloc : BodyFrame body) (lo cnt : Nat) (s s1 : St D V)
    (h : forRange body lo cnt s = .next s1) (j : Nat) (hj : j < lo ∨ lo + cnt ≤ j) :
    s1.out[j]? = s.out[j]? := by
  have := forRange_inv body (fun i t => ∀ j, (j < lo ∨ i ≤ j) → t.out[j]? = s.out[j]?)
    lo cnt s s1 (fun _ _ => rfl)
    (fun i t t1 h1 _ hP hb j hj => by
      rw [hloc i t t1 (Or.inl hb) j (by omega)]
      exact hP j (by omega)) h
  exact this j hj

theorem failFast_of_frame {V : Type} (body : Nat → St D V → Ctl (St D V) (St D V))
    (hloc : BodyFrame body) : FailFast (fun n s => forRange body 0 n s) := by
  intro n k s sk s1 hk h1 h2
  simp only at h1 h2 ⊢
  have hb : body k sk = .ret s1 := by rw [← forRange_step body k s sk h1]; exact h2
  refine ⟨forRange_ret_mono body 0 (k + 1) n s s1 h2 hk, ?_, ?_⟩
  · intro i si hi hsi
    have hadd := forRange_add body 0 (i + 1) (k - (i + 1)) s
    have e : i + 1 + (k - (i + 1)) = k := by omega
    rw [e, h1, hsi] at hadd
    rw [hloc k sk s1 (Or.inr hb) i (by omega)]
    exact loop_frame body hloc (0 + (i + 1)) (k - (i + 1)) si sk hadd.symm i (by omega)
  · intro j hj
    rw [hloc k sk s1 (Or.inr hb) j (by omega)]
    exact loop_frame body hloc 0 k s sk h1 j (by omega)

theorem failFast_of_local {V : Type} (body : Nat → St D V → Ctl (St D V) (St D V))
    (hloc : BodyLocal body) : FailFast (fun n s => forRange body 0 n s) :=
  failFast_of_frame body (bodyFrame_of_local body hloc)

theorem keepsFailed_of_local {V : Type} (body : Nat → St D V → Ctl (St D V) (St D V))
    (hloc : BodyLocal body) : KeepsFailed (fun n s => forRange body 0 n s) := by
  intro k s sk s1 h1 h2
  simp only at h1 h2
  have hb : body k sk = .ret s1 := by rw [← forRange_step body k s sk h1]; exact h2
  rw [(hloc k sk).2 s1 hb]
  exact loop_frame body (bodyFrame_of_local body hloc) 0 k s sk h1 k (by omega)

/-- What an element before the one that returned early has left at its own
position: what its processing wrote there. -/
theorem loop_written {V : Type} (body : Nat → St D V → Ctl (St D V) (St D V))
    (hloc : BodyFrame body) (k : Nat) (s sk s1 : St D V)
    (h1 : forRange body 0 k s = .next sk) (h2 : forRange body 0 (k + 1) s = .ret s1)
    (i : Nat) (hi : i < k) (si : St D V) (hsi : forRange body 0 i s = .next si) :
    ∃ si1, body i si = .next si1 ∧ s1.out[i]? = si1.out[i]? ∧ si.out[i]? = s.out[i]? := by
  have e : i + 1 + (k - (i + 1)) = k := by omega
  obtain ⟨sa, ha, -⟩ := forRange_next_prefix body (i + 1) (k - (i + 1)) s sk (by rw [e]; exact h1)
  have hb : body i si = .next sa := by rw [← forRange_step body i s si hsi]; exact ha
  refine ⟨sa, hb, ?_, ?_⟩
  · exact (failFast_of_frame body hloc (k + 1) k s sk s1 (by omega) h1 h2).2.1 i sa hi ha
  · exact loop_frame body hloc 0 i s si hsi i (by omega)

theorem getElem?_set_of_frame {V : Type} (out out1 : List V) (i : Nat) (v : V)
    (hlen : i < out.length) (h : out1[i]? = out[i]?) : (out1.set i v)[i]? = some v := by
  have : i < out1.length := by
    by_contra hge
    rw [List.getElem?_eq_none (by omega), List.getElem?_eq_getElem hlen] at h
    cases h
  exact List.getElem?_set_self this

theorem scalarBody_local {V : Type} (E : Env D) (handles : Nat → List Addr)
    (mk : Nat → (Addr → Ptr) → Call D) (accept : Call D → Bool)
    (wr rj : Nat → Call D → List V → List V)
    (hwr : ∀ i c out j, j ≠ i → (wr i c out)[j]? = out[j]?)
    (hrj : ∀ i c out, accept c = false → rj i c out = out) :
    BodyLocal (scalarBody E handles mk accept wr rj) := by
  intro i s
  unfold scalarBody
  cases checkHandles E (handles i) s.w with
  | ret w => exact ⟨fun s1 h => (by cases h), fun r h => by cases h; rfl⟩
  | crash w => exact ⟨fun s1 h => (by cases h), fun r h => (by cases h)⟩
  | next w =>
    simp only
    cases hacc : accept (mk i (ptrOf w)) with
    | true =>
      refine ⟨fun s1 h j hj => ?_, fun r h => by simp at h⟩
      simp at h
      subst h
      exact hwr i _ _ j hj
    | false =>
      refine ⟨fun s1 h => (by simp at h), fun r h => ?_⟩
      simp at h
      subst h
      exact hrj i _ _ hacc

theorem scalarBody_frame {V : Type} (E : Env D) (handles : Nat → List Addr)
    (mk : Nat → (Addr → Ptr) → Call D) (accept : Call D → Bool)
    (wr rj : Nat → Call D → List V → List V)
    (hwr : ∀ i c out j, j ≠ i → (wr i c out)[j]? = out[j]?)
    (hrj : ∀ i c out j, j ≠ i → (rj i c out)[j]? = out[j]?) :
    BodyFrame (scalarBody E handles mk accept wr rj) := by
  intro i s r hr j hj
  unfold scalarBody at hr
  cases hch : checkHandles E (handles i) s.w with
  | ret w =>
    rw [hch] at hr
    rcases hr with hr | hr <;> cases hr
    rfl
  | crash w =>
    rw [hch] at hr
    rcases hr with hr | hr <;> cases hr
  | next w =>
    rw [hch] at hr
    simp only at hr
    cases hacc : accept (mk i (ptrOf w)) with
    | true =>
      rw [hacc] at hr
      simp only [if_true] at hr
      rcases hr with hr | hr <;> cases hr
      exact hwr i _ _ j hj
    | false =>
      rw [hacc] at hr
      simp only [Bool.false_eq_true, if_false] at hr
      rcases hr with hr | hr <;> cases hr
      exact hrj i _ _ j hj

theorem OUTPUT_Y_local (E : Env D) (p : Ptr) (i : Nat) (s : St D Addr) :
    (∀ s1, OUTPUT_Y E p i s = .next s1 → ∀ j, j ≠ i → s1.out[j]? = s.out[j]?) ∧
    (∀ r, OUTPUT_Y E p i s = .ret r → r.out = s.out) := by
  unfold OUTPUT_Y
  by_cases hp : p = 0
  · simp only [hp, if_true]
    refine ⟨fun s1 h => (by cases h), fun r h => ?_⟩
    cases h; rfl
  · simp only [hp, if_false]
    by_cases hr : (GeometryObject_new_from_ptr E p s.w).2 = 0
    · simp only [hr, if_true]
      refine ⟨fun s1 h => (by cases h), fun r h => ?_⟩
      cases h; rfl
    · simp only [hr, if_false]
      refine ⟨fun s1 h j hj => ?_, fun r h => by cases h⟩
      cases h
      exact List.getElem?_set_ne (Ne.symm hj)

/-- When `OUTPUT_Y` falls through, the slot of the element holds the handle that
`GeometryObject_new_from_ptr` returned for the pointer. -/
theorem OUTPUT_Y_next (E : Env D) (p : Ptr) (i : Nat) (s s1 : St D Addr)
    (h : OUTPUT_Y E p i s = .next s1) :
    s1.out = s.out.set i (GeometryObject_new_from_ptr E p s.w).2 := by
  unfold OUTPUT_Y at h
  by_cases hp : p = 0
  · simp only [hp, if_true] at h
    cases h
  · simp only [hp, if_false] at h
    by_cases hr : (GeometryObject_new_from_ptr E p s.w).2 = 0
    · simp only [hr, if_true] at h
      cases h
    · simp only [hr, if_false] at h
      cases h
      rfl

theorem handleBody_local (E : Env D) (handles : Nat → List Addr)
    (f : Nat → World D → World D × Ptr) : BodyLocal (handleBody E handles f) := by
  intro i s
  unfold handleBody
  cases checkHandles E (handles i) s.w with
  | ret w => exact ⟨fun s1 h => (by cases h), fun r h => by cases h; rfl⟩
  | crash w => exact ⟨fun s1 h => (by cases h), fun r h => (by cases h)⟩
  | next w => exact OUTPUT_Y_local E _ i ⟨_, s.out⟩

theorem set_local {V : Type} (val : Call D → V) (i : Nat) (c : Call D) (out : List V) (j : Nat)
    (hj : j ≠ i) : (out.set i (val c))[j]? = out[j]? :=
  List.getElem?_set_ne (Ne.symm hj)

theorem id_local {V : Type} (i : Nat) (c : Call D) (out : List V) (j : Nat)
    (_hj : j ≠ i) : ((fun (_ : Nat) (_ : Call D) (o : List V) => o) i c out)[j]? = out[j]? :=
  rfl

theorem storeThrough_local (E : Env D) (i : Nat) (c : Call D) (out : List D) (j : Nat)
    (hj : j ≠ i) : (storeThrough E c i out)[j]? = out[j]? := by
  unfold storeThrough
  cases E.stored c with
  | none => rfl
  | some v => exact List.getElem?_set_ne (Ne.symm hj)

theorem storeThrough_none (E : Env D) (i : Nat) (c : Call D) (out : List D)
    (h : E.stored c = none) : storeThrough E c i out = out := by
  simp [storeThrough, h]

theorem storeThrough_length (E : Env D) (i : Nat) (c : Call D) (out : List D) :
    (storeThrough E c i out).length = out.length := by
  unfold storeThrough
  cases E.stored c with
  | none => rfl
  | some v => exact List.length_set _ _ _

theorem storeThrough_val_congr (E : Env D) (i : Nat) (c : Call D) (out1 out2 : List D)
    (hlen : out1.length = out2.length) (h : out1[i]? = out2[i]?) :
    (storeThrough E c i out1)[i]? = (storeThrough E c i out2)[i]? := by
  unfold storeThrough
  cases E.stored c with
  | none => exact h
  | some v => simp [List.getElem?_set, hlen]

theorem points_body_local (E : Env D) (in1 : Nat → Nat → D) (n_c1 : Nat) :
    BodyLocal (points_body E in1 n_c1) := by
  intro i s
  unfold points_body
  split
  · exact ⟨fun s1 h => (by cases h), fun r h => by cases h; rfl⟩
  · exact ⟨fun s1 h => (by cases h), fun r h => (by cases h)⟩
  · split
    · exact ⟨fun s1 h => (by cases h), fun r h => by cases h; rfl⟩
    · exact ⟨fun s1 h => (by cases h), fun r h => (by cases h)⟩
    · exact OUTPUT_Y_local E _ i ⟨_, s.out⟩

theorem linestrings_body_local (E : Env D) (in1 : Nat → Nat → Nat → D) (n_c1 n_c2 : Nat) :
    BodyLocal (linestrings_body E in1 n_c1 n_c2) := by
  intro i s
  unfold linestrings_body
  split
  · exact ⟨fun s1 h => (by cases h), fun r h => by cases h; rfl⟩
  · exact ⟨fun s1 h => (by cases h), fun r h => (by cases h)⟩
  · split
    · exact ⟨fun s1 h => (by cases h), fun r h => by cases h; rfl⟩
    · exact ⟨fun s1 h => (by cases h), fun r h => (by cases h)⟩
    · exact OUTPUT_Y_local E _ i ⟨_, s.out⟩

theorem linearrings_body_local (E : Env D) (in1 : Nat → Nat → Nat → D) (n_c1 n_c2 : Nat) :
    BodyLocal (linearrings_body E in1 n_c1 n_c2) := by
  intro i s
  unfold linearrings_body
  simp only
  split
  · exact ⟨fun s1 h => (by cases h), fun r h => by cases h; rfl⟩
  · exact ⟨fun s1 h => (by cases h), fun r h => (by cases h)⟩
  · split
    · exact ⟨fun s1 h => (by cases h), fun r h => by cases h; rfl⟩
    · exact ⟨fun s1 h => (by cases h), fun r h => (by cases h)⟩
    · split
      · exact ⟨fun s1 h => (by cases h), fun r h => by cases h; rfl⟩
      · exact ⟨fun s1 h => (by cases h), fun r h => (by cases h)⟩
      · exact OUTPUT_Y_local E _ i ⟨_, s.out⟩

theorem polygons_with_holes_body_local (E : Env D) (in1 : Nat → Addr) (in2 : Nat → Nat → Addr)
    (n_c1 : Nat) : BodyLocal (polygons_with_holes_body E in1 in2 n_c1) := by
  intro i s
  unfold polygons_with_holes_body
  split
  · exact ⟨fun s1 h => (by cases h), fun r h => by cases h; rfl⟩
  · exact ⟨fun s1 h => (by cases h), fun r h => (by cases h)⟩
  · simp only
    split
    · exact ⟨fun s1 h => (by cases h), fun r h => by cases h; rfl⟩
    · split
      · exact ⟨fun s1 h => (by cases h), fun r h => by cases h; rfl⟩
      · exact ⟨fun s1 h => (by cases h), fun r h => (by cases h)⟩
      · exact OUTPUT_Y_local E _ i ⟨_, s.out⟩

theorem ptrOf_heap (w1 w2 : World D) (h : w1.heap = w2.heap) : ptrOf w1 = ptrOf w2 := by
  funext a
  simp [ptrOf, World.obj, h]

theorem firstHandleError_heap (w1 w2 : World D) (h : w1.heap = w2.heap) (l : List Addr) :
    firstHandleError w1 l = firstHandleError w2 l := by
  have : handleError w1 = handleError w2 := by
    funext a
    simp [handleError, isGeometry, ptrOf, World.obj, h]
  simp [firstHandleError, this]

theorem geos_heap (E : Env D) (c : Call D) (w : World D) : (geos E c w).heap = w.heap := by
  rw [geos_eq]

theorem geos_log (E : Env D) (c : Call D) (w : World D) : (geos E c w).log = w.log ++ [c] := by
  rw [geos_eq]

/-- What has happened when a scalar loop has fallen through its first `k`
elements. -/
theorem scalar_loop_inv {V : Type} (E : Env D) (handles : Nat → List Addr)
    (mk : Nat → (Addr → Ptr) → Call D) (accept : Call D → Bool)
    (wr rj : Nat → Call D → List V → List V)
    (hlen : ∀ i c out, (wr i c out).length = out.length)
    (hwr : ∀ i c out j, j ≠ i → (wr i c out)[j]? = out[j]?)
    (hval : ∀ i c out1 out2, out1.length = out2.length → out1[i]? = out2[i]? →
      (wr i c out1)[i]? = (wr i c out2)[i]?)
    (k : Nat) (s sk : St D V)
    (h : forRange (scalarBody E handles mk accept wr rj) 0 k s = .next sk) :
    sk.w.heap = s.w.heap ∧
    sk.w.log = s.w.log ++ (List.range k).map (fun i => mk i (ptrOf s.w)) ∧
    sk.out.length = s.out.length ∧
    (∀ i, i < k → sk.out[i]? = (wr i (mk i (ptrOf s.w)) s.out)[i]?) ∧
    (∀ j, k ≤ j → sk.out[j]? = s.out[j]?) := by
  have := forRange_inv (scalarBody E handles mk accept wr rj)
    (fun i t => t.w.heap = s.w.heap ∧
      t.w.log = s.w.log ++ (List.range i).map (fun i => mk i (ptrOf s.w)) ∧
      t.out.length = s.out.length ∧
      (∀ j, j < i → t.out[j]? = (wr j (mk j (ptrOf s.w)) s.out)[j]?) ∧
      (∀ j, i ≤ j → t.out[j]? = s.out[j]?))
    0 k s sk ⟨rfl, by simp, rfl, fun j hj => by omega, fun _ _ => rfl⟩
    (fun i t t1 _ _ hP hb => by
      obtain ⟨hh, hl, hlen1, hv, hu⟩ := hP
      unfold scalarBody at hb
      cases hch : checkHandles E (handles i) t.w with
      | ret w => rw [hch] at hb; cases hb
      | crash w => rw [hch] at hb; cases hb
      | next w =>
        rw [hch] at hb
        simp only at hb
        obtain ⟨hwh, hwl⟩ := checkHandles_frame E _ t.w w (Or.inl hch)
        cases hacc : accept (mk i (ptrOf w)) with
        | false => rw [hacc] at hb; simp at hb
        | true =>
          rw [hacc] at hb
          simp only [if_true] at hb
          cases hb
          have hp : ptrOf w = ptrOf s.w := ptrOf_heap _ _ (hwh.trans hh)
          refine ⟨by rw [geos_heap, hwh]; exact hh, ?_, by simp only [hlen]; exact hlen1, ?_, ?_⟩
          · rw [geos_log, hwl, hl, List.range_succ, List.map_append, hp]
            simp
          · intro j hj
            by_cases hji : j = i
            · subst hji
              simp only [hp]
              exact hval j _ _ _ hlen1 (hu j (Nat.le_refl j))
            · simp only [hwr i _ _ j hji]
              exact hv j (by omega)
          · intro j hj
            simp only [hwr i _ _ j (by omega)]
            exact hu j (by omega)) h
  simpa using this

/-- What has happened when a scalar loop returns early at element `k`. -/
theorem scalar_early_return {V : Type} (E : Env D) (handles : Nat → List Addr)
    (mk : Nat → (Addr → Ptr) → Call D) (accept : Call D → Bool)
    (wr rj : Nat → Call D → List V → List V)
    (hlen : ∀ i c out, (wr i c out).length = out.length)
    (hwr : ∀ i c out j, j ≠ i → (wr i c out)[j]? = out[j]?)
    (hval : ∀ i c out1 out2, out1.length = out2.length → out1[i]? = out2[i]? →
      (wr i c out1)[i]? = (wr i c out2)[i]?)
    (hrj : ∀ i c out j, j ≠ i → (rj i c out)[j]? = out[j]?)
    (k : Nat) (s sk s1 : St D V)
    (h1 : forRange (scalarBody E handles mk accept wr rj) 0 k s = .next sk)
    (h2 : forRange (scalarBody E handles mk accept wr rj) 0 (k + 1) s = .ret s1) :
    (∀ i, i < k → s1.out[i]? = (wr i (mk i (ptrOf s.w)) s.out)[i]?) ∧
    sk.out.length = s.out.length ∧ sk.out[k]? = s.out[k]? ∧
    ((s1.w.log = s.w.log ++ (List.range k).map (fun i => mk i (ptrOf s.w)) ∧
      s1.out = sk.out) ∨
     (s1.w.log = s.w.log ++ (List.range k).map (fun i => mk i (ptrOf s.w))
        ++ [mk k (ptrOf s.w)] ∧
      s1.out = rj k (mk k (ptrOf s.w)) sk.out)) := by
  obtain ⟨hh, hl, hln, hv, hu⟩ :=
    scalar_loop_inv E handles mk accept wr rj hlen hwr hval k s sk h1
  have hk := hu k (Nat.le_refl k)
  rw [forRange_step _ k s sk h1] at h2
  unfold scalarBody at h2
  cases hch : checkHandles E (handles k) sk.w with
  | ret w =>
    rw [hch] at h2
    cases h2
    obtain ⟨-, hwl⟩ := checkHandles_frame E _ sk.w w (Or.inr (Or.inl hch))
    exact ⟨hv, hln, hk, Or.inl ⟨by rw [hwl]; exact hl, rfl⟩⟩
  | crash w => rw [hch] at h2; cases h2
  | next w =>
    rw [hch] at h2
    simp only at h2
    obtain ⟨hwh, hwl⟩ := checkHandles_frame E _ sk.w w (Or.inl hch)
    have hp : ptrOf w = ptrOf s.w := ptrOf_heap _ _ (hwh.trans hh)
    cases hacc : accept (mk k (ptrOf w)) with
    | true => rw [hacc] at h2; simp at h2
    | false =>
      rw [hacc] at h2
      simp at h2
      cases h2
      refine ⟨?_, hln, hk, Or.inr ⟨?_, by rw [hp]⟩⟩
      · intro i hi
        simp only [hrj k _ _ i (by omega)]
        exact hv i hi
      · rw [geos_log, hwl, hl, hp]

theorem set_length_val {V : Type} (val : Call D → V) (i : Nat) (c : Call D) (out : List V) :
    (out.set i (val c)).length = out.length := List.length_set _ _ _

theorem set_val_congr {V : Type} (val : Call D → V) (i : Nat) (c : Call D) (out1 out2 : List V)
    (h : out1.length = out2.length) (_h2 : out1[i]? = out2[i]?) :
    (out1.set i (val c))[i]? = (out2.set i (val c))[i]? := by
  simp [List.getElem?_set, h]


theorem scalarResults_of {V : Type} (E : Env D) (handles : Nat → List Addr)
    (mk : Nat → (Addr → Ptr) → Call D) (accept : Call D → Bool) (val : Call D → V) :
    ScalarResults (fun n s => forRange (scalarBody E handles mk accept
      (fun i c out => out.set i (val c)) (fun _ _ out => out)) 0 n s) mk val := by
  intro k s sk s1 h1 h2
  obtain ⟨hv, -, -, hl⟩ := scalar_early_return E handles mk accept
    (fun i c out => out.set i (val c)) (fun _ _ out => out) (set_length_val val) (set_local val)
    (set_val_congr val) (fun _ _ _ _ _ => rfl) k s sk s1 h1 h2
  refine ⟨fun i hi hlt => ?_, ?_⟩
  · rw [hv i hi]
    exact List.getElem?_set_self hlt
  · rcases hl with hl | hl
    · exact Or.inl hl.1
    · exact Or.inr hl.1

theorem storedResults_of (E : Env D) (handles : Nat → List Addr)
    (mk : Nat → (Addr → Ptr) → Call D) (accept : Call D → Bool) :
    StoredResults E (fun n s => forRange (scalarBody E handles mk accept
      (fun i c out => storeThrough E c i out) (fun i c out => storeThrough E c i out)) 0 n s)
      mk := by
  intro k s sk s1 h1 h2
  obtain ⟨hv, hln, hk, hl⟩ := scalar_early_return E handles mk accept
    (fun i c out => storeThrough E c i out) (fun i c out => storeThrough E c i out)
    (storeThrough_length E) (storeThrough_local E) (storeThrough_val_congr E)
    (storeThrough_local E) k s sk s1 h1 h2
  refine ⟨hv, ?_⟩
  rcases hl with hl | hl
  · exact Or.inl ⟨hl.1, by rw [hl.2]; exact hk⟩
  · exact Or.inr ⟨hl.1, by rw [hl.2]; exact storeThrough_val_congr E k _ _ _ hln hk⟩

theorem OUTPUT_Y_next_ne (E : Env D) (p : Ptr) (i : Nat) (s s1 : St D Addr)
    (h : OUTPUT_Y E p i s = .next s1) :
    p ≠ 0 ∧ (GeometryObject_new_from_ptr E p s.w).2 ≠ 0 := by
  unfold OUTPUT_Y at h
  by_cases hp : p = 0
  · simp only [hp, if_true] at h
    cases h
  · simp only [hp, if_false] at h
    by_cases hr : (GeometryObject_new_from_ptr E p s.w).2 = 0
    · simp only [hr, if_true] at h
      cases h
    · exact ⟨hp, hr⟩

theorem handleResults_of (E : Env D) (body : Nat → St D Addr → Ctl (St D Addr) (St D Addr))
    (hloc : BodyLocal body) (pre : Nat → World D → World D → Ptr → Prop)
    (hb : ∀ i s s1, body i s = .next s1 →
      ∃ t p, pre i s.w t p ∧ OUTPUT_Y E p i ⟨t, s.out⟩ = .next s1) :
    HandleResults E (fun n s => forRange body 0 n s) pre := by
  intro k s sk s1 h1 h2 i hi hlen
  simp only at h1 h2 ⊢
  have e : i + (k - i) = k := by omega
  obtain ⟨si, hsi, -⟩ := forRange_next_prefix body i (k - i) s sk (by rw [e]; exact h1)
  obtain ⟨si1, hbi, e1, e2⟩ := loop_written body (bodyFrame_of_local body hloc) k s sk s1 h1 h2
    i hi si hsi
  obtain ⟨t, p, hpre, ho⟩ := hb i si si1 hbi
  obtain ⟨hp, hr⟩ := OUTPUT_Y_next_ne E p i _ si1 ho
  refine ⟨si, t, p, hsi, hpre, hp, hr, ?_⟩
  rw [e1, OUTPUT_Y_next E p i _ si1 ho]
  exact getElem?_set_of_frame s.out si.out i _ hlen e2

theorem handleBody_pre (E : Env D) (handles : Nat → List Addr)
    (f : Nat → World D → World D × Ptr) (i : Nat) (s s1 : St D Addr)
    (h : handleBody E handles f i s = .next s1) :
    ∃ t p, (∃ w, checkHandles E (handles i) s.w = .next w ∧ f i w = (t, p)) ∧
      OUTPUT_Y E p i ⟨t, s.out⟩ = .next s1 := by
  unfold handleBody at h
  cases hch : checkHandles E (handles i) s.w with
  | ret w => rw [hch] at h; cases h
  | crash w => rw [hch] at h; cases h
  | next w =>
    rw [hch] at h
    exact ⟨(f i w).1, (f i w).2, ⟨w, rfl, rfl⟩, h⟩

theorem points_body_pre (E : Env D) (in1 : Nat → Nat → D) (n_c1 : Nat) (i : Nat)
    (s s1 : St D Addr) (h : points_body E in1 n_c1 i s = .next s1) :
    ∃ t p, (∃ st0 st1, CREATE_COORDSEQ E 1 n_c1 s.w = .next st0 ∧
        COREDIM_LOOP (fun i_c1 st => SET_COORD E 0 i_c1 (in1 i i_c1) st) n_c1 st0 = .next st1 ∧
        t = geos E (.GEOSGeom_createPoint_r st1.2) st1.1 ∧
        p = E.retp (.GEOSGeom_createPoint_r st1.2)) ∧
      OUTPUT_Y E p i ⟨t, s.out⟩ = .next s1 := by
  unfold points_body at h
  cases h0 : CREATE_COORDSEQ E 1 n_c1 s.w with
  | ret w => rw [h0] at h; cases h
  | crash w => rw [h0] at h; cases h
  | next st0 =>
    rw [h0] at h
    simp only at h
    cases hf : COREDIM_LOOP (fun i_c1 st => SET_COORD E 0 i_c1 (in1 i i_c1) st) n_c1 st0 with
    | ret w => rw [hf] at h; cases h
    | crash w => rw [hf] at h; cases h
    | next st1 =>
      rw [hf] at h
      exact ⟨_, _, ⟨st0, st1, rfl, hf, rfl, rfl⟩, h⟩

theorem linestrings_body_pre (E : Env D) (in1 : Nat → Nat → Nat → D) (n_c1 n_c2 : Nat)
    (i : Nat) (s s1 : St D Addr) (h : linestrings_body E in1 n_c1 n_c2 i s = .next s1) :
    ∃ t p, (∃ st0 st1, CREATE_COORDSEQ E n_c1 n_c2 s.w = .next st0 ∧
        fill_coords E (in1 i) n_c1 n_c2 st0 = .next st1 ∧
        t = geos E (.GEOSGeom_createLineString_r st1.2) st1.1 ∧
        p = E.retp (.GEOSGeom_createLineString_r st1.2)) ∧
      OUTPUT_Y E p i ⟨t, s.out⟩ = .next s1 := by
  unfold linestrings_body at h
  cases h0 : CREATE_COORDSEQ E n_c1 n_c2 s.w with
  | ret w => rw [h0] at h; cases h
  | crash w => rw [h0] at h; cases h
  | next st0 =>
    rw [h0] at h
    simp only at h
    cases hf : fill_coords E (in1 i) n_c1 n_c2 st0 with
    | ret w => rw [hf] at h; cases h
    | crash w => rw [hf] at h; cases h
    | next st1 =>
      rw [hf] at h
      exact ⟨_, _, ⟨st0, st1, rfl, hf, rfl, rfl⟩, h⟩

theorem linearrings_body_pre (E : Env D) (in1 : Nat → Nat → Nat → D) (n_c1 n_c2 : Nat)
    (i : Nat) (s s1 : St D Addr) (h : linearrings_body E in1 n_c1 n_c2 i s = .next s1) :
    ∃ t p, (∃ st0 st1 st2,
        CREATE_COORDSEQ E (n_c1 + ring_closure E (in1 i) n_c1 n_c2) n_c2 s.w = .next st0 ∧
        fill_coords E (in1 i) n_c1 n_c2 st0 = .next st1 ∧
        close_ring E (in1 i) n_c1 n_c2 (ring_closure E (in1 i) n_c1 n_c2) st1 = .next st2 ∧
        t = geos E (.GEOSGeom_createLinearRing_r st2.2) st2.1 ∧
        p = E.retp (.GEOSGeom_createLinearRing_r st2.2)) ∧
      OUTPUT_Y E p i ⟨t, s.out⟩ = .next s1 := by
  unfold linearrings_body at h
  simp only at h
  cases h0 : CREATE_COORDSEQ E (n_c1 + ring_closure E (in1 i) n_c1 n_c2) n_c2 s.w with
  | ret w => rw [h0] at h; cases h
  | crash w => rw [h0] at h; cases h
  | next st0 =>
    rw [h0] at h
    simp only at h
    cases hf : fill_coords E (in1 i) n_c1 n_c2 st0 with
    | ret w => rw [hf] at h; cases h
    | crash w => rw [hf] at h; cases h
    | next st1 =>
      rw [hf] at h
      simp only at h
      cases hc : close_ring E (in1 i) n_c1 n_c2 (ring_closure E (in1 i) n_c1 n_c2) st1 with
      | ret w => rw [hc] at h; cases h
      | crash w => rw [hc] at h; cases h
      | next st2 =>
        rw [hc] at h
        exact ⟨_, _, ⟨st0, st1, st2, rfl, hf, hc, rfl, rfl⟩, h⟩

theorem polygons_with_holes_body_pre (E : Env D) (in1 : Nat → Addr) (in2 : Nat → Nat → Addr)
    (n_c1 : Nat) (i : Nat) (s s1 : St D Addr)
    (h : polygons_with_holes_body E in1 in2 n_c1 i s = .next s1) :
    ∃ t p, (∃ w st, CHECK_GEOM E (in1 i) s.w = .next w ∧
        E.retp (.GEOSGeom_clone_r (ptrOf w (in1 i))) ≠ 0 ∧
        clone_holes E (in2 i) n_c1
          (geos E (.GEOSGeom_clone_r (ptrOf w (in1 i))) w, List.replicate n_c1 0) = .next st ∧
        t = geos E (.GEOSGeom_createPolygon_r
              (E.retp (.GEOSGeom_clone_r (ptrOf w (in1 i)))) st.2 n_c1) st.1 ∧
        p = E.retp (.GEOSGeom_createPolygon_r
              (E.retp (.GEOSGeom_clone_r (ptrOf w (in1 i)))) st.2 n_c1)) ∧
      OUTPUT_Y E p i ⟨t, s.out⟩ = .next s1 := by
  unfold polygons_with_holes_body at h
  cases h0 : CHECK_GEOM E (in1 i) s.w with
  | ret w => rw [h0] at h; cases h
  | crash w => rw [h0] at h; cases h
  | next w =>
    rw [h0] at h
    simp only at h
    by_cases hs : E.retp (.GEOSGeom_clone_r (ptrOf w (in1 i))) = 0
    · simp only [hs, if_true] at h
      cases h
    · simp only [hs, if_false] at h
      cases hc : clone_holes E (in2 i) n_c1
          (geos E (.GEOSGeom_clone_r (ptrOf w (in1 i))) w, List.replicate n_c1 0) with
      | ret w2 => rw [hc] at h; cases h
      | crash w2 => rw [hc] at h; cases h
      | next st =>
        rw [hc] at h
        exact ⟨_, _, ⟨w, st, rfl, hs, hc, rfl, rfl⟩, h⟩

/-- C4 as stated does not hold: `Y_d_func` over two elements with the output array
`[5, 5]`, where the engine function stores 42 through the output pointer for
element 0 and then reports failure. The call returns at element 0, and position
0 of the output array holds 42, not the 5 it held before the call. -/
theorem Y_d_func_failed_element_overwritten :
    Y_d_func storingEnv (Call.data_Y "GEOSArea_r") (fun _ => 1) 0 ⟨oneGeometry, [5, 5]⟩
      = .next ⟨oneGeometry, [5, 5]⟩ ∧
    Y_d_func storingEnv (Call.data_Y "GEOSArea_r") (fun _ => 1) 2 ⟨oneGeometry, [5, 5]⟩
      = .ret ⟨⟨none, [⟨1, true, false, 5, 0, 0⟩], [Call.data_Y "GEOSArea_r" 5]⟩, [42, 5]⟩ ∧
    ¬ KeepsFailed (Y_d_func storingEnv (Call.data_Y "GEOSArea_r") (fun _ => 1)) := by
  refine ⟨by decide, by decide, fun h => ?_⟩
  have := h 0 ⟨oneGeometry, [5, 5]⟩ ⟨oneGeometry, [5, 5]⟩
    ⟨⟨none, [⟨1, true, false, 5, 0, 0⟩], [Call.data_Y "GEOSArea_r" 5]⟩, [42, 5]⟩
    (by decide) (by decide)
  revert this
  decide

/-- C4, as amended. For each of the eighteen loops, a call that returns early at
element `k` (the first element that fails validation, whose engine result is
rejected, or whose output handle cannot be built): (1) `FailFast`: the call
over any `n > k` elements ends in the very state reached at that return, so
nothing is done, and no engine function is invoked, for any element after `k`,
and the positions after `k` are as before the call; (2) `KeepsFailed`, for every
loop but `Y_d_func` and `YY_d_func`: position `k` is as before the call; for
those two (`StoredResults`), position `k` is as before the call when element
`k` failed validation and otherwise holds what the engine function stored
through the output pointer before it reported failure; (3) the positions before
`k` hold the results of their elements: for the scalar loops the value written
for the engine call of the element (`ScalarResults`, `StoredResults`), together
with the exact sequence of engine calls made; for the loops with a handle
output the handle built for the engine pointer the element obtained
(`HandleResults`). -/
theorem early_return_keeps_results_and_stops :
    (∀ (E : Env D) (func : Ptr → Call D) (in1 : Nat → Addr),
      FailFast (Y_b_func E func in1) ∧ KeepsFailed (Y_b_func E func in1) ∧
      ScalarResults (Y_b_func E func in1) (fun i p => func (p (in1 i)))
        (fun c => E.ret c % 256)) ∧
    (∀ (E : Env D) (func : Ptr → Ptr → Call D) (in1 in2 : Nat → Addr),
      FailFast (YY_b_func E func in1 in2) ∧ KeepsFailed (YY_b_func E func in1 in2) ∧
      ScalarResults (YY_b_func E func in1 in2) (fun i p => func (p (in1 i)) (p (in2 i)))
        (fun c => E.ret c % 256)) ∧
    (∀ (E : Env D) (func : FuncGEOS_Y_Y D) (in1 : Nat → Addr),
      FailFast (Y_Y_func E func in1) ∧ KeepsFailed (Y_Y_func E func in1) ∧
      HandleResults E (Y_Y_func E func in1) (fun i w0 t p =>
        ∃ w, INPUT_Y E (in1 i) w0 = .next w ∧ func E (ptrOf w (in1 i)) w = (t, p))) ∧
    (∀ (E : Env D) (func : Ptr → D → Call D) (in1 : Nat → Addr) (in2 : Nat → D),
      FailFast (Yd_Y_func E func in1 in2) ∧ KeepsFailed (Yd_Y_func E func in1 in2) ∧
      HandleResults E (Yd_Y_func E func in1 in2) (fun i w0 t p =>
        ∃ w, INPUT_Y E (in1 i) w0 = .next w ∧
          (geos E (func (ptrOf w (in1 i)) (in2 i)) w,
           E.retp (func (ptrOf w (in1 i)) (in2 i))) = (t, p))) ∧
    (∀ (E : Env D) (func : Ptr → Int → Call D) (in1 : Nat → Addr) (in2 : Nat → Int),
      FailFast (Yi_Y_func E func in1 in2) ∧ KeepsFailed (Yi_Y_func E func in1 in2) ∧
      HandleResults E (Yi_Y_func E func in1 in2) (fun i w0 t p =>
        ∃ w, INPUT_Y E (in1 i) w0 = .next w ∧
          (geos E (func (ptrOf w (in1 i)) (in2 i)) w,
           E.retp (func (ptrOf w (in1 i)) (in2 i))) = (t, p))) ∧
    (∀ (E : Env D) (func : Ptr → Ptr → Call D) (in1 in2 : Nat → Addr),
      FailFast (YY_Y_func E func in1 in2) ∧ KeepsFailed (YY_Y_func E func in1 in2) ∧
      HandleResults E (YY_Y_func E func in1 in2) (fun i w0 t p =>
        ∃ w, INPUT_YY E (in1 i) (in2 i) w0 = .next w ∧
          (geos E (func (ptrOf w (in1 i)) (ptrOf w (in2 i))) w,
           E.retp (func (ptrOf w (in1 i)) (ptrOf w (in2 i)))) = (t, p))) ∧
    (∀ (E : Env D) (func : Ptr → Call D) (in1 : Nat → Addr),
      FailFast (Y_d_func E func in1) ∧
      StoredResults E (Y_d_func E func in1) (fun i p => func (p (in1 i)))) ∧
    (∀ (E : Env D) (func : Ptr → Call D) (in1 : Nat → Addr),
      FailFast (Y_B_func E func in1) ∧ KeepsFailed (Y_B_func E func in1) ∧
      ScalarResults (Y_B_func E func in1) (fun i p => func (p (in1 i)))
        (fun c => E.ret c % 256)) ∧
    (∀ (E : Env D) (func : Ptr → Call D) (in1 : Nat → Addr),
      FailFast (Y_i_func E func in1) ∧ KeepsFailed (Y_i_func E func in1) ∧
      ScalarResults (Y_i_func E func in1) (fun i p => func (p (in1 i)))
        (fun c => E.ret c)) ∧
    (∀ (E : Env D) (func : Ptr → Ptr → Call D) (in1 in2 : Nat → Addr),
      FailFast (YY_d_func E func in1 in2) ∧
      StoredResults E (YY_d_func E func in1 in2)
        (fun i p => func (p (in1 i)) (p (in2 i)))) ∧
    (∀ (E : Env D) (func : Ptr → Ptr → Call D) (in1 in2 : Nat → Addr),
      FailFast (YY_d_2_func E func in1 in2) ∧ KeepsFailed (YY_d_2_func E func in1 in2) ∧
      ScalarResults (YY_d_2_func E func in1 in2) (fun i p => func (p (in1 i)) (p (in2 i)))
        (fun c => E.retd c)) ∧
    (∀ (E : Env D) (in1 : Nat → Addr) (in2 : Nat → D) (in3 : Nat → Int),
      FailFast (buffer_func E in1 in2 in3) ∧ KeepsFailed (buffer_func E in1 in2 in3) ∧
      HandleResults E (buffer_func E in1 in2 in3) (fun i w0 t p =>
        ∃ w, INPUT_Y E (in1 i) w0 = .next w ∧
          (geos E (.GEOSBuffer_r (ptrOf w (in1 i)) (in2 i) (in3 i)) w,
           E.retp (.GEOSBuffer_r (ptrOf w (in1 i)) (in2 i) (in3 i))) = (t, p))) ∧
    (∀ (E : Env D) (in1 in2 : Nat → Addr) (in3 : Nat → D),
      FailFast (snap_func E in1 in2 in3) ∧ KeepsFailed (snap_func E in1 in2 in3) ∧
      HandleResults E (snap_func E in1 in2 in3) (fun i w0 t p =>
        ∃ w, INPUT_YY E (in1 i) (in2 i) w0 = .next w ∧
          (geos E (.GEOSSnap_r (ptrOf w (in1 i)) (ptrOf w (in2 i)) (in3 i)) w,
           E.retp (.GEOSSnap_r (ptrOf w (in1 i)) (ptrOf w (in2 i)) (in3 i))) = (t, p))) ∧
    (∀ (E : Env D) (in1 in2 : Nat → Addr) (in3 : Nat → D),
      FailFast (equals_exact_func E in1 in2 in3) ∧
      KeepsFailed (equals_exact_func E in1 in2 in3) ∧
      ScalarResults (equals_exact_func E in1 in2 in3)
        (fun i p => .GEOSEqualsExact_r (p (in1 i)) (p (in2 i)) (in3 i))
        (fun c => E.ret c % 256)) ∧
    (∀ (E : Env D) (in1 : Nat → Nat → D) (n_c1 : Nat),
      FailFast (points_func E in1 n_c1) ∧ KeepsFailed (points_func E in1 n_c1) ∧
      HandleResults E (points_func E in1 n_c1) (fun i w0 t p =>
        ∃ st0 st1, CREATE_COORDSEQ E 1 n_c1 w0 = .next st0 ∧
          COREDIM_LOOP (fun i_c1 st => SET_COORD E 0 i_c1 (in1 i i_c1) st) n_c1 st0
            = .next st1 ∧
          t = geos E (.GEOSGeom_createPoint_r st1.2) st1.1 ∧
          p = E.retp (.GEOSGeom_createPoint_r st1.2))) ∧
    (∀ (E : Env D) (in1 : Nat → Nat → Nat → D) (n_c1 n_c2 : Nat),
      FailFast (linestrings_func E in1 n_c1 n_c2) ∧
      KeepsFailed (linestrings_func E in1 n_c1 n_c2) ∧
      HandleResults E (linestrings_func E in1 n_c1 n_c2) (fun i w0 t p =>
        ∃ st0 st1, CREATE_COORDSEQ E n_c1 n_c2 w0 = .next st0 ∧
          fill_coords E (in1 i) n_c1 n_c2 st0 = .next st1 ∧
          t = geos E (.GEOSGeom_createLineString_r st1.2) st1.1 ∧
          p = E.retp (.GEOSGeom_createLineString_r st1.2))) ∧
    (∀ (E : Env D) (in1 : Nat → Nat → Nat → D) (n_c1 n_c2 : Nat),
      FailFast (linearrings_func E in1 n_c1 n_c2) ∧
      KeepsFailed (linearrings_func E in1 n_c1 n_c2) ∧
      HandleResults E (linearrings_func E in1 n_c1 n_c2) (fun i w0 t p =>
        ∃ st0 st1 st2,
          CREATE_COORDSEQ E (n_c1 + ring_closure E (in1 i) n_c1 n_c2) n_c2 w0 = .next st0 ∧
          fill_coords E (in1 i) n_c1 n_c2 st0 = .next st1 ∧
          close_ring E (in1 i) n_c1 n_c2 (ring_closure E (in1 i) n_c1 n_c2) st1
            = .next st2 ∧
          t = geos E (.GEOSGeom_createLinearRing_r st2.2) st2.1 ∧
          p = E.retp (.GEOSGeom_createLinearRing_r st2.2))) ∧
    (∀ (E : Env D) (in1 : Nat → Addr) (in2 : Nat → Nat → Addr) (n_c1 : Nat),
      FailFast (polygons_with_holes_func E in1 in2 n_c1) ∧
      KeepsFailed (polygons_with_holes_func E in1 in2 n_c1) ∧
      HandleResults E (polygons_with_holes_func E in1 in2 n_c1) (fun i w0 t p =>
        ∃ w st, CHECK_GEOM E (in1 i) w0 = .next w ∧
          E.retp (.GEOSGeom_clone_r (ptrOf w (in1 i))) ≠ 0 ∧
          clone_holes E (in2 i) n_c1
            (geos E (.GEOSGeom_clone_r (ptrOf w (in1 i))) w, List.replicate n_c1 0)
            = .next st ∧
          t = geos E (.GEOSGeom_createPolygon_r
                (E.retp (.GEOSGeom_clone_r (ptrOf w (in1 i)))) st.2 n_c1) st.1 ∧
          p = E.retp (.GEOSGeom_createPolygon_r
                (E.retp (.GEOSGeom_clone_r (ptrOf w (in1 i)))) st.2 n_c1))) := by
  refine ⟨?_, ?_, ?_, ?_, ?_, ?_, ?_, ?_, ?_, ?_, ?_, ?_, ?_, ?_, ?_, ?_, ?_, ?_⟩
  · intro E func in1
    show FailFast (fun n s => forRange (Y_b_body E func in1) 0 n s) ∧
      KeepsFailed (fun n s => forRange (Y_b_body E func in1) 0 n s) ∧
      ScalarResults (fun n s => forRange (Y_b_body E func in1) 0 n s) _ _
    rw [Y_b_body_eq]
    have hloc := scalarBody_local E (fun i => [in1 i]) (fun i p => func (p (in1 i)))
      (fun c => decide (E.ret c % 256 = 0 ∨ E.ret c % 256 = 1))
      (fun i c out => out.set i (E.ret c % 256)) (fun _ _ out => out)
      (set_local _) (fun _ _ _ _ => rfl)
    exact ⟨failFast_of_local _ hloc, keepsFailed_of_local _ hloc, scalarResults_of E _ _ _ _⟩
  · intro E func in1 in2
    show FailFast (fun n s => forRange (YY_b_body E func in1 in2) 0 n s) ∧
      KeepsFailed (fun n s => forRange (YY_b_body E func in1 in2) 0 n s) ∧
      ScalarResults (fun n s => forRange (YY_b_body E func in1 in2) 0 n s) _ _
    rw [YY_b_body_eq]
    have hloc := scalarBody_local E (fun i => [in1 i, in2 i])
      (fun i p => func (p (in1 i)) (p (in2 i)))
      (fun c => decide (E.ret c % 256 = 0 ∨ E.ret c % 256 = 1))
      (fun i c out => out.set i (E.ret c % 256)) (fun _ _ out => out)
      (set_local _) (fun _ _ _ _ => rfl)
    exact ⟨failFast_of_local _ hloc, keepsFailed_of_local _ hloc, scalarResults_of E _ _ _ _⟩
  · intro E func in1
    have hloc : BodyLocal (Y_Y_body E func in1) := by
      rw [Y_Y_body_eq]; exact handleBody_local E _ _
    refine ⟨failFast_of_local _ hloc, keepsFailed_of_local _ hloc,
      handleResults_of E _ hloc _ (fun i s s1 h => ?_)⟩
    rw [Y_Y_body_eq] at h
    obtain ⟨t, p, ⟨w, hw, hf⟩, ho⟩ := handleBody_pre E _ _ i s s1 h
    exact ⟨t, p, ⟨w, by rw [INPUT_Y_eq]; exact hw, hf⟩, ho⟩
  · intro E func in1 in2
    have hloc : BodyLocal (Yd_Y_body E func in1 in2) := by
      rw [Yd_Y_body_eq]; exact handleBody_local E _ _
    refine ⟨failFast_of_local _ hloc, keepsFailed_of_local _ hloc,
      handleResults_of E _ hloc _ (fun i s s1 h => ?_)⟩
    rw [Yd_Y_body_eq] at h
    obtain ⟨t, p, ⟨w, hw, hf⟩, ho⟩ := handleBody_pre E _ _ i s s1 h
    exact ⟨t, p, ⟨w, by rw [INPUT_Y_eq]; exact hw, hf⟩, ho⟩
  · intro E func in1 in2
    have hloc : BodyLocal (Yi_Y_body E func in1 in2) := by
      rw [Yi_Y_body_eq]; exact handleBody_local E _ _
    refine ⟨failFast_of_local _ hloc, keepsFailed_of_local _ hloc,
      handleResults_of E _ hloc _ (fun i s s1 h => ?_)⟩
    rw [Yi_Y_body_eq] at h
    obtain ⟨t, p, ⟨w, hw, hf⟩, ho⟩ := handleBody_pre E _ _ i s s1 h
    exact ⟨t, p, ⟨w, by rw [INPUT_Y_eq]; exact hw, hf⟩, ho⟩
  · intro E func in1 in2
    have hloc : BodyLocal (YY_Y_body E func in1 in2) := by
      rw [YY_Y_body_eq]; exact handleBody_local E _ _
    refine ⟨failFast_of_local _ hloc, keepsFailed_of_local _ hloc,
      handleResults_of E _ hloc _ (fun i s s1 h => ?_)⟩
    rw [YY_Y_body_eq] at h
    obtain ⟨t, p, ⟨w, hw, hf⟩, ho⟩ := handleBody_pre E _ _ i s s1 h
    exact ⟨t, p, ⟨w, by rw [INPUT_YY_eq]; exact hw, hf⟩, ho⟩
  · intro E func in1
    show FailFast (fun n s => forRange (Y_d_body E func in1) 0 n s) ∧
      StoredResults E (fun n s => forRange (Y_d_body E func in1) 0 n s) _
    rw [Y_d_body_eq]
    exact ⟨failFast_of_frame _ (scalarBody_frame E _ _ _ _ _ (storeThrough_local E)
      (storeThrough_local E)), storedResults_of E _ _ _⟩
  · intro E func in1
    show FailFast (fun n s => forRange (Y_B_body E func in1) 0 n s) ∧
      KeepsFailed (fun n s => forRange (Y_B_body E func in1) 0 n s) ∧
      ScalarResults (fun n s => forRange (Y_B_body E func in1) 0 n s) _ _
    rw [Y_B_body_eq]
    have hloc := scalarBody_local E (fun i => [in1 i]) (fun i p => func (p (in1 i)))
      (fun c => decide (¬ (E.ret c < 0 ∨ E.ret c > NPY_MAX_UBYTE)))
      (fun i c out => out.set i (E.ret c % 256)) (fun _ _ out => out)
      (set_local _) (fun _ _ _ _ => rfl)
    exact ⟨failFast_of_local _ hloc, keepsFailed_of_local _ hloc, scalarResults_of E _ _ _ _⟩
  · intro E func in1
    show FailFast (fun n s => forRange (Y_i_body E func in1) 0 n s) ∧
      KeepsFailed (fun n s => forRange (Y_i_body E func in1) 0 n s) ∧
      ScalarResults (fun n s => forRange (Y_i_body E func in1) 0 n s) _ _
    rw [Y_i_body_eq]
    have hloc := scalarBody_local E (fun i => [in1 i]) (fun i p => func (p (in1 i)))
      (fun c => decide (¬ (E.ret c < 0 ∨ E.ret c > NPY_MAX_INT)))
      (fun i c out => out.set i (E.ret c)) (fun _ _ out => out)
      (set_local _) (fun _ _ _ _ => rfl)
    exact ⟨failFast_of_local _ hloc, keepsFailed_of_local _ hloc, scalarResults_of E _ _ _ _⟩
  · intro E func in1 in2
    show FailFast (fun n s => forRange (YY_d_body E func in1 in2) 0 n s) ∧
      StoredResults E (fun n s => forRange (YY_d_body E func in1 in2) 0 n s) _
    rw [YY_d_body_eq]
    exact ⟨failFast_of_frame _ (scalarBody_frame E _ _ _ _ _ (storeThrough_local E)
      (storeThrough_local E)), storedResults_of E _ _ _⟩
  · intro E func in1 in2
    show FailFast (fun n s => forRange (YY_d_2_body E func in1 in2) 0 n s) ∧
      KeepsFailed (fun n s => forRange (YY_d_2_body E func in1 in2) 0 n s) ∧
      ScalarResults (fun n s => forRange (YY_d_2_body E func in1 in2) 0 n s) _ _
    rw [YY_d_2_body_eq]
    have hloc := scalarBody_local E (fun i => [in1 i, in2 i])
      (fun i p => func (p (in1 i)) (p (in2 i)))
      (fun c => !E.is_minus_one (E.retd c))
      (fun i c out => out.set i (E.retd c)) (fun _ _ out => out)
      (set_local _) (fun _ _ _ _ => rfl)
    exact ⟨failFast_of_local _ hloc, keepsFailed_of_local _ hloc, scalarResults_of E _ _ _ _⟩
  · intro E in1 in2 in3
    have hloc : BodyLocal (buffer_body E in1 in2 in3) := by
      rw [buffer_body_eq]; exact handleBody_local E _ _
    refine ⟨failFast_of_local _ hloc, keepsFailed_of_local _ hloc,
      handleResults_of E _ hloc _ (fun i s s1 h => ?_)⟩
    rw [buffer_body_eq] at h
    obtain ⟨t, p, ⟨w, hw, hf⟩, ho⟩ := handleBody_pre E _ _ i s s1 h
    exact ⟨t, p, ⟨w, by rw [INPUT_Y_eq]; exact hw, hf⟩, ho⟩
  · intro E in1 in2 in3
    have hloc : BodyLocal (snap_body E in1 in2 in3) := by
      rw [snap_body_eq]; exact handleBody_local E _ _
    refine ⟨failFast_of_local _ hloc, keepsFailed_of_local _ hloc,
      handleResults_of E _ hloc _ (fun i s s1 h => ?_)⟩
    rw [snap_body_eq] at h
    obtain ⟨t, p, ⟨w, hw, hf⟩, ho⟩ := handleBody_pre E _ _ i s s1 h
    exact ⟨t, p, ⟨w, by rw [INPUT_YY_eq]; exact hw, hf⟩, ho⟩
  · intro E in1 in2 in3
    show FailFast (fun n s => forRange (equals_exact_body E in1 in2 in3) 0 n s) ∧
      KeepsFailed (fun n s => forRange (equals_exact_body E in1 in2 in3) 0 n s) ∧
      ScalarResults (fun n s => forRange (equals_exact_body E in1 in2 in3) 0 n s) _ _
    rw [equals_exact_body_eq]
    have hloc := scalarBody_local E (fun i => [in1 i, in2 i])
      (fun i p => Call.GEOSEqualsExact_r (p (in1 i)) (p (in2 i)) (in3 i))
      (fun c => decide (E.ret c % 256 = 0 ∨ E.ret c % 256 = 1))
      (fun i c out => out.set i (E.ret c % 256)) (fun _ _ out => out)
      (set_local _) (fun _ _ _ _ => rfl)
    exact ⟨failFast_of_local _ hloc, keepsFailed_of_local _ hloc, scalarResults_of E _ _ _ _⟩
  · intro E in1 n_c1
    have hloc := points_body_local E in1 n_c1
    exact ⟨failFast_of_local _ hloc, keepsFailed_of_local _ hloc,
      handleResults_of E _ hloc _ (points_body_pre E in1 n_c1)⟩
  · intro E in1 n_c1 n_c2
    have hloc := linestrings_body_local E in1 n_c1 n_c2
    exact ⟨failFast_of_local _ hloc, keepsFailed_of_local _ hloc,
      handleResults_of E _ hloc _ (linestrings_body_pre E in1 n_c1 n_c2)⟩
  · intro E in1 n_c1 n_c2
    have hloc := linearrings_body_local E in1 n_c1 n_c2
    exact ⟨failFast_of_local _ hloc, keepsFailed_of_local _ hloc,
      handleResults_of E _ hloc _ (linearrings_body_pre E in1 n_c1 n_c2)⟩
  · intro E in1 in2 n_c1
    have hloc := polygons_with_holes_body_local E in1 in2 n_c1
    exact ⟨failFast_of_local _ hloc, keepsFailed_of_local _ hloc,
      handleResults_of E _ hloc _ (polygons_with_holes_body_pre E in1 in2 n_c1)⟩

/-- C4 as amended applies: `Y_b_func` over two elements, the first a usable
geometry for which the engine answers 1, the second a Geometry object whose
engine pointer is null; the call returns at element 1 with the ValueError, with
the result of element 0 at position 0 and a single engine call made. -/
theorem early_return_keeps_results_and_stops_witness :
    Y_b_func (okEnv 0 true true) (Call.data_Y "GEOSisEmpty_r") (fun i => i + 1) 2
        ⟨usableAndEmpty, [0, 0]⟩
      = .ret ⟨⟨some emptyGeometry, usableAndEmpty.heap, [Call.data_Y "GEOSisEmpty_r" 5]⟩,
              [1, 0]⟩ ∧
    (∀ i si, i < 1 →
      Y_b_func (okEnv 0 true true) (Call.data_Y "GEOSisEmpty_r") (fun i => i + 1) (i + 1)
          ⟨usableAndEmpty, [0, 0]⟩ = .next si →
      ([1, 0] : List Int)[i]? = si.out[i]?) ∧
    (∀ j, 1 < j → ([1, 0] : List Int)[j]? = ([0, 0] : List Int)[j]?) :=
  (early_return_keeps_results_and_stops.1 (okEnv 0 true true) (Call.data_Y "GEOSisEmpty_r")
    (fun i => i + 1)).1
    2 1 ⟨usableAndEmpty, [0, 0]⟩
    ⟨⟨none, usableAndEmpty.heap, [Call.data_Y "GEOSisEmpty_r" 5]⟩, [1, 0]⟩
    ⟨⟨some emptyGeometry, usableAndEmpty.heap, [Call.data_Y "GEOSisEmpty_r" 5]⟩, [1, 0]⟩
    (by decide) (by decide) (by decide)

/-! ## Coordinate sequences -/

theorem seqRun_append (E : Env D) (ph : SeqPhase) (l1 l2 : List (Call D)) :
    seqRun E ph (l1 ++ l2) = seqRun E (seqRun E ph l1) l2 := by
  simp [seqRun, List.foldl_append]

theorem Tracks.refl (E : Env D) (ph : SeqPhase) (w : World D) : Tracks E ph ph w w :=
  ⟨[], by simp, rfl, by simp⟩

theorem Tracks.trans {E : Env D} {ph0 ph1 ph2 : SeqPhase} {w0 w1 w2 : World D}
    (h1 : Tracks E ph0 ph1 w0 w1) (h2 : Tracks E ph1 ph2 w1 w2) : Tracks E ph0 ph2 w0 w2 := by
  obtain ⟨n1, hl1, hr1, hb1⟩ := h1
  obtain ⟨n2, hl2, hr2, hb2⟩ := h2
  refine ⟨n1 ++ n2, by rw [hl2, hl1, List.append_assoc], by rw [seqRun_append, hr1, hr2], ?_⟩
  intro c hc
  rcases List.mem_append.1 hc with h | h
  · exact hb1 c h
  · exact hb2 c h

theorem getOrdinate_setOrdinate (cs : CoordSeq D) (N DIM : Nat) (v : D) (r c : Nat) :
    (cs.setOrdinate N DIM v).getOrdinate r c =
      if N = r ∧ DIM = c then some v else cs.getOrdinate r c := by
  unfold CoordSeq.getOrdinate CoordSeq.setOrdinate
  by_cases h : N = r ∧ DIM = c
  · simp [List.find?_cons, h.1, h.2]
  · rw [if_neg h]
    have : ((N == r) && (DIM == c)) = false := by
      rcases not_and_or.1 h with h1 | h1 <;> simp [h1]
    simp [List.find?_cons, this]

theorem SET_COORD_ok (E : Env D) (N DIM : Nat) (v : D) (w : World D) (cs : CoordSeq D)
    (h : E.ret (.GEOSCoordSeq_setOrdinate_r cs N DIM v) ≠ 0) :
    SET_COORD E N DIM v (w, cs)
      = .next (geos E (.GEOSCoordSeq_setOrdinate_r cs N DIM v) w, cs.setOrdinate N DIM v) := by
  simp [SET_COORD, h]

theorem SET_COORD_rejected (E : Env D) (N DIM : Nat) (v : D) (w : World D) (cs : CoordSeq D)
    (h : E.ret (.GEOSCoordSeq_setOrdinate_r cs N DIM v) = 0) :
    SET_COORD E N DIM v (w, cs)
      = .ret (geosVoid (.GEOSCoordSeq_destroy_r cs)
          (geos E (.GEOSCoordSeq_setOrdinate_r cs N DIM v) w)) := by
  simp [SET_COORD, h, RAISE_ILLEGAL_GEOS]

/-- One `SET_COORD` that falls through: the ordinate is stored and the sequence
stays open. -/
theorem SET_COORD_next (E : Env D) (N DIM : Nat) (v : D) (st st1 : World D × CoordSeq D)
    (h : SET_COORD E N DIM v st = .next st1) :
    st1.2 = st.2.setOrdinate N DIM v ∧
    Tracks E (.filling st.2.ptr) (.filling st.2.ptr) st.1 st1.1 := by
  obtain ⟨w, cs⟩ := st
  by_cases hr : E.ret (.GEOSCoordSeq_setOrdinate_r cs N DIM v) = 0
  · rw [SET_COORD_rejected E N DIM v w cs hr] at h; cases h
  · rw [SET_COORD_ok E N DIM v w cs hr] at h
    cases h
    refine ⟨rfl, [.GEOSCoordSeq_setOrdinate_r cs N DIM v], by rw [geos_log], ?_, ?_⟩
    · simp [seqRun, seqStep, hr]
    · intro c hc
      simp at hc
      subst hc
      rfl

/-- One `SET_COORD` that returns: the sequence was destroyed right after the
rejected call and nothing else was done. -/
theorem SET_COORD_ret (E : Env D) (N DIM : Nat) (v : D) (st : World D × CoordSeq D)
    (w1 : World D) (h : SET_COORD E N DIM v st = .ret w1) :
    Tracks E (.filling st.2.ptr) .stopped st.1 w1 := by
  obtain ⟨w, cs⟩ := st
  by_cases hr : E.ret (.GEOSCoordSeq_setOrdinate_r cs N DIM v) = 0
  · rw [SET_COORD_rejected E N DIM v w cs hr] at h
    cases h
    refine ⟨[.GEOSCoordSeq_setOrdinate_r cs N DIM v, .GEOSCoordSeq_destroy_r cs], ?_, ?_, ?_⟩
    · rw [geosVoid_log, geos_log]; simp
    · simp [seqRun, seqStep, hr]
    · intro c hc
      simp at hc
      rcases hc with rfl | rfl <;> rfl
  · rw [SET_COORD_ok E N DIM v w cs hr] at h; cases h

/-- A loop of `SET_COORD` that falls through keeps the sequence open. -/
theorem setLoop_track (E : Env D) (N DIM : Nat → Nat) (v : Nat → D) (lo cnt : Nat)
    (st st1 : World D × CoordSeq D)
    (h : forRange (fun i t => SET_COORD E (N i) (DIM i) (v i) t) lo cnt st = .next st1) :
    st1.2.ptr = st.2.ptr ∧ st1.2.size = st.2.size ∧ st1.2.dims = st.2.dims ∧
    Tracks E (.filling st.2.ptr) (.filling st.2.ptr) st.1 st1.1 := by
  have := forRange_inv (fun i t => SET_COORD E (N i) (DIM i) (v i) t)
    (fun _ t => t.2.ptr = st.2.ptr ∧ t.2.size = st.2.size ∧ t.2.dims = st.2.dims ∧
      Tracks E (.filling st.2.ptr) (.filling st.2.ptr) st.1 t.1)
    lo cnt st st1 ⟨rfl, rfl, rfl, Tracks.refl _ _ _⟩
    (fun i t t1 _ _ hP hb => by
      obtain ⟨hp, hs, hd, ht⟩ := hP
      obtain ⟨hcs, htr⟩ := SET_COORD_next E _ _ _ t t1 hb
      rw [hp] at htr
      refine ⟨?_, ?_, ?_, ht.trans htr⟩
      · rw [hcs]; exact hp
      · rw [hcs]; exact hs
      · rw [hcs]; exact hd) h
  exact this

/-- A loop of `SET_COORD` that returns has destroyed the sequence and stopped. -/
theorem setLoop_ret (E : Env D) (N DIM : Nat → Nat) (v : Nat → D) (lo cnt : Nat)
    (st : World D × CoordSeq D) (w1 : World D)
    (h : forRange (fun i t => SET_COORD E (N i) (DIM i) (v i) t) lo cnt st = .ret w1) :
    Tracks E (.filling st.2.ptr) .stopped st.1 w1 := by
  obtain ⟨d, t, -, h1, h2⟩ := forRange_ret_inv _ lo cnt st w1 h
  obtain ⟨hp, -, -, ht⟩ := setLoop_track E N DIM v lo d st t h1
  have := SET_COORD_ret E _ _ _ t w1 h2
  rw [hp] at this
  exact ht.trans this

/-- The ordinates after a loop of `SET_COORD` over distinct cells. -/
theorem setLoop_cells (E : Env D) (N DIM : Nat → Nat) (v : Nat → D) (lo cnt : Nat)
    (hinj : ∀ i j, lo ≤ i → i < lo + cnt → lo ≤ j → j < lo + cnt →
      N i = N j → DIM i = DIM j → i = j)
    (st st1 : World D × CoordSeq D)
    (h : forRange (fun i t => SET_COORD E (N i) (DIM i) (v i) t) lo cnt st = .next st1) :
    (∀ i, lo ≤ i → i < lo + cnt → st1.2.getOrdinate (N i) (DIM i) = some (v i)) ∧
    (∀ r c, (∀ i, lo ≤ i → i < lo + cnt → ¬ (N i = r ∧ DIM i = c)) →
      st1.2.getOrdinate r c = st.2.getOrdinate r c) := by
  have := forRange_inv (fun i t => SET_COORD E (N i) (DIM i) (v i) t)
    (fun m t => m ≤ lo + cnt →
      (∀ i, lo ≤ i → i < m → t.2.getOrdinate (N i) (DIM i) = some (v i)) ∧
      (∀ r c, (∀ i, lo ≤ i → i < m → ¬ (N i = r ∧ DIM i = c)) →
        t.2.getOrdinate r c = st.2.getOrdinate r c))
    lo cnt st st1
    (fun _ => ⟨fun i h1 h2 => by omega, fun _ _ _ => rfl⟩)
    (fun m t t1 hm1 hm2 hP hb hle => by
      obtain ⟨hw, hf⟩ := hP (by omega)
      obtain ⟨hcs, -⟩ := SET_COORD_next E _ _ _ t t1 hb
      rw [hcs]
      refine ⟨fun i hi1 hi2 => ?_, fun r c hrc => ?_⟩
      · rw [getOrdinate_setOrdinate]
        by_cases him : i = m
        · subst him; simp
        · have : ¬ (N m = N i ∧ DIM m = DIM i) := by
            intro hh
            exact him (hinj i m hi1 (by omega) hm1 hm2 hh.1.symm hh.2.symm)
          rw [if_neg this]
          exact hw i hi1 (by omega)
      · rw [getOrdinate_setOrdinate, if_neg (hrc m hm1 (by omega))]
        exact hf r c (fun i hi1 hi2 => hrc i hi1 (by omega))) h
  exact this (Nat.le_refl _)

theorem fill_coords_track (E : Env D) (rows : Nat → Nat → D) (n_c1 n_c2 : Nat)
    (st : World D × CoordSeq D) :
    (∀ st1, fill_coords E rows n_c1 n_c2 st = .next st1 →
      st1.2.ptr = st.2.ptr ∧ st1.2.size = st.2.size ∧ st1.2.dims = st.2.dims ∧
      Tracks E (.filling st.2.ptr) (.filling st.2.ptr) st.1 st1.1) ∧
    (∀ w1, fill_coords E rows n_c1 n_c2 st = .ret w1 →
      Tracks E (.filling st.2.ptr) .stopped st.1 w1) := by
  have hinv : ∀ m t, forRange (fun i_c1 st1 =>
        COREDIM_LOOP (fun i_c2 st2 => SET_COORD E i_c1 i_c2 (rows i_c1 i_c2) st2) n_c2 st1)
        0 m st = .next t →
      t.2.ptr = st.2.ptr ∧ t.2.size = st.2.size ∧ t.2.dims = st.2.dims ∧
      Tracks E (.filling st.2.ptr) (.filling st.2.ptr) st.1 t.1 := by
    intro m t h
    have := forRange_inv _
      (fun _ t => t.2.ptr = st.2.ptr ∧ t.2.size = st.2.size ∧ t.2.dims = st.2.dims ∧
        Tracks E (.filling st.2.ptr) (.filling st.2.ptr) st.1 t.1)
      0 m st t ⟨rfl, rfl, rfl, Tracks.refl _ _ _⟩
      (fun i t t1 _ _ hP hb => by
        obtain ⟨hp, hs, hd, ht⟩ := hP
        obtain ⟨hp1, hs1, hd1, ht1⟩ :=
          setLoop_track E (fun _ => i) (fun j => j) (rows i) 0 n_c2 t t1 hb
        rw [hp] at ht1
        exact ⟨hp1.trans hp, hs1.trans hs, hd1.trans hd, ht.trans ht1⟩) h
    exact this
  refine ⟨fun st1 h => hinv n_c1 st1 h, fun w1 h => ?_⟩
  obtain ⟨d, t, -, h1, h2⟩ := forRange_ret_inv _ 0 n_c1 st w1 h
  obtain ⟨hp, -, -, ht⟩ := hinv d t h1
  have := setLoop_ret E (fun _ => 0 + d) (fun j => j) (rows (0 + d)) 0 n_c2 t w1 h2
  rw [hp] at this
  exact ht.trans this

theorem fill_coords_cells (E : Env D) (rows : Nat → Nat → D) (n_c1 n_c2 : Nat)
    (st st1 : World D × CoordSeq D) (h : fill_coords E rows n_c1 n_c2 st = .next st1) :
    (∀ r c, r < n_c1 → c < n_c2 → st1.2.getOrdinate r c = some (rows r c)) ∧
    (∀ r c, n_c1 ≤ r → st1.2.getOrdinate r c = st.2.getOrdinate r c) := by
  have := forRange_inv _
    (fun m t => (∀ r c, r < m → c < n_c2 → t.2.getOrdinate r c = some (rows r c)) ∧
      (∀ r c, m ≤ r → t.2.getOrdinate r c = st.2.getOrdinate r c))
    0 n_c1 st st1 ⟨fun r c hr => by omega, fun _ _ _ => rfl⟩
    (fun m t t1 _ _ hP hb => by
      obtain ⟨hw, hf⟩ := hP
      obtain ⟨hset, hkeep⟩ := setLoop_cells E (fun _ => m) (fun j => j) (rows m) 0 n_c2
        (fun i j _ _ _ _ _ hij => hij) t t1 hb
      refine ⟨fun r c hr hc => ?_, fun r c hr => ?_⟩
      · by_cases hrm : r = m
        · subst hrm
          exact hset c (by omega) (by omega)
        · rw [hkeep r c (fun i _ _ hh => hrm hh.1.symm)]
          exact hw r c (by omega) hc
      · rw [hkeep r c (fun i _ _ hh => by omega)]
        exact hf r c (by omega)) h
  simpa using this

theorem close_ring_track (E : Env D) (rows : Nat → Nat → D) (n_c1 n_c2 closure : Nat)
    (st : World D × CoordSeq D) :
    (∀ st1, close_ring E rows n_c1 n_c2 closure st = .next st1 →
      st1.2.ptr = st.2.ptr ∧ st1.2.size = st.2.size ∧ st1.2.dims = st.2.dims ∧
      Tracks E (.filling st.2.ptr) (.filling st.2.ptr) st.1 st1.1) ∧
    (∀ w1, close_ring E rows n_c1 n_c2 closure st = .ret w1 →
      Tracks E (.filling st.2.ptr) .stopped st.1 w1) := by
  unfold close_ring
  by_cases hc : closure ≠ 0
  · rw [if_pos hc]
    exact ⟨fun st1 h => setLoop_track E (fun _ => n_c1) (fun j => j) (rows 0) 0 n_c2 st st1 h,
      fun w1 h => setLoop_ret E (fun _ => n_c1) (fun j => j) (rows 0) 0 n_c2 st w1 h⟩
  · rw [if_neg hc]
    refine ⟨fun st1 h => ?_, fun w1 h => by cases h⟩
    cases h
    exact ⟨rfl, rfl, rfl, Tracks.refl _ _ _⟩

theorem close_ring_cells (E : Env D) (rows : Nat → Nat → D) (n_c1 n_c2 closure : Nat)
    (st st1 : World D × CoordSeq D)
    (h : close_ring E rows n_c1 n_c2 closure st = .next st1) :
    (closure ≠ 0 → ∀ c, c < n_c2 → st1.2.getOrdinate n_c1 c = some (rows 0 c)) ∧
    (closure = 0 → st1 = st) ∧
    (∀ r c, r ≠ n_c1 → st1.2.getOrdinate r c = st.2.getOrdinate r c) := by
  unfold close_ring at h
  by_cases hc : closure ≠ 0
  · rw [if_pos hc] at h
    obtain ⟨hset, hkeep⟩ := setLoop_cells E (fun _ => n_c1) (fun j => j) (rows 0) 0 n_c2
      (fun i j _ _ _ _ _ hij => hij) st st1 h
    refine ⟨fun _ c hlt => hset c (by omega) (by omega), fun h0 => absurd h0 hc,
      fun r c hr => hkeep r c (fun i _ _ hh => hr hh.1.symm)⟩
  · rw [if_neg hc] at h
    cases h
    exact ⟨fun h0 => absurd h0 hc, fun _ => rfl, fun _ _ _ => rfl⟩

theorem closure_scan_none (E : Env D) (rows : Nat → Nat → D) (n_c1 : Nat) (lo cnt rc : Nat)
    (h : ∀ j, lo ≤ j → j < lo + cnt → E.dne (rows 0 j) (rows (n_c1 - 1) j) = false) :
    forRange (fun i_c2 (rc : Nat) =>
      if E.dne (rows 0 i_c2) (rows (n_c1 - 1) i_c2) then (Ctl.ret 1 : Ctl Nat Nat)
      else .next rc) lo cnt rc = .next rc := by
  induction cnt generalizing lo with
  | zero => rfl
  | succ cnt ih =>
    simp only [forRange, h lo (Nat.le_refl _) (by omega)]
    exact ih (lo + 1) (fun j h1 h2 => h j (by omega) (by omega))

theorem closure_scan_some (E : Env D) (rows : Nat → Nat → D) (n_c1 : Nat) (lo cnt rc : Nat)
    (h : ∃ j, lo ≤ j ∧ j < lo + cnt ∧ E.dne (rows 0 j) (rows (n_c1 - 1) j) = true) :
    forRange (fun i_c2 (rc : Nat) =>
      if E.dne (rows 0 i_c2) (rows (n_c1 - 1) i_c2) then (Ctl.ret 1 : Ctl Nat Nat)
      else .next rc) lo cnt rc = .ret 1 := by
  induction cnt generalizing lo with
  | zero => obtain ⟨j, h1, h2, -⟩ := h; omega
  | succ cnt ih =>
    simp only [forRange]
    cases hd : E.dne (rows 0 lo) (rows (n_c1 - 1) lo) with
    | true => simp
    | false =>
      simp only [Bool.false_eq_true, if_false]
      obtain ⟨j, h1, h2, h3⟩ := h
      have hne : j ≠ lo := by
        intro hj; subst hj; rw [hd] at h3; cases h3
      exact ih (lo + 1) ⟨j, by omega, by omega, h3⟩

theorem ring_closure_one (E : Env D) (rows : Nat → Nat → D) (n_c1 n_c2 : Nat)
    (h : ∃ j, j < n_c2 ∧ E.dne (rows 0 j) (rows (n_c1 - 1) j) = true) :
    ring_closure E rows n_c1 n_c2 = 1 := by
  obtain ⟨j, h1, h2⟩ := h
  unfold ring_closure COREDIM_LOOP
  simp only
  rw [closure_scan_some E rows n_c1 0 n_c2 0 ⟨j, by omega, by omega, h2⟩]

theorem ring_closure_zero (E : Env D) (rows : Nat → Nat → D) (n_c1 n_c2 : Nat)
    (h : ∀ j, j < n_c2 → E.dne (rows 0 j) (rows (n_c1 - 1) j) = false) :
    ring_closure E rows n_c1 n_c2 = 0 := by
  unfold ring_closure COREDIM_LOOP
  simp only
  rw [closure_scan_none E rows n_c1 0 n_c2 0 (fun j _ h2 => h j (by omega))]

theorem CREATE_COORDSEQ_null (E : Env D) (SIZE NDIM : Nat) (w : World D)
    (h : E.retp (.GEOSCoordSeq_create_r SIZE NDIM) = 0) :
    CREATE_COORDSEQ E SIZE NDIM w = .ret (geos E (.GEOSCoordSeq_create_r SIZE NDIM) w) := by
  simp [CREATE_COORDSEQ, h]

theorem CREATE_COORDSEQ_ok (E : Env D) (SIZE NDIM : Nat) (w : World D)
    (h : E.retp (.GEOSCoordSeq_create_r SIZE NDIM) ≠ 0) :
    CREATE_COORDSEQ E SIZE NDIM w
      = .next (geos E (.GEOSCoordSeq_create_r SIZE NDIM) w,
          ⟨E.retp (.GEOSCoordSeq_create_r SIZE NDIM), SIZE, NDIM, []⟩) := by
  simp [CREATE_COORDSEQ, h]

theorem isBuild_of_isHandleCall (c : Call D) (h : c.isHandleCall = true) : c.isBuild = false := by
  cases c <;> simp [Call.isHandleCall] at h <;> rfl

theorem seqStep_idle_handleCall (E : Env D) (c : Call D) (h : c.isHandleCall = true) :
    seqStep E .idle c = .idle := by
  cases c <;> simp [Call.isHandleCall] at h <;> rfl

theorem seqRun_handleCalls (E : Env D) (l : List (Call D))
    (h : ∀ c ∈ l, c.isHandleCall = true) : seqRun E .idle l = .idle := by
  induction l with
  | nil => rfl
  | cons c l ih =>
    have hc := seqStep_idle_handleCall E c (h c (List.mem_cons_self _ _))
    simp only [seqRun, List.foldl_cons, hc]
    exact ih (fun c1 h1 => h c1 (List.mem_cons_of_mem _ h1))

theorem tracks_of_handleCalls (E : Env D) (w0 w1 : World D) (new : List (Call D))
    (hl : w1.log = w0.log ++ new) (h : ∀ c ∈ new, c.isHandleCall = true) :
    Tracks E .idle .idle w0 w1 :=
  ⟨new, hl, seqRun_handleCalls E new h, fun c hc => isBuild_of_isHandleCall c (h c hc)⟩

theorem destroyCalls_handleCalls (p : Ptr) :
    ∀ c ∈ (destroyCalls p : List (Call D)), c.isHandleCall = true := by
  intro c hc
  unfold destroyCalls at hc
  by_cases h : p = 0
  · simp [h] at hc
  · simp [h] at hc
    subst hc
    rfl

theorem new_from_ptr_log (E : Env D) (p : Ptr) (w : World D) :
    ∃ new, (GeometryObject_new_from_ptr E p w).1.log = w.log ++ new ∧
      ∀ c ∈ new, c.isHandleCall = true := by
  by_cases halloc : E.tp_alloc_ok w.heap.length = true
  · by_cases ht : E.ret (.GEOSGeomTypeId_r p) < 0 ∨ E.ret (.GEOSGeomTypeId_r p) > 255
    · rw [new_from_ptr_bad_type E p w halloc ht]
      refine ⟨[.GEOSGeomTypeId_r p] ++ destroyCalls p, by simp, ?_⟩
      intro c hc
      rcases List.mem_append.1 hc with h | h
      · simp at h; subst h; rfl
      · exact destroyCalls_handleCalls p c h
    · by_cases hz : E.ret (.GEOSHasZ_r p) < 0 ∨ E.ret (.GEOSHasZ_r p) > 1
      · rw [new_from_ptr_bad_z E p w halloc ht hz]
        refine ⟨[.GEOSGeomTypeId_r p, .GEOSHasZ_r p] ++ destroyCalls p, by simp, ?_⟩
        intro c hc
        rcases List.mem_append.1 hc with h | h
        · simp at h; rcases h with rfl | rfl <;> rfl
        · exact destroyCalls_handleCalls p c h
      · rw [new_from_ptr_ok E p w halloc ht hz]
        refine ⟨[.GEOSGeomTypeId_r p, .GEOSHasZ_r p], rfl, ?_⟩
        intro c hc
        simp at hc; rcases hc with rfl | rfl <;> rfl
  · rw [new_from_ptr_alloc_fail E p w (by simpa using halloc)]
    exact ⟨[], by simp, by simp⟩

theorem Py_XDECREF_log (a : Nat) (w : World D) :
    ∃ new, (Py_XDECREF a w).log = w.log ++ new ∧ ∀ c ∈ new, c.isHandleCall = true := by
  unfold Py_XDECREF
  by_cases h0 : a = 0
  · rw [if_pos h0]; exact ⟨[], by simp, by simp⟩
  · rw [if_neg h0]
    cases hobj : w.obj a with
    | none =>
      refine ⟨[], ?_, by simp⟩
      simp [Py_DECREF, hobj]
    | some o =>
      obtain ⟨-, -, -, hl⟩ := Py_DECREF_obj w a o hobj
      refine ⟨_, hl, ?_⟩
      intro c hc
      by_cases hcond : o.ob_refcnt - 1 = 0 ∧ o.is_geometry = true
      · rw [if_pos hcond] at hc
        exact destroyCalls_handleCalls _ c hc
      · rw [if_neg hcond] at hc
        simp at hc

/-- `OUTPUT_Y` makes only the engine calls that build or release a handle. -/
theorem OUTPUT_Y_tracks (E : Env D) (p : Ptr) (i : Nat) (s : St D Addr) :
    Tracks E .idle .idle s.w (OUTPUT_Y E p i s).st.w := by
  unfold OUTPUT_Y
  by_cases hp : p = 0
  · rw [if_pos hp]
    exact Tracks.refl _ _ _
  · rw [if_neg hp]
    obtain ⟨new, hl, hn⟩ := new_from_ptr_log E p s.w
    by_cases hr : (GeometryObject_new_from_ptr E p s.w).2 = 0
    · simp only [hr, if_true]
      exact tracks_of_handleCalls E _ _ new hl hn
    · simp only [hr, if_false]
      obtain ⟨new2, hl2, hn2⟩ :=
        Py_XDECREF_log (s.out.getD i 0) (GeometryObject_new_from_ptr E p s.w).1
      refine tracks_of_handleCalls E _ _ (new ++ new2) ?_ ?_
      · show (Py_XDECREF (s.out.getD i 0) (GeometryObject_new_from_ptr E p s.w).1).log = _
        rw [hl2, hl, List.append_assoc]
      · intro c hc
        rcases List.mem_append.1 hc with h | h
        · exact hn c h
        · exact hn2 c h

/-- With an engine that accepts every set-ordinate call, a loop of `SET_COORD`
falls through. -/
theorem setLoop_accepts (E : Env D) (N DIM : Nat → Nat) (v : Nat → D) (lo cnt : Nat)
    (hacc : ∀ cs idx dim val, E.ret (.GEOSCoordSeq_setOrdinate_r cs idx dim val) ≠ 0)
    (st : World D × CoordSeq D) :
    ∃ st1, forRange (fun i t => SET_COORD E (N i) (DIM i) (v i) t) lo cnt st = .next st1 := by
  induction cnt generalizing lo st with
  | zero => exact ⟨st, rfl⟩
  | succ cnt ih =>
    simp only [forRange]
    rw [show SET_COORD E (N lo) (DIM lo) (v lo) st = _ from
      SET_COORD_ok E (N lo) (DIM lo) (v lo) st.1 st.2 (hacc _ _ _ _)]
    exact ih (lo + 1) _

theorem fill_outer_accepts (E : Env D) (rows : Nat → Nat → D) (n_c2 : Nat)
    (hacc : ∀ cs idx dim val, E.ret (.GEOSCoordSeq_setOrdinate_r cs idx dim val) ≠ 0)
    (lo cnt : Nat) (st : World D × CoordSeq D) :
    ∃ st1, forRange (fun i_c1 st1 =>
      forRange (fun i_c2 st2 => SET_COORD E i_c1 i_c2 (rows i_c1 i_c2) st2) 0 n_c2 st1)
      lo cnt st = .next st1 := by
  induction cnt generalizing lo st with
  | zero => exact ⟨st, rfl⟩
  | succ n ih =>
    simp only [forRange]
    obtain ⟨t, ht⟩ := setLoop_accepts E (fun _ => lo) (fun j => j) (rows lo) 0 n_c2 hacc st
    rw [show forRange (fun i_c2 st2 => SET_COORD E lo i_c2 (rows lo i_c2) st2) 0 n_c2 st = _
      from ht]
    exact ih (lo + 1) t

theorem fill_coords_accepts (E : Env D) (rows : Nat → Nat → D) (n_c1 n_c2 : Nat)
    (hacc : ∀ cs idx dim val, E.ret (.GEOSCoordSeq_setOrdinate_r cs idx dim val) ≠ 0)
    (st : World D × CoordSeq D) :
    ∃ st1, fill_coords E rows n_c1 n_c2 st = .next st1 :=
  fill_outer_accepts E rows n_c2 hacc 0 n_c1 st

theorem close_ring_accepts (E : Env D) (rows : Nat → Nat → D) (n_c1 n_c2 closure : Nat)
    (hacc : ∀ cs idx dim val, E.ret (.GEOSCoordSeq_setOrdinate_r cs idx dim val) ≠ 0)
    (st : World D × CoordSeq D) :
    ∃ st1, close_ring E rows n_c1 n_c2 closure st = .next st1 := by
  unfold close_ring COREDIM_LOOP
  by_cases hc : closure ≠ 0
  · rw [if_pos hc]
    exact setLoop_accepts E (fun _ => n_c1) (fun j => j) (rows 0) 0 n_c2 hacc st
  · rw [if_neg hc]
    exact ⟨st, rfl⟩

theorem SET_COORD_no_crash (E : Env D) (N DIM : Nat) (v : D) (st : World D × CoordSeq D)
    (r : World D) : SET_COORD E N DIM v st ≠ .crash r := by
  unfold SET_COORD
  simp only
  split <;> simp

theorem setLoop_no_crash (E : Env D) (N DIM : Nat → Nat) (v : Nat → D) (lo cnt : Nat)
    (st : World D × CoordSeq D) (r : World D) :
    forRange (fun j st2 => SET_COORD E (N j) (DIM j) (v j) st2) lo cnt st ≠ .crash r :=
  forRange_no_crash _ (fun _ _ _ => SET_COORD_no_crash E _ _ _ _ _) lo cnt st r

theorem fill_coords_no_crash (E : Env D) (rows : Nat → Nat → D) (n_c1 n_c2 : Nat)
    (st : World D × CoordSeq D) (r : World D) : fill_coords E rows n_c1 n_c2 st ≠ .crash r :=
  forRange_no_crash _
    (fun i t r1 => setLoop_no_crash E (fun _ => i) (fun j => j) (rows i) 0 n_c2 t r1) 0 n_c1 st r

theorem close_ring_no_crash (E : Env D) (rows : Nat → Nat → D) (n_c1 n_c2 closure : Nat)
    (st : World D × CoordSeq D) (r : World D) :
    close_ring E rows n_c1 n_c2 closure st ≠ .crash r := by
  unfold close_ring
  split
  · exact setLoop_no_crash E (fun _ => n_c1) (fun j => j) (rows 0) 0 n_c2 st r
  · simp

/-! ## The constructors: what is handed to the engine, and disposal -/

theorem phaseOK_of_idle {V : Type} (E : Env D) (w0 : World D) (r : Ctl (St D V) (St D V))
    (new : List (Call D)) (hl : r.st.w.log = w0.log ++ new) (hr : seqRun E .idle new = .idle) :
    PhaseOK E w0 r := by
  refine ⟨new, hl, ?_⟩
  cases r with
  | next _ => exact hr
  | ret _ => exact Or.inl hr
  | crash _ => exact Or.inl hr

theorem phaseOK_extend {V : Type} (E : Env D) (w0 w1 : World D) (n1 : List (Call D))
    (hl1 : w1.log = w0.log ++ n1) (hp1 : seqRun E .idle n1 = .idle)
    (r : Ctl (St D V) (St D V)) (h : PhaseOK E w1 r) : PhaseOK E w0 r := by
  obtain ⟨n2, hl2, hp2⟩ := h
  refine ⟨n1 ++ n2, by rw [hl2, hl1, List.append_assoc], ?_⟩
  cases r with
  | next _ =>
    simp only at hp2 ⊢
    rw [seqRun_append, hp1, hp2]
  | ret _ =>
    simp only at hp2 ⊢
    rw [seqRun_append, hp1]
    exact hp2
  | crash _ =>
    simp only at hp2 ⊢
    rw [seqRun_append, hp1]
    exact hp2

theorem loop_phase {V : Type} (E : Env D) (body : Nat → St D V → Ctl (St D V) (St D V))
    (hbody : ∀ i s, PhaseOK E s.w (body i s)) (lo cnt : Nat) (s : St D V) :
    PhaseOK E s.w (forRange body lo cnt s) := by
  induction cnt generalizing lo s with
  | zero => exact ⟨[], by simp [forRange, Ctl.st], rfl⟩
  | succ cnt ih =>
    simp only [forRange]
    obtain ⟨n1, hl1, hp1⟩ := hbody lo s
    cases hb : body lo s with
    | ret r =>
      rw [hb] at hl1 hp1
      exact ⟨n1, hl1, hp1⟩
    | crash r =>
      rw [hb] at hl1 hp1
      exact ⟨n1, hl1, hp1⟩
    | next s1 =>
      rw [hb] at hl1 hp1
      exact phaseOK_extend E s.w s1.w n1 hl1 hp1 _ (ih (lo + 1) s1)

/-- The part of a constructor body after the coordinate sequence was filled:
the build call closes the sequence and `OUTPUT_Y` opens none. -/
theorem build_phase (E : Env D) (c : Call D) (p : Ptr) (hc : seqStep E (.filling p) c = .idle)
    (w : World D) (i : Nat) (out : List Addr) :
    ∃ new, (OUTPUT_Y E (E.retp c) i ⟨geos E c w, out⟩).st.w.log = w.log ++ new ∧
      seqRun E (.filling p) new = .idle := by
  obtain ⟨n1, hl, hr, -⟩ := OUTPUT_Y_tracks E (E.retp c) i ⟨geos E c w, out⟩
  refine ⟨[c] ++ n1, ?_, ?_⟩
  · rw [hl, geos_log, List.append_assoc]
  · rw [seqRun_append]
    simp only [seqRun, List.foldl_cons, List.foldl_nil, hc]
    exact hr

theorem seqRun_create_null (E : Env D) (SIZE NDIM : Nat)
    (h : E.retp (.GEOSCoordSeq_create_r SIZE NDIM) = 0) :
    seqRun E .idle [.GEOSCoordSeq_create_r SIZE NDIM] = .idle := by
  simp [seqRun, seqStep, h]

theorem seqRun_create_ok (E : Env D) (SIZE NDIM : Nat)
    (h : E.retp (.GEOSCoordSeq_create_r SIZE NDIM) ≠ 0) (rest : List (Call D)) :
    seqRun E .idle (.GEOSCoordSeq_create_r SIZE NDIM :: rest)
      = seqRun E (.filling (E.retp (.GEOSCoordSeq_create_r SIZE NDIM))) rest := by
  simp [seqRun, seqStep, h]

theorem points_body_phase (E : Env D) (in1 : Nat → Nat → D) (n_c1 : Nat) (i : Nat)
    (s : St D Addr) : PhaseOK E s.w (points_body E in1 n_c1 i s) := by
  unfold points_body
  by_cases hnull : E.retp (.GEOSCoordSeq_create_r 1 n_c1) = 0
  · rw [CREATE_COORDSEQ_null E 1 n_c1 s.w hnull]
    exact ⟨[.GEOSCoordSeq_create_r 1 n_c1], by simp [Ctl.st, geos_log],
      Or.inl (seqRun_create_null E 1 n_c1 hnull)⟩
  · rw [CREATE_COORDSEQ_ok E 1 n_c1 s.w hnull]
    simp only
    cases hf : COREDIM_LOOP (fun i_c1 st => SET_COORD E 0 i_c1 (in1 i i_c1) st) n_c1
        (geos E (.GEOSCoordSeq_create_r 1 n_c1) s.w,
          ⟨E.retp (.GEOSCoordSeq_create_r 1 n_c1), 1, n_c1, []⟩) with
    | crash w => exact absurd hf (setLoop_no_crash E (fun _ => 0) (fun j => j) (in1 i) 0 n_c1 _ w)
    | ret w =>
      obtain ⟨n1, hl, hr, -⟩ := setLoop_ret E (fun _ => 0) (fun j => j) (in1 i) 0 n_c1 _ w hf
      refine ⟨.GEOSCoordSeq_create_r 1 n_c1 :: n1, ?_, Or.inr ?_⟩
      · simp only [Ctl.st, hl, geos_log]; simp
      · rw [seqRun_create_ok E 1 n_c1 hnull]; exact hr
    | next st1 =>
      obtain ⟨hp, -, -, n1, hl, hr, -⟩ :=
        setLoop_track E (fun _ => 0) (fun j => j) (in1 i) 0 n_c1 _ st1 hf
      obtain ⟨n2, hl2, hr2⟩ := build_phase E (.GEOSGeom_createPoint_r st1.2) st1.2.ptr
        (by simp [seqStep]) st1.1 i s.out
      refine phaseOK_of_idle E s.w _ (.GEOSCoordSeq_create_r 1 n_c1 :: (n1 ++ n2)) ?_ ?_
      · rw [hl2, hl, geos_log]; simp
      · rw [seqRun_create_ok E 1 n_c1 hnull, seqRun_append, hr]
        rw [hp] at hr2
        exact hr2

theorem linestrings_body_phase (E : Env D) (in1 : Nat → Nat → Nat → D) (n_c1 n_c2 : Nat)
    (i : Nat) (s : St D Addr) : PhaseOK E s.w (linestrings_body E in1 n_c1 n_c2 i s) := by
  unfold linestrings_body
  by_cases hnull : E.retp (.GEOSCoordSeq_create_r n_c1 n_c2) = 0
  · rw [CREATE_COORDSEQ_null E n_c1 n_c2 s.w hnull]
    exact ⟨[.GEOSCoordSeq_create_r n_c1 n_c2], by simp [Ctl.st, geos_log],
      Or.inl (seqRun_create_null E n_c1 n_c2 hnull)⟩
  · rw [CREATE_COORDSEQ_ok E n_c1 n_c2 s.w hnull]
    simp only
    cases hf : fill_coords E (in1 i) n_c1 n_c2
        (geos E (.GEOSCoordSeq_create_r n_c1 n_c2) s.w,
          ⟨E.retp (.GEOSCoordSeq_create_r n_c1 n_c2), n_c1, n_c2, []⟩) with
    | crash w => exact absurd hf (fill_coords_no_crash E _ _ _ _ w)
    | ret w =>
      obtain ⟨n1, hl, hr, -⟩ := (fill_coords_track E (in1 i) n_c1 n_c2 _).2 w hf
      refine ⟨.GEOSCoordSeq_create_r n_c1 n_c2 :: n1, ?_, Or.inr ?_⟩
      · simp only [Ctl.st, hl, geos_log]; simp
      · rw [seqRun_create_ok E n_c1 n_c2 hnull]; exact hr
    | next st1 =>
      obtain ⟨hp, -, -, n1, hl, hr, -⟩ := (fill_coords_track E (in1 i) n_c1 n_c2 _).1 st1 hf
      obtain ⟨n2, hl2, hr2⟩ := build_phase E (.GEOSGeom_createLineString_r st1.2) st1.2.ptr
        (by simp [seqStep]) st1.1 i s.out
      refine phaseOK_of_idle E s.w _ (.GEOSCoordSeq_create_r n_c1 n_c2 :: (n1 ++ n2)) ?_ ?_
      · rw [hl2, hl, geos_log]; simp
      · rw [seqRun_create_ok E n_c1 n_c2 hnull, seqRun_append, hr]
        rw [hp] at hr2
        exact hr2

theorem linearrings_body_phase (E : Env D) (in1 : Nat → Nat → Nat → D) (n_c1 n_c2 : Nat)
    (i : Nat) (s : St D Addr) : PhaseOK E s.w (linearrings_body E in1 n_c1 n_c2 i s) := by
  unfold linearrings_body
  simp only
  generalize ring_closure E (in1 i) n_c1 n_c2 = cl
  by_cases hnull : E.retp (.GEOSCoordSeq_create_r (n_c1 + cl) n_c2) = 0
  · rw [CREATE_COORDSEQ_null E (n_c1 + cl) n_c2 s.w hnull]
    exact ⟨[.GEOSCoordSeq_create_r (n_c1 + cl) n_c2], by simp [Ctl.st, geos_log],
      Or.inl (seqRun_create_null E (n_c1 + cl) n_c2 hnull)⟩
  · rw [CREATE_COORDSEQ_ok E (n_c1 + cl) n_c2 s.w hnull]
    simp only
    cases hf : fill_coords E (in1 i) n_c1 n_c2
        (geos E (.GEOSCoordSeq_create_r (n_c1 + cl) n_c2) s.w,
          ⟨E.retp (.GEOSCoordSeq_create_r (n_c1 + cl) n_c2), n_c1 + cl, n_c2, []⟩) with
    | crash w => exact absurd hf (fill_coords_no_crash E _ _ _ _ w)
    | ret w =>
      obtain ⟨n1, hl, hr, -⟩ := (fill_coords_track E (in1 i) n_c1 n_c2 _).2 w hf
      refine ⟨.GEOSCoordSeq_create_r (n_c1 + cl) n_c2 :: n1, ?_, Or.inr ?_⟩
      · simp only [Ctl.st, hl, geos_log]; simp
      · rw [seqRun_create_ok E (n_c1 + cl) n_c2 hnull]; exact hr
    | next st1 =>
      obtain ⟨hp, -, -, n1, hl, hr, -⟩ := (fill_coords_track E (in1 i) n_c1 n_c2 _).1 st1 hf
      simp only
      cases hc : close_ring E (in1 i) n_c1 n_c2 cl st1 with
      | crash w => exact absurd hc (close_ring_no_crash E _ _ _ _ _ w)
      | ret w =>
        obtain ⟨n2, hl2, hr2, -⟩ := (close_ring_track E (in1 i) n_c1 n_c2 cl st1).2 w hc
        refine ⟨.GEOSCoordSeq_create_r (n_c1 + cl) n_c2 :: (n1 ++ n2), ?_, Or.inr ?_⟩
        · simp only [Ctl.st, hl2, hl, geos_log]; simp
        · rw [seqRun_create_ok E (n_c1 + cl) n_c2 hnull, seqRun_append, hr]
          rw [hp] at hr2
          exact hr2
      | next st2 =>
        obtain ⟨hp2, -, -, n2, hl2, hr2, -⟩ :=
          (close_ring_track E (in1 i) n_c1 n_c2 cl st1).1 st2 hc
        obtain ⟨n3, hl3, hr3⟩ := build_phase E (.GEOSGeom_createLinearRing_r st2.2) st2.2.ptr
          (by simp [seqStep]) st2.1 i s.out
        refine phaseOK_of_idle E s.w _
          (.GEOSCoordSeq_create_r (n_c1 + cl) n_c2 :: (n1 ++ n2 ++ n3)) ?_ ?_
        · rw [hl3, hl2, hl, geos_log]; simp
        · rw [seqRun_create_ok E (n_c1 + cl) n_c2 hnull, seqRun_append, seqRun_append, hr]
          rw [hp] at hr2
          rw [hr2]
          rw [hp2, hp] at hr3
          exact hr3

theorem getOrdinate_empty (p : Ptr) (size dims r c : Nat) :
    (⟨p, size, dims, []⟩ : CoordSeq D).getOrdinate r c = none := by
  simp [CoordSeq.getOrdinate]

/-- The engine calls of one element of `linearrings_func`, `cl` being the value of
`ring_closure`: the creation call comes first, and any sequence handed to the
linear-ring constructor has the size asked for and holds the input rows,
followed by a copy of the first row exactly when `cl` is not zero. -/
theorem linearrings_body_calls (E : Env D) (in1 : Nat → Nat → Nat → D) (n_c1 n_c2 i : Nat)
    (s : St D Addr) (cl : Nat) (hcl : ring_closure E (in1 i) n_c1 n_c2 = cl) :
    ∃ rest, (linearrings_body E in1 n_c1 n_c2 i s).st.w.log
        = s.w.log ++ (.GEOSCoordSeq_create_r (n_c1 + cl) n_c2 :: rest) ∧
      (∀ cs, Call.GEOSGeom_createLinearRing_r cs ∈ rest →
        cs.size = n_c1 + cl ∧ cs.dims = n_c2 ∧
        (∀ r c, r < n_c1 → c < n_c2 → cs.getOrdinate r c = some (in1 i r c)) ∧
        (cl ≠ 0 → ∀ c, c < n_c2 → cs.getOrdinate n_c1 c = some (in1 i 0 c)) ∧
        (cl = 0 → ∀ r c, n_c1 ≤ r → cs.getOrdinate r c = none)) ∧
      (E.retp (.GEOSCoordSeq_create_r (n_c1 + cl) n_c2) ≠ 0 →
        (∀ cs idx dim val, E.ret (.GEOSCoordSeq_setOrdinate_r cs idx dim val) ≠ 0) →
        ∃ cs, Call.GEOSGeom_createLinearRing_r cs ∈ rest) := by
  unfold linearrings_body
  simp only
  rw [hcl]
  by_cases hnull : E.retp (.GEOSCoordSeq_create_r (n_c1 + cl) n_c2) = 0
  · rw [CREATE_COORDSEQ_null E (n_c1 + cl) n_c2 s.w hnull]
    exact ⟨[], by simp [Ctl.st, geos_log], fun cs h => by simp at h, fun h => absurd hnull h⟩
  · rw [CREATE_COORDSEQ_ok E (n_c1 + cl) n_c2 s.w hnull]
    simp only
    cases hf : fill_coords E (in1 i) n_c1 n_c2
        (geos E (.GEOSCoordSeq_create_r (n_c1 + cl) n_c2) s.w,
          ⟨E.retp (.GEOSCoordSeq_create_r (n_c1 + cl) n_c2), n_c1 + cl, n_c2, []⟩) with
    | crash w => exact absurd hf (fill_coords_no_crash E _ _ _ _ w)
    | ret w =>
      obtain ⟨n1, hl, -, hb⟩ := (fill_coords_track E (in1 i) n_c1 n_c2 _).2 w hf
      refine ⟨n1, ?_, fun cs h => ?_, fun _ hacc => ?_⟩
      · simp only [Ctl.st, hl, geos_log]; simp
      · have := hb _ h
        simp [Call.isBuild] at this
      · obtain ⟨st1, h1⟩ := fill_coords_accepts E (in1 i) n_c1 n_c2 hacc
          (geos E (.GEOSCoordSeq_create_r (n_c1 + cl) n_c2) s.w,
            ⟨E.retp (.GEOSCoordSeq_create_r (n_c1 + cl) n_c2), n_c1 + cl, n_c2, []⟩)
        rw [h1] at hf; cases hf
    | next st1 =>
      obtain ⟨-, hs1, hd1, n1, hl, -, hb⟩ :=
        (fill_coords_track E (in1 i) n_c1 n_c2 _).1 st1 hf
      obtain ⟨hrows, hrest⟩ := fill_coords_cells E (in1 i) n_c1 n_c2 _ st1 hf
      simp only
      cases hc : close_ring E (in1 i) n_c1 n_c2 cl st1 with
      | crash w => exact absurd hc (close_ring_no_crash E _ _ _ _ _ w)
      | ret w =>
        obtain ⟨n2, hl2, -, hb2⟩ := (close_ring_track E (in1 i) n_c1 n_c2 cl st1).2 w hc
        refine ⟨n1 ++ n2, ?_, fun cs h => ?_, fun _ hacc => ?_⟩
        · simp only [Ctl.st, hl2, hl, geos_log]; simp
        · rcases List.mem_append.1 h with h | h
          · have := hb _ h
            simp [Call.isBuild] at this
          · have := hb2 _ h
            simp [Call.isBuild] at this
        · obtain ⟨st2, h2⟩ := close_ring_accepts E (in1 i) n_c1 n_c2 cl hacc st1
          rw [h2] at hc; cases hc
      | next st2 =>
        obtain ⟨-, hs2, hd2, n2, hl2, -, hb2⟩ :=
          (close_ring_track E (in1 i) n_c1 n_c2 cl st1).1 st2 hc
        obtain ⟨hclose, hsame, hkeep⟩ := close_ring_cells E (in1 i) n_c1 n_c2 cl st1 st2 hc
        obtain ⟨n3, hl3, -, hb3⟩ := OUTPUT_Y_tracks E
          (E.retp (.GEOSGeom_createLinearRing_r st2.2)) i
          ⟨geos E (.GEOSGeom_createLinearRing_r st2.2) st2.1, s.out⟩
        refine ⟨n1 ++ n2 ++ (.GEOSGeom_createLinearRing_r st2.2 :: n3), ?_, fun cs h => ?_,
          fun _ _ => ⟨st2.2, by simp⟩⟩
        · rw [hl3, geos_log, hl2, hl, geos_log]; simp
        · have hcs : cs = st2.2 := by
            rcases List.mem_append.1 h with h | h
            · rcases List.mem_append.1 h with h | h
              · have := hb _ h
                simp [Call.isBuild] at this
              · have := hb2 _ h
                simp [Call.isBuild] at this
            · rcases List.mem_cons.1 h with h | h
              · cases h; rfl
              · have := hb3 _ h
                simp [Call.isBuild] at this
          subst hcs
          refine ⟨by rw [hs2, hs1], by rw [hd2, hd1], fun r c hr hc1 => ?_, hclose,
            fun h0 r c hr => ?_⟩
          · rw [hkeep r c (by omega)]
            exact hrows r c hr hc1
          · rw [hsame h0, hrest r c hr]
            exact getOrdinate_empty _ _ _ _ _

/-! ## C1 and C2: ring closure -/

/-- C1. In `linearrings_func`, for an element `k` that is reached, with `n_c1 >= 1`
points and `n_c2 >= 1` dimensions, whose first and last rows differ (C `!=`)
in some dimension: the first engine call for the element creates a sequence
of `n_c1 + 1` rows; every sequence handed to `GEOSGeom_createLinearRing_r` for
the element has `n_c1 + 1` rows, holds input row `r` at row `r` for every
`r < n_c1`, and holds a copy of input row 0 at row `n_c1`; and when the engine
creates the sequence and accepts every ordinate, one is handed over. -/
theorem linearrings_appends_closing_row (E : Env D) (in1 : Nat → Nat → Nat → D)
    (n_c1 n_c2 k : Nat) (s sk : St D Addr) (_hn : 1 ≤ n_c1) (_hd : 1 ≤ n_c2)
    (hreach : linearrings_func E in1 n_c1 n_c2 k s = .next sk)
    (hdiff : ∃ j, j < n_c2 ∧ E.dne (in1 k 0 j) (in1 k (n_c1 - 1) j) = true) :
    ∃ rest, (linearrings_func E in1 n_c1 n_c2 (k + 1) s).st.w.log
        = sk.w.log ++ (.GEOSCoordSeq_create_r (n_c1 + 1) n_c2 :: rest) ∧
      (∀ cs, Call.GEOSGeom_createLinearRing_r cs ∈ rest →
        cs.size = n_c1 + 1 ∧ cs.dims = n_c2 ∧
        (∀ r c, r < n_c1 → c < n_c2 → cs.getOrdinate r c = some (in1 k r c)) ∧
        (∀ c, c < n_c2 → cs.getOrdinate n_c1 c = some (in1 k 0 c))) ∧
      (E.retp (.GEOSCoordSeq_create_r (n_c1 + 1) n_c2) ≠ 0 →
        (∀ cs idx dim val, E.ret (.GEOSCoordSeq_setOrdinate_r cs idx dim val) ≠ 0) →
        ∃ cs, Call.GEOSGeom_createLinearRing_r cs ∈ rest) := by
  unfold linearrings_func ELEMENT_LOOP at hreach ⊢
  rw [forRange_step _ k s sk hreach]
  obtain ⟨rest, hl, hmem, hex⟩ := linearrings_body_calls E in1 n_c1 n_c2 k sk 1
    (ring_closure_one E (in1 k) n_c1 n_c2 hdiff)
  refine ⟨rest, hl, fun cs h => ?_, hex⟩
  obtain ⟨h1, h2, h3, h4, -⟩ := hmem cs h
  exact ⟨h1, h2, h3, h4 (by decide)⟩

/-- C1 applies: the rows `[[0,0],[1,0],[1,1]]` as the first element of a call. -/
theorem linearrings_appends_closing_row_witness :
    ∃ rest, (linearrings_func (okEnv 3 true true) (fun _ => openRing) 3 2 (0 + 1)
        ⟨emptyWorld, [0]⟩).st.w.log
        = (⟨emptyWorld, [0]⟩ : St Int Addr).w.log ++ (.GEOSCoordSeq_create_r (3 + 1) 2 :: rest) ∧
      (∀ cs, Call.GEOSGeom_createLinearRing_r cs ∈ rest →
        cs.size = 3 + 1 ∧ cs.dims = 2 ∧
        (∀ r c, r < 3 → c < 2 → cs.getOrdinate r c = some (openRing r c)) ∧
        (∀ c, c < 2 → cs.getOrdinate 3 c = some (openRing 0 c))) ∧
      ((okEnv 3 true true).retp (.GEOSCoordSeq_create_r (3 + 1) 2) ≠ 0 →
        (∀ cs idx dim val,
          (okEnv 3 true true).ret (.GEOSCoordSeq_setOrdinate_r cs idx dim val) ≠ 0) →
        ∃ cs, Call.GEOSGeom_createLinearRing_r cs ∈ rest) :=
  linearrings_appends_closing_row (okEnv 3 true true) (fun _ => openRing) 3 2 0
    ⟨emptyWorld, [0]⟩ ⟨emptyWorld, [0]⟩ (by decide) (by decide) rfl ⟨1, by decide, by decide⟩

/-- C2. In `linearrings_func`, for an element `k` that is reached, with `n_c1 >= 1`
points, whose first and last rows are equal (C `!=` is false) in every
dimension: the first engine call for the element creates a sequence of exactly
`n_c1` rows; every sequence handed to `GEOSGeom_createLinearRing_r` for the
element has `n_c1` rows, holds the input rows, and has no ordinate stored at
row `n_c1` or beyond (no closing point was appended); and when the engine
creates the sequence and accepts every ordinate, one is handed over. For the
rows `[[0,0],[1,0],[1,1],[0,0]]` the sequence is created with, and handed over
with, 4 rows, not 5. -/
theorem linearrings_keeps_closed_ring :
    (∀ (E : Env D) (in1 : Nat → Nat → Nat → D) (n_c1 n_c2 k : Nat) (s sk : St D Addr),
      1 ≤ n_c1 →
      linearrings_func E in1 n_c1 n_c2 k s = .next sk →
      (∀ j, j < n_c2 → E.dne (in1 k 0 j) (in1 k (n_c1 - 1) j) = false) →
      ∃ rest, (linearrings_func E in1 n_c1 n_c2 (k + 1) s).st.w.log
          = sk.w.log ++ (.GEOSCoordSeq_create_r n_c1 n_c2 :: rest) ∧
        (∀ cs, Call.GEOSGeom_createLinearRing_r cs ∈ rest →
          cs.size = n_c1 ∧ cs.dims = n_c2 ∧
          (∀ r c, r < n_c1 → c < n_c2 → cs.getOrdinate r c = some (in1 k r c)) ∧
          (∀ r c, n_c1 ≤ r → cs.getOrdinate r c = none)) ∧
        (E.retp (.GEOSCoordSeq_create_r n_c1 n_c2) ≠ 0 →
          (∀ cs idx dim val, E.ret (.GEOSCoordSeq_setOrdinate_r cs idx dim val) ≠ 0) →
          ∃ cs, Call.GEOSGeom_createLinearRing_r cs ∈ rest)) ∧
    (∃ cs rest more,
      (linearrings_func (okEnv 3 true true) (fun _ => closedRing) 4 2 1
          ⟨emptyWorld, [0]⟩).st.w.log
        = .GEOSCoordSeq_create_r 4 2 :: (rest ++ .GEOSGeom_createLinearRing_r cs :: more) ∧
      cs.size = 4 ∧ cs.size ≠ 5 ∧
      (∀ c ∈ rest ++ more, c.isBuild = false)) := by
  refine ⟨?_, ?_⟩
  · intro E in1 n_c1 n_c2 k s sk _ hreach heq
    unfold linearrings_func ELEMENT_LOOP at hreach ⊢
    rw [forRange_step _ k s sk hreach]
    obtain ⟨rest, hl, hmem, hex⟩ := linearrings_body_calls E in1 n_c1 n_c2 k sk 0
      (ring_closure_zero E (in1 k) n_c1 n_c2 heq)
    refine ⟨rest, hl, fun cs h => ?_, hex⟩
    obtain ⟨h1, h2, h3, -, h5⟩ := hmem cs h
    exact ⟨h1, h2, h3, h5 rfl⟩
  · refine ⟨⟨7, 4, 2, [(3, 1, 0), (3, 0, 0), (2, 1, 1), (2, 0, 1), (1, 1, 0), (1, 0, 1),
      (0, 1, 0), (0, 0, 0)]⟩,
      [.GEOSCoordSeq_setOrdinate_r ⟨7, 4, 2, []⟩ 0 0 0,
       .GEOSCoordSeq_setOrdinate_r ⟨7, 4, 2, [(0, 0, 0)]⟩ 0 1 0,
       .GEOSCoordSeq_setOrdinate_r ⟨7, 4, 2, [(0, 1, 0), (0, 0, 0)]⟩ 1 0 1,
       .GEOSCoordSeq_setOrdinate_r ⟨7, 4, 2, [(1, 0, 1), (0, 1, 0), (0, 0, 0)]⟩ 1 1 0,
       .GEOSCoordSeq_setOrdinate_r ⟨7, 4, 2, [(1, 1, 0), (1, 0, 1), (0, 1, 0), (0, 0, 0)]⟩ 2 0 1,
       .GEOSCoordSeq_setOrdinate_r
          ⟨7, 4, 2, [(2, 0, 1), (1, 1, 0), (1, 0, 1), (0, 1, 0), (0, 0, 0)]⟩ 2 1 1,
       .GEOSCoordSeq_setOrdinate_r
          ⟨7, 4, 2, [(2, 1, 1), (2, 0, 1), (1, 1, 0), (1, 0, 1), (0, 1, 0), (0, 0, 0)]⟩ 3 0 0,
       .GEOSCoordSeq_setOrdinate_r
          ⟨7, 4, 2, [(3, 0, 0), (2, 1, 1), (2, 0, 1), (1, 1, 0), (1, 0, 1), (0, 1, 0),
            (0, 0, 0)]⟩ 3 1 0],
      [.GEOSGeomTypeId_r 7, .GEOSHasZ_r 7], ?_, rfl, by decide, by decide⟩
    decide

/-- C2 applies: the rows `[[0,0],[1,0],[1,1],[0,0]]` as the first element of a call. -/
theorem linearrings_keeps_closed_ring_witness :
    ∃ rest, (linearrings_func (okEnv 3 true true) (fun _ => closedRing) 4 2 (0 + 1)
        ⟨emptyWorld, [0]⟩).st.w.log
        = (⟨emptyWorld, [0]⟩ : St Int Addr).w.log ++ (.GEOSCoordSeq_create_r 4 2 :: rest) ∧
      (∀ cs, Call.GEOSGeom_createLinearRing_r cs ∈ rest →
        cs.size = 4 ∧ cs.dims = 2 ∧
        (∀ r c, r < 4 → c < 2 → cs.getOrdinate r c = some (closedRing r c)) ∧
        (∀ r c, 4 ≤ r → cs.getOrdinate r c = none)) ∧
      ((okEnv 3 true true).retp (.GEOSCoordSeq_create_r 4 2) ≠ 0 →
        (∀ cs idx dim val,
          (okEnv 3 true true).ret (.GEOSCoordSeq_setOrdinate_r cs idx dim val) ≠ 0) →
        ∃ cs, Call.GEOSGeom_createLinearRing_r cs ∈ rest) :=
  linearrings_keeps_closed_ring.1 (okEnv 3 true true) (fun _ => closedRing) 4 2 0
    ⟨emptyWorld, [0]⟩ ⟨emptyWorld, [0]⟩ (by decide) rfl (by decide)

/-! ## C10: disposal of coordinate sequences -/

/-- C10. Over a whole call of `points_func`, `linestrings_func` or
`linearrings_func`, the engine calls made obey the discipline `DisposedOnce`:
each coordinate sequence that is allocated is either, after a rejected
set-ordinate call, destroyed by the very next engine call, which is also the
last engine call of the whole call (no further ordinate is set, nothing is
built from it, the call stops), or handed exactly once to the build-geometry
call and never destroyed; and none is left open at the end. -/
theorem coordinate_sequences_disposed_once :
    (∀ (E : Env D) (in1 : Nat → Nat → D) (n_c1 n : Nat) (s : St D Addr),
      ∃ new, (points_func E in1 n_c1 n s).st.w.log = s.w.log ++ new ∧ DisposedOnce E new) ∧
    (∀ (E : Env D) (in1 : Nat → Nat → Nat → D) (n_c1 n_c2 n : Nat) (s : St D Addr),
      ∃ new, (linestrings_func E in1 n_c1 n_c2 n s).st.w.log = s.w.log ++ new ∧
        DisposedOnce E new) ∧
    (∀ (E : Env D) (in1 : Nat → Nat → Nat → D) (n_c1 n_c2 n : Nat) (s : St D Addr),
      ∃ new, (linearrings_func E in1 n_c1 n_c2 n s).st.w.log = s.w.log ++ new ∧
        DisposedOnce E new) := by
  have key : ∀ (E : Env D) (s : St D Addr) (r : Ctl (St D Addr) (St D Addr)),
      PhaseOK E s.w r → ∃ new, r.st.w.log = s.w.log ++ new ∧ DisposedOnce E new := by
    intro E s r h
    obtain ⟨new, hl, hp⟩ := h
    refine ⟨new, hl, ?_⟩
    cases r with
    | next _ => exact Or.inl hp
    | ret _ => exact hp
    | crash _ => exact hp
  refine ⟨?_, ?_, ?_⟩
  · intro E in1 n_c1 n s
    exact key E s _ (loop_phase E _ (points_body_phase E in1 n_c1) 0 n s)
  · intro E in1 n_c1 n_c2 n s
    exact key E s _ (loop_phase E _ (linestrings_body_phase E in1 n_c1 n_c2) 0 n s)
  · intro E in1 n_c1 n_c2 n s
    exact key E s _ (loop_phase E _ (linearrings_body_phase E in1 n_c1 n_c2) 0 n s)

/-- The discipline at work: with an engine that rejects the second ordinate,
`linestrings_func` over two elements creates one sequence, sets one ordinate,
has the next one rejected, destroys the sequence and makes no further call. -/
theorem linestrings_func_rejected_ordinate :
    (linestrings_func rejectingEnv (fun _ => openRing) 3 2 2 ⟨emptyWorld, [0, 0]⟩).st.w.log
      = [.GEOSCoordSeq_create_r 3 2,
         .GEOSCoordSeq_setOrdinate_r ⟨7, 3, 2, []⟩ 0 0 0,
         .GEOSCoordSeq_setOrdinate_r ⟨7, 3, 2, [(0, 0, 0)]⟩ 0 1 0,
         .GEOSCoordSeq_destroy_r ⟨7, 3, 2, [(0, 0, 0)]⟩] := by
  decide

/-- The discipline is not vacuous: a log in which a sequence is created and
never disposed of, one in which it is destroyed without a rejection, and one
in which it is built from twice are all refused. -/
theorem disposedOnce_refuses :
    ¬ DisposedOnce (okEnv 3 true true) [.GEOSCoordSeq_create_r 3 2] ∧
    ¬ DisposedOnce (okEnv 3 true true)
      [.GEOSCoordSeq_create_r 3 2, .GEOSCoordSeq_destroy_r ⟨7, 3, 2, []⟩] ∧
    ¬ DisposedOnce (okEnv 3 true true)
      [.GEOSCoordSeq_create_r 3 2, .GEOSGeom_createLineString_r ⟨7, 3, 2, []⟩,
       .GEOSGeom_createLineString_r ⟨7, 3, 2, []⟩] ∧
    ¬ DisposedOnce rejectingEnv
      [.GEOSCoordSeq_create_r 3 2, .GEOSCoordSeq_setOrdinate_r ⟨7, 3, 2, []⟩ 0 1 0,
       .GEOSGeom_createLineString_r ⟨7, 3, 2, []⟩] := by
  unfold DisposedOnce
  decide

/-! ## C14: the projection template and its -1.0 result -/

/-- C14. In `YY_d_2_func` (project, project_normalized), when element `k` is
reached with two usable handles, the value the engine returns is written at
output position `k` and the loop goes on if and only if the C comparison
`ret == -1.0` is false; when it is true the call returns at that element, for
every length `n > k`, with output position `k` and every other position as they
were. Nothing but that comparison is consulted: if the engine reported no error
during the call (the -1.0 was a legitimate distance), the call is still stopped
and the error indicator stays what it was when the element was reached. -/
theorem projection_written_iff_not_minus_one (E : Env D) (func : Ptr → Ptr → Call D)
    (in1 in2 : Nat → Addr) (k : Nat) (s sk : St D D)
    (h1 : YY_d_2_func E func in1 in2 k s = .next sk)
    (hu1 : Usable sk.w (in1 k)) (hu2 : Usable sk.w (in2 k)) :
    WrittenIffInRange
      (E.is_minus_one (E.retd (func (ptrOf sk.w (in1 k)) (ptrOf sk.w (in2 k)))) = false)
      (E.retd (func (ptrOf sk.w (in1 k)) (ptrOf sk.w (in2 k)))) k
      (geos E (func (ptrOf sk.w (in1 k)) (ptrOf sk.w (in2 k))) sk.w) sk.out
      (YY_d_2_func E func in1 in2 (k + 1) s) ∧
    (∀ n, k < n →
      E.is_minus_one (E.retd (func (ptrOf sk.w (in1 k)) (ptrOf sk.w (in2 k)))) = true →
      YY_d_2_func E func in1 in2 n s =
        .ret ⟨geos E (func (ptrOf sk.w (in1 k)) (ptrOf sk.w (in2 k))) sk.w, sk.out⟩) ∧
    (E.report (func (ptrOf sk.w (in1 k)) (ptrOf sk.w (in2 k))) = none →
      (geos E (func (ptrOf sk.w (in1 k)) (ptrOf sk.w (in2 k))) sk.w).err = sk.w.err) := by
  unfold YY_d_2_func ELEMENT_LOOP at h1 ⊢
  rw [YY_d_2_body_eq] at h1 ⊢
  refine ⟨?_, ?_, ?_⟩
  · refine writtenIff_of_step _ _ ?_ _ _ (fun _ => rfl) k _ _ _
      (scalar_step E _ _ _ _ _ k s sk h1 (firstHandleError_two _ _ _ hu1 hu2))
    cases E.is_minus_one (E.retd (func (ptrOf sk.w (in1 k)) (ptrOf sk.w (in2 k)))) <;> simp
  · intro n hn hm
    refine scalar_stop E _ _ _ _ _ n k s sk hn h1 (firstHandleError_two _ _ _ hu1 hu2) ?_
    simp [hm]
  · intro hr
    rw [geos_eq]
    simp [errAfter, hr]

/-- C14 applies: `YY_d_2_func` at its first element, two usable geometries, an
engine that answers 0: the value is written. -/
theorem projection_written_iff_not_minus_one_witness :
    YY_d_2_func (okEnv 0 true true) (Call.data_YY "GEOSProject_r") (fun _ => 1) (fun _ => 1)
        (0 + 1) ⟨oneGeometry, [5]⟩ =
      .next ⟨geos (okEnv 0 true true) (Call.data_YY "GEOSProject_r" 5 5) oneGeometry, [0]⟩ :=
  (projection_written_iff_not_minus_one (okEnv 0 true true) (Call.data_YY "GEOSProject_r")
    (fun _ => 1) (fun _ => 1) 0 ⟨oneGeometry, [5]⟩ ⟨oneGeometry, [5]⟩
    rfl ⟨by decide, by decide⟩ ⟨by decide, by decide⟩).1.1 (by decide)

/-- With an engine that answers -1.0 and reports nothing, the same call stops at
its first element: the output keeps its old content and no error is set. -/
theorem YY_d_2_func_minus_one_stops :
    YY_d_2_func silentEnv (Call.data_YY "GEOSProject_r") (fun _ => 1) (fun _ => 1) 2
        ⟨oneGeometry, [5, 5]⟩ =
      .ret ⟨⟨none, oneGeometry.heap, [Call.data_YY "GEOSProject_r" 5 5]⟩, [5, 5]⟩ := by
  decide

/-! ## C15: normalize -/

/-- C15, the code at a failing input. For a geometry with engine pointer 5 that
the engine clones to pointer 15, `GEOSNormalize_r_with_clone` calls the in-place
normalize on pointer 5, the input, and returns the clone 15, on which normalize
was never called; and when the in-place normalize reports failure (-1) it
returns null after the same two calls, so the clone 15 is never destroyed. -/
theorem GEOSNormalize_r_with_clone_normalizes_input :
    GEOSNormalize_r_with_clone cloningEnv 5 oneGeometry =
      (⟨none, oneGeometry.heap, [.GEOSGeom_clone_r 5, .GEOSNormalize_r 5]⟩, 15) ∧
    GEOSNormalize_r_with_clone failingNormalizeEnv 5 oneGeometry =
      (⟨none, oneGeometry.heap, [.GEOSGeom_clone_r 5, .GEOSNormalize_r 5]⟩, 0) ∧
    destroyCount 15 (GEOSNormalize_r_with_clone failingNormalizeEnv 5 oneGeometry).1.log = 0 := by
  decide

/-- Whatever the engine answers, when the clone is not null the calls made by
`GEOSNormalize_r_with_clone` are the clone of its argument followed by the
in-place normalize of that same argument. -/
theorem GEOSNormalize_r_with_clone_log (E : Env D) (geom : Ptr) (w : World D)
    (h : E.retp (.GEOSGeom_clone_r geom) ≠ 0) :
    (GEOSNormalize_r_with_clone E geom w).1.log =
      w.log ++ [.GEOSGeom_clone_r geom, .GEOSNormalize_r geom] := by
  unfold GEOSNormalize_r_with_clone
  simp only [if_neg h]
  split <;> simp [geos_log]

/-! ## C12: a failing hole in polygons_with_holes_func -/

/-- C12, the code at a failing input. One element whose shell (engine pointer
5) and first hole (engine pointer 6) are usable and whose second hole is not a
Geometry object: the call returns with the `TypeError` after the two clone
calls and nothing else, so the shell clone 15 and the hole clone 16 are never
passed to `GEOSGeom_destroy_r`. -/
theorem polygons_with_holes_func_leaks_clones :
    polygons_with_holes_func cloningEnv (fun _ => 1) (fun _ j => if j = 0 then 2 else 3) 2 1
        ⟨shellHoleOther, [0]⟩ =
      .ret ⟨⟨some incorrectType, shellHoleOther.heap,
        [.GEOSGeom_clone_r 5, .GEOSGeom_clone_r 6]⟩, [0]⟩ ∧
    destroyCount 15 (polygons_with_holes_func cloningEnv (fun _ => 1)
      (fun _ j => if j = 0 then 2 else 3) 2 1 ⟨shellHoleOther, [0]⟩).st.w.log = 0 ∧
    destroyCount 16 (polygons_with_holes_func cloningEnv (fun _ => 1)
      (fun _ j => if j = 0 then 2 else 3) 2 1 ⟨shellHoleOther, [0]⟩).st.w.log = 0 := by
  decide

/-! ## C13: the ordinates of a line string -/

/-- The calls `OUTPUT_Y` adds to the log are handle calls. -/
theorem OUTPUT_Y_log (E : Env D) (p : Ptr) (i : Nat) (s : St D Addr) :
    ∃ new, (OUTPUT_Y E p i s).st.w.log = s.w.log ++ new ∧
      ∀ c ∈ new, c.isHandleCall = true := by
  unfold OUTPUT_Y
  by_cases hp : p = 0
  · rw [if_pos hp]
    exact ⟨[], by simp [Ctl.st, RAISE_ILLEGAL_GEOS], by simp⟩
  · rw [if_neg hp]
    obtain ⟨new, hl, hn⟩ := new_from_ptr_log E p s.w
    by_cases hr : (GeometryObject_new_from_ptr E p s.w).2 = 0
    · simp only [hr, if_true]
      exact ⟨new, hl, hn⟩
    · simp only [hr, if_false]
      obtain ⟨new2, hl2, hn2⟩ :=
        Py_XDECREF_log (s.out.getD i 0) (GeometryObject_new_from_ptr E p s.w).1
      refine ⟨new ++ new2, ?_, ?_⟩
      · show (Py_XDECREF (s.out.getD i 0) (GeometryObject_new_from_ptr E p s.w).1).log = _
        rw [hl2, hl, List.append_assoc]
      · intro c hc
        rcases List.mem_append.1 hc with h | h
        · exact hn c h
        · exact hn2 c h

/-- A row of `SET_COORD` whose calls the engine accepts falls through, and the
calls it logs are the set-ordinate calls of the row, in column order. -/
theorem setRow_run (E : Env D) (i : Nat) (v : Nat → D) (cnt : Nat) :
    ∀ (lo : Nat) (st : World D × CoordSeq D),
    (∀ cs j, lo ≤ j → j < lo + cnt → E.ret (.GEOSCoordSeq_setOrdinate_r cs i j (v j)) ≠ 0) →
    ∃ st1 new, forRange (fun j t => SET_COORD E i j (v j) t) lo cnt st = .next st1 ∧
      st1.1.log = st.1.log ++ new ∧
      new.map Call.written = (List.range' lo cnt).map (fun j => some (i, j, v j)) := by
  induction cnt with
  | zero => intro lo st _; exact ⟨st, [], rfl, by simp, by simp⟩
  | succ cnt ih =>
    intro lo st hacc
    obtain ⟨w, cs⟩ := st
    obtain ⟨st1, new, h1, h2, h3⟩ := ih (lo + 1)
      (geos E (.GEOSCoordSeq_setOrdinate_r cs i lo (v lo)) w, cs.setOrdinate i lo (v lo))
      (fun cs j h1 h2 => hacc cs j (by omega) (by omega))
    refine ⟨st1, .GEOSCoordSeq_setOrdinate_r cs i lo (v lo) :: new, ?_, ?_, ?_⟩
    · simp only [forRange]
      rw [SET_COORD_ok E i lo (v lo) w cs (hacc cs lo (Nat.le_refl _) (by omega))]
      exact h1
    · rw [h2, geos_log]; simp
    · simp [List.range'_succ, h3, Call.written]

/-- The nested loops of `SET_COORD` whose calls the engine accepts fall through,
and the calls they log are the set-ordinate calls of all cells in row-major
order. -/
theorem setRows_run (E : Env D) (rows : Nat → Nat → D) (n_c2 : Nat) (cnt : Nat) :
    ∀ (lo : Nat) (st : World D × CoordSeq D),
    (∀ cs i j, lo ≤ i → i < lo + cnt → j < n_c2 →
      E.ret (.GEOSCoordSeq_setOrdinate_r cs i j (rows i j)) ≠ 0) →
    ∃ st1 new, forRange (fun i_c1 st1 =>
        forRange (fun i_c2 st2 => SET_COORD E i_c1 i_c2 (rows i_c1 i_c2) st2) 0 n_c2 st1)
        lo cnt st = .next st1 ∧
      st1.1.log = st.1.log ++ new ∧
      new.map Call.written = (List.range' lo cnt).flatMap
        (fun i => (List.range' 0 n_c2).map (fun j => some (i, j, rows i j))) := by
  induction cnt with
  | zero => intro lo st _; exact ⟨st, [], rfl, by simp, by simp⟩
  | succ cnt ih =>
    intro lo st hacc
    obtain ⟨t, new1, h1, h2, h3⟩ := setRow_run E lo (rows lo) n_c2 0 st
      (fun cs j _ hj => hacc cs lo j (Nat.le_refl _) (by omega) (by omega))
    obtain ⟨st1, new2, g1, g2, g3⟩ := ih (lo + 1) t
      (fun cs i j hi1 hi2 hj => hacc cs i j (by omega) (by omega) hj)
    refine ⟨st1, new1 ++ new2, ?_, ?_, ?_⟩
    · simp only [forRange]
      rw [h1]
      exact g1
    · rw [g2, h2, List.append_assoc]
    · rw [List.map_append, h3, g3, List.range'_succ, List.flatMap_cons]

theorem setCount_append (i j : Nat) (l1 l2 : List (Call D)) :
    setCount i j (l1 ++ l2) = setCount i j l1 + setCount i j l2 := by
  simp [setCount, List.countP_append]

theorem setCount_handleCalls (i j : Nat) (l : List (Call D))
    (h : ∀ c ∈ l, c.isHandleCall = true) : setCount i j l = 0 := by
  unfold setCount
  rw [List.countP_eq_zero]
  intro c hc
  have := h c hc
  cases c <;> simp_all [Call.isHandleCall]

/-- A log whose writes are those of the cells of an `n` by `d` grid, one call per
cell, addresses every cell exactly once. -/
theorem setCount_grid (n d : Nat) (f : Nat × Nat → D) (l : List (Call D))
    (h : l.map Call.written =
      (List.product (List.range n) (List.range d)).map (fun p => some (p.1, p.2, f p)))
    (i j : Nat) (hi : i < n) (hj : j < d) : setCount i j l = 1 := by
  have h1 : setCount i j l = (l.map Call.written).countP (fun o => match o with
      | some (a, b, _) => a == i && b == j
      | none => false) := by
    unfold setCount
    rw [List.countP_map]
    congr 1
    funext c
    cases c <;> rfl
  rw [h1, h, List.countP_map]
  have h2 : ((fun o : Option (Nat × Nat × D) => match o with
      | some (a, b, _) => a == i && b == j
      | none => false) ∘ fun p : Nat × Nat => some (p.1, p.2, f p)) = (fun p => @BEq.beq (Nat × Nat) instBEqOfDecidableEq p (i, j)) := by
    funext p
    obtain ⟨a, b⟩ := p
    show (a == i && b == j) = decide ((a, b) = (i, j))
    by_cases ha : a = i <;> by_cases hb : b = j <;> simp [ha, hb]
  rw [h2]
  have key := List.count_eq_one_of_mem ((List.nodup_range n).product (List.nodup_range d))
    (List.mem_product.2 ⟨List.mem_range.2 hi, List.mem_range.2 hj⟩)
  unfold List.count at key
  exact key

/-- The fill loops of a constructor, when the engine accepts the calls they
make: they fall through, having logged one set-ordinate call per cell of the
`n_c1` by `n_c2` grid in row-major order, each with the input value. -/
theorem fill_coords_run (E : Env D) (rows : Nat → Nat → D) (n_c1 n_c2 : Nat)
    (st : World D × CoordSeq D)
    (hacc : ∀ cs i j, i < n_c1 → j < n_c2 →
      E.ret (.GEOSCoordSeq_setOrdinate_r cs i j (rows i j)) ≠ 0) :
    ∃ st1 new, fill_coords E rows n_c1 n_c2 st = .next st1 ∧
      st1.1.log = st.1.log ++ new ∧
      new.map Call.written = (List.product (List.range n_c1) (List.range n_c2)).map
        (fun p => some (p.1, p.2, rows p.1 p.2)) := by
  obtain ⟨st1, new, h1, h2, h3⟩ := setRows_run E rows n_c2 n_c1 0 st
    (fun cs i j _ hi hj => hacc cs i j (by omega) hj)
  refine ⟨st1, new, h1, h2, ?_⟩
  rw [h3]
  simp only [List.product, List.range_eq_range', List.map_flatMap, List.map_map]
  rfl

/-- C13. In `linestrings_func`, for an element `k` that is reached, with `n_c1`
points and `n_c2` dimensions, when the engine returns a sequence from the create
call and accepts every set-ordinate call made for the element: the calls made
for the element are the create call with size `n_c1` and `n_c2` dimensions,
then one set-ordinate call per ordinate `(i, j)`, `i < n_c1`, `j < n_c2`, in
row-major order, each carrying the input value at row `i`, column `j`, then the
line-string constructor on the sequence, then only the calls of building the
output handle; so every ordinate is addressed by exactly one set-ordinate call,
and the sequence handed to the constructor is the created one, has `n_c1` points
and `n_c2` dimensions and holds the input value at every ordinate. For the rows
`[[0,0],[1,1],[2,2]]` the sequence handed to the constructor has 3 points (and 2
dimensions). -/
theorem linestrings_sets_each_ordinate_once :
    (∀ (E : Env D) (in1 : Nat → Nat → Nat → D) (n_c1 n_c2 k : Nat) (s sk : St D Addr),
      linestrings_func E in1 n_c1 n_c2 k s = .next sk →
      E.retp (.GEOSCoordSeq_create_r n_c1 n_c2) ≠ 0 →
      (∀ cs i j, i < n_c1 → j < n_c2 →
        E.ret (.GEOSCoordSeq_setOrdinate_r cs i j (in1 k i j)) ≠ 0) →
      ∃ sets cs rest,
        (linestrings_func E in1 n_c1 n_c2 (k + 1) s).st.w.log =
          sk.w.log ++ (.GEOSCoordSeq_create_r n_c1 n_c2 :: sets ++
            .GEOSGeom_createLineString_r cs :: rest) ∧
        sets.map Call.written = (List.product (List.range n_c1) (List.range n_c2)).map
          (fun p => some (p.1, p.2, in1 k p.1 p.2)) ∧
        (∀ i j, i < n_c1 → j < n_c2 →
          setCount i j (.GEOSCoordSeq_create_r n_c1 n_c2 :: sets ++
            .GEOSGeom_createLineString_r cs :: rest) = 1) ∧
        cs.ptr = E.retp (.GEOSCoordSeq_create_r n_c1 n_c2) ∧
        cs.size = n_c1 ∧ cs.dims = n_c2 ∧
        (∀ i j, i < n_c1 → j < n_c2 → cs.getOrdinate i j = some (in1 k i j)) ∧
        (∀ c ∈ rest, c.isHandleCall = true)) ∧
    (linestrings_func (okEnv 1 true true) (fun _ => diagonalRows) 3 2 1
        ⟨emptyWorld, [0]⟩).st.w.log.filterMap (fun c => match c with
          | .GEOSGeom_createLineString_r cs => some (cs.size, cs.dims)
          | _ => none) = [(3, 2)] := by
  refine ⟨?_, by decide⟩
  intro E in1 n_c1 n_c2 k s sk hreach hcreate hacc
  obtain ⟨st1, sets, hfill, hlog, hsets⟩ := fill_coords_run E (in1 k) n_c1 n_c2
    (geos E (.GEOSCoordSeq_create_r n_c1 n_c2) sk.w,
      ⟨E.retp (.GEOSCoordSeq_create_r n_c1 n_c2), n_c1, n_c2, []⟩) hacc
  obtain ⟨hp, hs, hd, _⟩ := (fill_coords_track E (in1 k) n_c1 n_c2 _).1 st1 hfill
  obtain ⟨hcells, _⟩ := fill_coords_cells E (in1 k) n_c1 n_c2 _ st1 hfill
  obtain ⟨rest, hrest, hhandle⟩ := OUTPUT_Y_log E
    (E.retp (.GEOSGeom_createLineString_r st1.2)) k
    ⟨geos E (.GEOSGeom_createLineString_r st1.2) st1.1, sk.out⟩
  have hbody : linestrings_func E in1 n_c1 n_c2 (k + 1) s =
      OUTPUT_Y E (E.retp (.GEOSGeom_createLineString_r st1.2)) k
        ⟨geos E (.GEOSGeom_createLineString_r st1.2) st1.1, sk.out⟩ := by
    unfold linestrings_func ELEMENT_LOOP at hreach ⊢
    rw [forRange_step _ k s sk hreach]
    simp only [linestrings_body, CREATE_COORDSEQ_ok E n_c1 n_c2 sk.w hcreate, hfill]
  refine ⟨sets, st1.2, rest, ?_, hsets, ?_, hp, hs, hd, hcells, hhandle⟩
  · rw [hbody, hrest]
    show (geos E (.GEOSGeom_createLineString_r st1.2) st1.1).log ++ rest = _
    rw [geos_log, hlog]
    show (geos E (.GEOSCoordSeq_create_r n_c1 n_c2) sk.w).log ++ sets ++ _ ++ rest = _
    rw [geos_log]
    simp
  · intro i j hi hj
    have e : (Call.GEOSCoordSeq_create_r n_c1 n_c2 :: sets ++
        Call.GEOSGeom_createLineString_r st1.2 :: rest : List (Call D)) =
        [Call.GEOSCoordSeq_create_r n_c1 n_c2] ++ (sets ++
          ([Call.GEOSGeom_createLineString_r st1.2] ++ rest)) := by simp
    rw [e, setCount_append, setCount_append, setCount_append,
      setCount_grid n_c1 n_c2 (fun p => in1 k p.1 p.2) sets hsets i j hi hj,
      setCount_handleCalls i j rest hhandle]
    rfl

/-- C13 applies: the rows `[[0,0],[1,1],[2,2]]` as the first element of a call. -/
theorem linestrings_sets_each_ordinate_once_witness :
    ∃ sets cs rest,
      (linestrings_func (okEnv 1 true true) (fun _ => diagonalRows) 3 2 (0 + 1)
        ⟨emptyWorld, [0]⟩).st.w.log =
        (⟨emptyWorld, [0]⟩ : St Int Addr).w.log ++ (.GEOSCoordSeq_create_r 3 2 :: sets ++
          .GEOSGeom_createLineString_r cs :: rest) ∧
      sets.map Call.written = (List.product (List.range 3) (List.range 2)).map
        (fun p => some (p.1, p.2, diagonalRows p.1 p.2)) ∧
      (∀ i j, i < 3 → j < 2 →
        setCount i j (.GEOSCoordSeq_create_r 3 2 :: sets ++
          .GEOSGeom_createLineString_r cs :: rest) = 1) ∧
      cs.ptr = (okEnv 1 true true).retp (.GEOSCoordSeq_create_r 3 2) ∧
      cs.size = 3 ∧ cs.dims = 2 ∧
      (∀ i j, i < 3 → j < 2 → cs.getOrdinate i j = some (diagonalRows i j)) ∧
      (∀ c ∈ rest, c.isHandleCall = true) :=
  linestrings_sets_each_ordinate_once.1 (okEnv 1 true true) (fun _ => diagonalRows) 3 2 0
    ⟨emptyWorld, [0]⟩ ⟨emptyWorld, [0]⟩ rfl (by decide) (fun _ _ _ _ _ => (by decide : (1 : Int) ≠ 0))

/-! ## C11: what polygons_with_holes_func hands to the constructor -/

theorem usable_heap (w1 w2 : World D) (h : w1.heap = w2.heap) (a : Addr) :
    Usable w1 a ↔ Usable w2 a := by
  simp [Usable, isGeometry, ptrOf, World.obj, h]

/-- An object of a heap that grew at its end is an object of the old heap or one
of the new ones. -/
theorem obj_of_append (w w1 : World D) (x : List GeometryObject) (h : w1.heap = w.heap ++ x)
    (a : Nat) (o : GeometryObject) (ho : w1.obj a = some o) : w.obj a = some o ∨ o ∈ x := by
  unfold World.obj at ho ⊢
  by_cases h0 : a = 0
  · simp [h0] at ho
  · simp only [h0, if_false] at ho ⊢
    rw [h] at ho
    by_cases hlt : a - 1 < w.heap.length
    · rw [List.getElem?_append_left hlt] at ho
      exact Or.inl ho
    · rw [List.getElem?_append_right (by omega)] at ho
      exact Or.inr (List.mem_iff_getElem?.2 ⟨_, ho⟩)

/-- The objects of a heap stay where they are when the heap grows at its end. -/
theorem obj_append (w w1 : World D) (x : List GeometryObject) (h : w1.heap = w.heap ++ x)
    (a : Nat) (o : GeometryObject) (ho : w.obj a = some o) : w1.obj a = some o := by
  obtain ⟨h0, hle⟩ := obj_le_length w a o ho
  unfold World.obj at ho ⊢
  simp only [h0, if_false] at ho ⊢
  rw [h, List.getElem?_append_left (by omega)]
  exact ho

/-- Building a handle for `p` only adds to the heap, objects that wrap `p`, and
the only pointer it can destroy is `p`. -/
theorem new_from_ptr_frame (E : Env D) (p : Ptr) (w : World D) :
    (∃ x, (GeometryObject_new_from_ptr E p w).1.heap = w.heap ++ x ∧ ∀ o ∈ x, o.ptr = p) ∧
    ∃ new, (GeometryObject_new_from_ptr E p w).1.log = w.log ++ new ∧
      (∀ c ∈ new, c.isHandleCall = true) ∧
      ∀ q, Call.GEOSGeom_destroy_r q ∈ new → q = p := by
  have hd : ∀ q, (Call.GEOSGeom_destroy_r q : Call D) ∈ destroyCalls p → q = p := by
    intro q hq
    unfold destroyCalls at hq
    by_cases h0 : p = 0
    · simp [h0] at hq
    · simp [h0] at hq; exact hq
  by_cases halloc : E.tp_alloc_ok w.heap.length = true
  · by_cases ht : E.ret (.GEOSGeomTypeId_r p) < 0 ∨ E.ret (.GEOSGeomTypeId_r p) > 255
    · rw [new_from_ptr_bad_type E p w halloc ht]
      refine ⟨⟨_, rfl, by simp⟩, [.GEOSGeomTypeId_r p] ++ destroyCalls p, by simp, ?_, ?_⟩
      · intro c hc
        rcases List.mem_append.1 hc with h | h
        · simp at h; subst h; rfl
        · exact destroyCalls_handleCalls p c h
      · intro q hq
        rcases List.mem_append.1 hq with h | h
        · simp at h
        · exact hd q h
    · by_cases hz : E.ret (.GEOSHasZ_r p) < 0 ∨ E.ret (.GEOSHasZ_r p) > 1
      · rw [new_from_ptr_bad_z E p w halloc ht hz]
        refine ⟨⟨_, rfl, by simp⟩, [.GEOSGeomTypeId_r p, .GEOSHasZ_r p] ++ destroyCalls p,
          by simp, ?_, ?_⟩
        · intro c hc
          rcases List.mem_append.1 hc with h | h
          · simp at h; rcases h with rfl | rfl <;> rfl
          · exact destroyCalls_handleCalls p c h
        · intro q hq
          rcases List.mem_append.1 hq with h | h
          · simp at h
          · exact hd q h
      · rw [new_from_ptr_ok E p w halloc ht hz]
        refine ⟨⟨_, rfl, by simp⟩, [.GEOSGeomTypeId_r p, .GEOSHasZ_r p], rfl, ?_, ?_⟩
        · intro c hc
          simp at hc; rcases hc with rfl | rfl <;> rfl
        · intro q hq
          simp at hq
  · rw [new_from_ptr_alloc_fail E p w (by simpa using halloc)]
    exact ⟨⟨[], by simp, by simp⟩, [], by simp, by simp, by simp⟩

/-- `Py_XDECREF(old)` touches no object but the one at `old`, changes no pointer
field, and the only pointer it can destroy is the one that object wraps. -/
theorem Py_XDECREF_frame (old : Nat) (w : World D) :
    (∀ b, b ≠ old → (Py_XDECREF old w).obj b = w.obj b) ∧
    (∀ a o, w.obj a = some o → ∃ o1, (Py_XDECREF old w).obj a = some o1 ∧ o1.ptr = o.ptr) ∧
    ∃ new, (Py_XDECREF old w).log = w.log ++ new ∧
      (∀ c ∈ new, c.isHandleCall = true) ∧
      ∀ q, Call.GEOSGeom_destroy_r q ∈ new → ∃ o, w.obj old = some o ∧ o.ptr = q := by
  unfold Py_XDECREF
  by_cases h0 : old = 0
  · rw [if_pos h0]
    exact ⟨fun _ _ => rfl, fun a o h => ⟨o, h, rfl⟩, [], by simp, by simp, by simp⟩
  · rw [if_neg h0]
    cases hobj : w.obj old with
    | none =>
      have e : Py_DECREF old w = w := by simp [Py_DECREF, hobj]
      rw [e]
      exact ⟨fun _ _ => rfl, fun a o h => ⟨o, h, rfl⟩, [], by simp, by simp, by simp⟩
    | some o =>
      obtain ⟨⟨o1, h1, -, hptr, -, -⟩, hothers, -, hl⟩ := Py_DECREF_obj w old o hobj
      refine ⟨hothers, ?_, _, hl, ?_, ?_⟩
      · intro a oa ha
        by_cases hao : a = old
        · subst hao
          rw [hobj] at ha
          cases ha
          exact ⟨o1, h1, hptr⟩
        · exact ⟨oa, by rw [hothers a hao]; exact ha, rfl⟩
      · intro c hc
        by_cases hcond : o.ob_refcnt - 1 = 0 ∧ o.is_geometry = true
        · rw [if_pos hcond] at hc
          exact destroyCalls_handleCalls _ c hc
        · rw [if_neg hcond] at hc
          simp at hc
      · intro q hq
        by_cases hcond : o.ob_refcnt - 1 = 0 ∧ o.is_geometry = true
        · rw [if_pos hcond] at hq
          refine ⟨o, rfl, ?_⟩
          unfold destroyCalls at hq
          by_cases hp0 : o.ptr = 0
          · simp [hp0] at hq
          · simp [hp0] at hq; exact hq.symm
        · rw [if_neg hcond] at hq
          simp at hq

/-- What `OUTPUT_Y` does to the objects that exist when it starts: every object
other than the previous occupant of slot `i` is left as it was, no object has
its pointer field changed, and the only pointers that can be destroyed are `p`
(when building its handle fails) and the one the previous occupant wraps. -/
theorem OUTPUT_Y_frame (E : Env D) (p : Ptr) (i : Nat) (s : St D Addr) :
    (∀ a o, s.w.obj a = some o → a ≠ s.out.getD i 0 →
      (OUTPUT_Y E p i s).st.w.obj a = some o) ∧
    (∀ a o, s.w.obj a = some o →
      ∃ o1, (OUTPUT_Y E p i s).st.w.obj a = some o1 ∧ o1.ptr = o.ptr) ∧
    ∃ new, (OUTPUT_Y E p i s).st.w.log = s.w.log ++ new ∧
      (∀ c ∈ new, c.isHandleCall = true) ∧
      ∀ q, Call.GEOSGeom_destroy_r q ∈ new →
        q = p ∨ ∃ o, s.w.obj (s.out.getD i 0) = some o ∧ o.ptr = q := by
  unfold OUTPUT_Y
  by_cases hp : p = 0
  · rw [if_pos hp]
    exact ⟨fun a o h _ => h, fun a o h => ⟨o, h, rfl⟩, [],
      by simp [Ctl.st, RAISE_ILLEGAL_GEOS], by simp, by simp⟩
  · rw [if_neg hp]
    obtain ⟨⟨x, hx, hxp⟩, new, hl, hn, hdq⟩ := new_from_ptr_frame E p s.w
    by_cases hr : (GeometryObject_new_from_ptr E p s.w).2 = 0
    · simp only [hr, if_true]
      refine ⟨fun a o h _ => ?_, fun a o h => ⟨o, ?_, rfl⟩, new, hl, hn,
        fun q hq => Or.inl (hdq q hq)⟩
      · exact obj_append s.w (GeometryObject_new_from_ptr E p s.w).1 x hx a o h
      · exact obj_append s.w (GeometryObject_new_from_ptr E p s.w).1 x hx a o h
    · simp only [hr, if_false]
      obtain ⟨hothers, hptr, new2, hl2, hn2, hdq2⟩ :=
        Py_XDECREF_frame (s.out.getD i 0) (GeometryObject_new_from_ptr E p s.w).1
      refine ⟨fun a o h hne => ?_, fun a o h => ?_, new ++ new2, ?_, ?_, ?_⟩
      · show (Py_XDECREF (s.out.getD i 0) (GeometryObject_new_from_ptr E p s.w).1).obj a = _
        rw [hothers a hne]
        exact obj_append s.w _ x hx a o h
      · exact hptr a o (obj_append s.w _ x hx a o h)
      · show (Py_XDECREF (s.out.getD i 0) (GeometryObject_new_from_ptr E p s.w).1).log = _
        rw [hl2, hl, List.append_assoc]
      · intro c hc
        rcases List.mem_append.1 hc with h | h
        · exact hn c h
        · exact hn2 c h
      · intro q hq
        rcases List.mem_append.1 hq with h | h
        · exact Or.inl (hdq q h)
        · obtain ⟨o, ho, hoq⟩ := hdq2 q h
          rcases obj_of_append s.w _ x hx _ o ho with h1 | h1
          · exact Or.inr ⟨o, h1, hoq⟩
          · exact Or.inl (by rw [← hoq]; exact hxp o h1)

/-- The hole loop of `polygons_with_holes_func` over usable holes whose clones
are not null: it falls through, the heap is untouched, the calls logged are the
clone calls of the hole pointers in input order, and the local array `holes`
holds the clone of hole `j` at position `j`. -/
theorem clone_holes_run (E : Env D) (cells : Nat → Addr) (w0 : World D) (cnt : Nat) :
    ∀ (lo : Nat) (w : World D) (holes : List Ptr), w.heap = w0.heap →
    (∀ j, lo ≤ j → j < lo + cnt → Usable w0 (cells j)) →
    (∀ j, lo ≤ j → j < lo + cnt → E.retp (.GEOSGeom_clone_r (ptrOf w0 (cells j))) ≠ 0) →
    ∃ w1 holes1, forRange (fun i_c1 (st1 : World D × List Ptr) =>
        match CHECK_GEOM E (cells i_c1) st1.1 with
        | .ret w => (.ret w : Ctl (World D × List Ptr) (World D))
        | .crash w => .crash w
        | .next w =>
          let c : Call D := .GEOSGeom_clone_r (ptrOf w (cells i_c1))
          let w1 := geos E c w
          let hole := E.retp c
          if hole = 0 then .ret w1
          else .next (w1, st1.2.set i_c1 hole)) lo cnt (w, holes) = .next (w1, holes1) ∧
      w1.heap = w0.heap ∧
      w1.log = w.log ++ (List.range' lo cnt).map
        (fun j => Call.GEOSGeom_clone_r (ptrOf w0 (cells j))) ∧
      holes1.length = holes.length ∧
      (∀ j, lo ≤ j → j < lo + cnt → j < holes.length →
        holes1[j]? = some (E.retp (.GEOSGeom_clone_r (ptrOf w0 (cells j))))) ∧
      (∀ j, ¬ (lo ≤ j ∧ j < lo + cnt) → holes1[j]? = holes[j]?) := by
  induction cnt with
  | zero =>
    intro lo w holes hh _ _
    exact ⟨w, holes, rfl, hh, by simp, rfl, fun j h1 h2 => by omega, fun _ _ => rfl⟩
  | succ cnt ih =>
    intro lo w holes hh hu hc
    have hp : ptrOf w = ptrOf w0 := ptrOf_heap w w0 hh
    have hul : Usable w (cells lo) :=
      (usable_heap w w0 hh _).2 (hu lo (Nat.le_refl _) (by omega))
    have hcl := hc lo (Nat.le_refl _) (by omega)
    obtain ⟨w1, holes1, h1, h2, h3, h4, h5, h6⟩ := ih (lo + 1)
      (geos E (.GEOSGeom_clone_r (ptrOf w0 (cells lo))) w)
      (holes.set lo (E.retp (.GEOSGeom_clone_r (ptrOf w0 (cells lo)))))
      (by rw [geos_heap]; exact hh)
      (fun j a b => hu j (by omega) (by omega)) (fun j a b => hc j (by omega) (by omega))
    refine ⟨w1, holes1, ?_, h2, ?_, ?_, ?_, ?_⟩
    · simp only [forRange, CHECK_GEOM_usable E _ _ hul, hp, if_neg hcl]
      exact h1
    · rw [h3, geos_log, List.range'_succ]
      simp
    · rw [h4, List.length_set]
    · intro j hj1 hj2 hj3
      by_cases hjl : j = lo
      · subst hjl
        rw [h6 j (by omega), List.getElem?_set_self hj3]
      · exact h5 j (by omega) (by omega) (by rw [List.length_set]; exact hj3)
    · intro j hj
      rw [h6 j (by omega), List.getElem?_set_ne (by omega)]

/-- The hole loop as `polygons_with_holes_func` starts it, over usable holes
whose clones are not null: it falls through with the clones of the holes in
input order, after the clone calls of the hole pointers in input order, the heap
untouched. -/
theorem clone_holes_ok (E : Env D) (cells : Nat → Addr) (n_c1 : Nat) (w0 w : World D)
    (hh : w.heap = w0.heap)
    (hu : ∀ j, j < n_c1 → Usable w0 (cells j))
    (hc : ∀ j, j < n_c1 → E.retp (.GEOSGeom_clone_r (ptrOf w0 (cells j))) ≠ 0) :
    ∃ w1, clone_holes E cells n_c1 (w, List.replicate n_c1 0) =
        .next (w1, (List.range n_c1).map
          (fun j => E.retp (.GEOSGeom_clone_r (ptrOf w0 (cells j))))) ∧
      w1.heap = w0.heap ∧
      w1.log = w.log ++ (List.range n_c1).map
        (fun j => Call.GEOSGeom_clone_r (ptrOf w0 (cells j))) := by
  obtain ⟨w1, holes1, h1, h2, h3, h4, h5, -⟩ := clone_holes_run E cells w0 n_c1 0 w
    (List.replicate n_c1 0) hh (fun j _ hj => hu j (by omega)) (fun j _ hj => hc j (by omega))
  have e : holes1 = (List.range n_c1).map
      (fun j => E.retp (.GEOSGeom_clone_r (ptrOf w0 (cells j)))) := by
    apply List.ext_getElem?
    intro j
    by_cases hj : j < n_c1
    · rw [h5 j (Nat.zero_le _) (by omega) (by simpa using hj), List.getElem?_map,
        List.getElem?_range hj]
      rfl
    · rw [List.getElem?_eq_none (by rw [h4]; simpa using hj),
        List.getElem?_eq_none (by simpa using hj)]
  refine ⟨w1, ?_, h2, ?_⟩
  · unfold clone_holes
    rw [h1, e]
  · rw [h3, List.range_eq_range']

/-- C11 as written fails when the output slot of the element holds the last
reference to the shell's handle (the output buffer is the input buffer): one
element, no holes, the shell at address 1 wrapping pointer 5 and usable, its
clone 15 not null. The constructor gets the clone, and then `OUTPUT_Y` releases
the previous occupant of the slot, which is the shell's handle: it is freed and
its pointer 5 is destroyed. -/
theorem polygons_with_holes_releases_aliased_shell :
    Usable oneGeometry 1 ∧
    cloningEnv.retp (.GEOSGeom_clone_r (ptrOf oneGeometry 1)) ≠ 0 ∧
    polygons_with_holes_func cloningEnv (fun _ => 1) (fun _ _ => 0) 0 1 ⟨oneGeometry, [1]⟩ =
      .next ⟨⟨none, [⟨0, true, true, 5, 0, 0⟩, ⟨1, true, false, 30, 3, 0⟩],
        [.GEOSGeom_clone_r 5, .GEOSGeom_createPolygon_r 15 [] 0, .GEOSGeomTypeId_r 30,
          .GEOSHasZ_r 30, .GEOSGeom_destroy_r 5]⟩, [2]⟩ ∧
    destroyCount 5 (polygons_with_holes_func cloningEnv (fun _ => 1) (fun _ _ => 0) 0 1
      ⟨oneGeometry, [1]⟩).st.w.log = 1 :=
  ⟨⟨by decide, by decide⟩, by decide, by decide, by decide⟩

/-- C11, as amended. In `polygons_with_holes_func`, when element `k` is reached
with a usable shell and `n_c1` usable holes and none of the clones is null: the
calls made for the element are the clone of the shell's pointer, the clones of
the hole pointers in input order, one call of the polygon constructor with the
shell's clone, the list of the hole clones in input order and the count `n_c1`,
and then only the calls of building and storing the output handle. If the
engine's clones differ from every pointer of the caller's handles, no pointer of
a caller's handle is passed to the constructor. Every object keeps its pointer
field, every object other than the previous occupant of output slot `k` is left
exactly as it was, and the only pointers destroyed are the new polygon's (when
building its handle fails) and the one wrapped by the previous occupant of
output slot `k`: a caller's handle is released only as that previous occupant. -/
theorem polygons_with_holes_passes_clones (E : Env D) (in1 : Nat → Addr)
    (in2 : Nat → Nat → Addr) (n_c1 k : Nat) (s sk : St D Addr)
    (hreach : polygons_with_holes_func E in1 in2 n_c1 k s = .next sk)
    (hshell : Usable sk.w (in1 k))
    (hholes : ∀ j, j < n_c1 → Usable sk.w (in2 k j))
    (hcs : E.retp (.GEOSGeom_clone_r (ptrOf sk.w (in1 k))) ≠ 0)
    (hch : ∀ j, j < n_c1 → E.retp (.GEOSGeom_clone_r (ptrOf sk.w (in2 k j))) ≠ 0) :
    ∃ rest,
      (polygons_with_holes_func E in1 in2 n_c1 (k + 1) s).st.w.log =
        sk.w.log ++ (.GEOSGeom_clone_r (ptrOf sk.w (in1 k)) ::
          (List.range n_c1).map (fun j => Call.GEOSGeom_clone_r (ptrOf sk.w (in2 k j))) ++
          .GEOSGeom_createPolygon_r (E.retp (.GEOSGeom_clone_r (ptrOf sk.w (in1 k))))
            ((List.range n_c1).map
              (fun j => E.retp (.GEOSGeom_clone_r (ptrOf sk.w (in2 k j))))) n_c1 :: rest) ∧
      (∀ c ∈ rest, c.isHandleCall = true) ∧
      List.countP Call.isCreatePolygon (.GEOSGeom_clone_r (ptrOf sk.w (in1 k)) ::
          (List.range n_c1).map (fun j => Call.GEOSGeom_clone_r (ptrOf sk.w (in2 k j))) ++
          .GEOSGeom_createPolygon_r (E.retp (.GEOSGeom_clone_r (ptrOf sk.w (in1 k))))
            ((List.range n_c1).map
              (fun j => E.retp (.GEOSGeom_clone_r (ptrOf sk.w (in2 k j))))) n_c1 :: rest) = 1 ∧
      ((∀ a ∈ callerHandles in1 in2 n_c1 k, ∀ b ∈ callerHandles in1 in2 n_c1 k,
          E.retp (.GEOSGeom_clone_r (ptrOf sk.w b)) ≠ ptrOf sk.w a) →
        ∀ a ∈ callerHandles in1 in2 n_c1 k,
          ptrOf sk.w a ≠ E.retp (.GEOSGeom_clone_r (ptrOf sk.w (in1 k))) ∧
          ptrOf sk.w a ∉ (List.range n_c1).map
            (fun j => E.retp (.GEOSGeom_clone_r (ptrOf sk.w (in2 k j))))) ∧
      (∀ a o, sk.w.obj a = some o →
        ∃ o1, (polygons_with_holes_func E in1 in2 n_c1 (k + 1) s).st.w.obj a = some o1 ∧
          o1.ptr = o.ptr) ∧
      (∀ a o, sk.w.obj a = some o → a ≠ sk.out.getD k 0 →
        (polygons_with_holes_func E in1 in2 n_c1 (k + 1) s).st.w.obj a = some o) ∧
      (∀ q, Call.GEOSGeom_destroy_r q ∈ rest →
        q = E.retp (.GEOSGeom_createPolygon_r (E.retp (.GEOSGeom_clone_r (ptrOf sk.w (in1 k))))
            ((List.range n_c1).map
              (fun j => E.retp (.GEOSGeom_clone_r (ptrOf sk.w (in2 k j))))) n_c1) ∨
        ∃ o, sk.w.obj (sk.out.getD k 0) = some o ∧ o.ptr = q) := by
  obtain ⟨w1, hrun, hheap, hlog⟩ := clone_holes_ok E (in2 k) n_c1 sk.w
    (geos E (.GEOSGeom_clone_r (ptrOf sk.w (in1 k))) sk.w) (geos_heap _ _ _) hholes hch
  have hbody : polygons_with_holes_func E in1 in2 n_c1 (k + 1) s =
      OUTPUT_Y E (E.retp (.GEOSGeom_createPolygon_r
          (E.retp (.GEOSGeom_clone_r (ptrOf sk.w (in1 k))))
          ((List.range n_c1).map
            (fun j => E.retp (.GEOSGeom_clone_r (ptrOf sk.w (in2 k j))))) n_c1)) k
        ⟨geos E (.GEOSGeom_createPolygon_r
          (E.retp (.GEOSGeom_clone_r (ptrOf sk.w (in1 k))))
          ((List.range n_c1).map
            (fun j => E.retp (.GEOSGeom_clone_r (ptrOf sk.w (in2 k j))))) n_c1) w1, sk.out⟩ := by
    unfold polygons_with_holes_func at hreach ⊢
    rw [forRange_step _ k s sk hreach]
    simp only [polygons_with_holes_body, CHECK_GEOM_usable E _ _ hshell, hcs, if_false, hrun]
  obtain ⟨hkeep, hptr, rest, hrest, hhandle, hdestroy⟩ := OUTPUT_Y_frame E
    (E.retp (.GEOSGeom_createPolygon_r (E.retp (.GEOSGeom_clone_r (ptrOf sk.w (in1 k))))
      ((List.range n_c1).map
        (fun j => E.retp (.GEOSGeom_clone_r (ptrOf sk.w (in2 k j))))) n_c1)) k
    ⟨geos E (.GEOSGeom_createPolygon_r (E.retp (.GEOSGeom_clone_r (ptrOf sk.w (in1 k))))
      ((List.range n_c1).map
        (fun j => E.retp (.GEOSGeom_clone_r (ptrOf sk.w (in2 k j))))) n_c1) w1, sk.out⟩
  have hobj : ∀ a, (geos E (.GEOSGeom_createPolygon_r
      (E.retp (.GEOSGeom_clone_r (ptrOf sk.w (in1 k))))
      ((List.range n_c1).map
        (fun j => E.retp (.GEOSGeom_clone_r (ptrOf sk.w (in2 k j))))) n_c1) w1).obj a =
      sk.w.obj a := by
    intro a
    simp [World.obj, geos_heap, hheap]
  rw [hbody]
  refine ⟨rest, ?_, hhandle, ?_, ?_, ?_, ?_, ?_⟩
  · rw [hrest]
    show (geos E _ w1).log ++ rest = _
    rw [geos_log, hlog, geos_log]
    simp
  · have hz : List.countP Call.isCreatePolygon rest = 0 := by
      rw [List.countP_eq_zero]
      intro c hc
      have := hhandle c hc
      cases c <;> simp_all [Call.isHandleCall, Call.isCreatePolygon]
    have hz2 : List.countP Call.isCreatePolygon ((List.range n_c1).map
        (fun j => Call.GEOSGeom_clone_r (D := D) (ptrOf sk.w (in2 k j)))) = 0 := by
      rw [List.countP_eq_zero]
      intro c hc
      obtain ⟨j, -, rfl⟩ := List.mem_map.1 hc
      simp [Call.isCreatePolygon]
    rw [List.countP_append, List.countP_cons, List.countP_cons, hz, hz2]
    simp [Call.isCreatePolygon]
  · intro hfresh a ha
    refine ⟨fun h => hfresh a ha (in1 k) (by simp [callerHandles]) h.symm, fun hmem => ?_⟩
    obtain ⟨j, hj, hje⟩ := List.mem_map.1 hmem
    exact hfresh a ha (in2 k j) (by simp [callerHandles]; exact Or.inr ⟨j, by simpa using hj, rfl⟩)
      hje
  · intro a o ho
    exact hptr a o (by rw [hobj]; exact ho)
  · intro a o ho hne
    exact hkeep a o (by rw [hobj]; exact ho) hne
  · intro q hq
    rcases hdestroy q hq with h | ⟨o, ho, hoq⟩
    · exact Or.inl h
    · exact Or.inr ⟨o, by rw [← hobj]; exact ho, hoq⟩

/-- C11 (amended) applies: one element whose shell (pointer 5) and single hole
(pointer 6) are usable, cloned by the engine to 15 and 16. -/
theorem polygons_with_holes_passes_clones_witness :
    ∃ rest,
      (polygons_with_holes_func cloningEnv (fun _ => 1) (fun _ _ => 2) 1 (0 + 1)
        ⟨shellHoleOther, [0]⟩).st.w.log =
        [.GEOSGeom_clone_r 5, .GEOSGeom_clone_r 6, .GEOSGeom_createPolygon_r 15 [16] 1] ++
          rest ∧
      (∀ c ∈ rest, c.isHandleCall = true) ∧
      (∀ a ∈ callerHandles (fun _ => 1) (fun _ _ => 2) 1 0,
        ptrOf shellHoleOther a ≠ 15 ∧ ptrOf shellHoleOther a ∉ [16]) :=
  have hu : Usable shellHoleOther 2 := ⟨by decide, by decide⟩
  have hc : cloningEnv.retp (.GEOSGeom_clone_r (ptrOf shellHoleOther 2)) ≠ 0 := by decide
  let ⟨rest, h1, h2, _, h4, _⟩ := polygons_with_holes_passes_clones cloningEnv (fun _ => 1)
    (fun _ _ => 2) 1 0 ⟨shellHoleOther, [0]⟩ ⟨shellHoleOther, [0]⟩ rfl
    ⟨by decide, by decide⟩ (fun _ _ => hu) (by decide) (fun _ _ => hc)
  ⟨rest, h1, h2, h4 (by decide)⟩

/-- However the hole loop of `polygons_with_holes_func` ends, the only calls it
makes are clone calls: in particular it returns on a failing hole without any
`GEOSGeom_destroy_r`. -/
theorem clone_holes_calls (E : Env D) (cells : Nat → Addr) (n_c1 : Nat)
    (st : World D × List Ptr) :
    (∀ st1, clone_holes E cells n_c1 st = .next st1 →
      ∃ new, st1.1.log = st.1.log ++ new ∧ ∀ c ∈ new, ∃ p, c = Call.GEOSGeom_clone_r p) ∧
    (∀ w2, clone_holes E cells n_c1 st = .ret w2 →
      ∃ new, w2.log = st.1.log ++ new ∧ ∀ c ∈ new, ∃ p, c = Call.GEOSGeom_clone_r p) := by
  have hnext : ∀ (lo cnt : Nat) (st1 : World D × List Ptr),
      forRange (fun i_c1 (st1 : World D × List Ptr) =>
        match CHECK_GEOM E (cells i_c1) st1.1 with
        | .ret w => (.ret w : Ctl (World D × List Ptr) (World D))
        | .crash w => .crash w
        | .next w =>
          let c : Call D := .GEOSGeom_clone_r (ptrOf w (cells i_c1))
          let w1 := geos E c w
          let hole := E.retp c
          if hole = 0 then .ret w1
          else .next (w1, st1.2.set i_c1 hole)) lo cnt st = .next st1 →
      ∃ new, st1.1.log = st.1.log ++ new ∧ ∀ c ∈ new, ∃ p, c = Call.GEOSGeom_clone_r p := by
    intro lo cnt st1 h
    refine forRange_inv _
      (fun _ (t : World D × List Ptr) =>
        ∃ new, t.1.log = st.1.log ++ new ∧ ∀ c ∈ new, ∃ p, c = Call.GEOSGeom_clone_r p)
      lo cnt st st1 ⟨[], by simp, by simp⟩ ?_ h
    intro i t t1 _ _ hP hb
    obtain ⟨new, hl, hn⟩ := hP
    simp only at hb
    cases hg : CHECK_GEOM E (cells i) t.1 with
    | ret w => rw [hg] at hb; cases hb
    | crash w => rw [hg] at hb; cases hb
    | next w =>
      rw [hg] at hb
      simp only at hb
      obtain ⟨-, hwl⟩ := CHECK_GEOM_frame E _ t.1 w (Or.inl hg)
      by_cases hz : E.retp (.GEOSGeom_clone_r (ptrOf w (cells i))) = 0
      · simp [hz] at hb
      · simp only [hz, if_false] at hb
        cases hb
        refine ⟨new ++ [.GEOSGeom_clone_r (ptrOf w (cells i))], ?_, ?_⟩
        · show (geos E _ w).log = _
          rw [geos_log, hwl, hl, List.append_assoc]
        · intro c hc
          rcases List.mem_append.1 hc with h1 | h1
          · exact hn c h1
          · simp at h1; exact ⟨_, h1⟩
  refine ⟨fun st1 h => hnext 0 n_c1 st1 h, fun w2 h => ?_⟩
  obtain ⟨d, t, -, h1, h2⟩ := forRange_ret_inv _ 0 n_c1 st w2 h
  obtain ⟨new, hl, hn⟩ := hnext 0 d t h1
  simp only at h2
  cases hg : CHECK_GEOM E (cells (0 + d)) t.1 with
  | ret w =>
    rw [hg] at h2
    cases h2
    obtain ⟨-, hwl⟩ := CHECK_GEOM_frame E _ t.1 w2 (Or.inr (Or.inl hg))
    exact ⟨new, by rw [hwl]; exact hl, hn⟩
  | crash w => rw [hg] at h2; cases h2
  | next w =>
    rw [hg] at h2
    simp only at h2
    obtain ⟨-, hwl⟩ := CHECK_GEOM_frame E _ t.1 w (Or.inl hg)
    by_cases hz : E.retp (.GEOSGeom_clone_r (ptrOf w (cells (0 + d)))) = 0
    · simp only [hz, if_true] at h2
      cases h2
      refine ⟨new ++ [.GEOSGeom_clone_r (ptrOf w (cells (0 + d)))], ?_, ?_⟩
      · rw [geos_log, hwl, hl, List.append_assoc]
      · intro c hc
        rcases List.mem_append.1 hc with h1 | h1
        · exact hn c h1
        · simp at h1; exact ⟨_, h1⟩
    · simp only [hz, if_false] at h2
      cases h2

/-- Whenever `polygons_with_holes_func` returns at element `k` because of a hole
(the shell was usable and its clone not null), the calls made for the element
are the shell's clone call followed by clone calls only, so nothing was passed
to `GEOSGeom_destroy_r`. -/
theorem polygons_with_holes_hole_failure (E : Env D) (in1 : Nat → Addr)
    (in2 : Nat → Nat → Addr) (n_c1 n k : Nat) (s sk : St D Addr) (w2 : World D) (hk : k < n)
    (hreach : polygons_with_holes_func E in1 in2 n_c1 k s = .next sk)
    (hshell : Usable sk.w (in1 k))
    (hcs : E.retp (.GEOSGeom_clone_r (ptrOf sk.w (in1 k))) ≠ 0)
    (hfail : clone_holes E (in2 k) n_c1
      (geos E (.GEOSGeom_clone_r (ptrOf sk.w (in1 k))) sk.w, List.replicate n_c1 0) = .ret w2) :
    polygons_with_holes_func E in1 in2 n_c1 n s = .ret ⟨w2, sk.out⟩ ∧
    ∃ new, w2.log = sk.w.log ++ .GEOSGeom_clone_r (ptrOf sk.w (in1 k)) :: new ∧
      (∀ c ∈ new, ∃ p, c = Call.GEOSGeom_clone_r p) ∧
      ∀ q, destroyCount q (.GEOSGeom_clone_r (ptrOf sk.w (in1 k)) :: new) = 0 := by
  refine ⟨?_, ?_⟩
  · unfold polygons_with_holes_func at hreach ⊢
    apply forRange_stop _ k n s sk _ hk hreach
    simp only [polygons_with_holes_body, CHECK_GEOM_usable E _ _ hshell, hcs, if_false, hfail]
  · obtain ⟨new, hl, hn⟩ := (clone_holes_calls E (in2 k) n_c1 _).2 w2 hfail
    refine ⟨new, ?_, hn, ?_⟩
    · rw [hl, geos_log]; simp
    · intro q
      unfold destroyCount
      rw [List.countP_eq_zero]
      intro c hc
      rcases List.mem_cons.1 hc with h | h
      · subst h; simp
      · obtain ⟨p, rfl⟩ := hn c h
        simp

end Ufuncs
